import Mathlib

/-!
# c-kzg-4844 Node.js bindings: validation, setup lifecycle, marshaling

A shallow embedding of `bindings/node.js/refactor/*.cxx` and
`bindings/node.js/src/new.h`.

* A JavaScript value is a `Value`; `info[i]` of a `Napi::CallbackInfo` is the
  i-th element of a list of values, `undefined` past its end.
* A JavaScript number is a `Double`, with its fraction, its infinities and
  not-a-number; conversions to integer types drop the fraction.
* `ThrowAsJavaScriptException` does not unwind the native stack: it records
  the exception and returns, and the C++ code goes on.  Every effect of a call
  (exception thrown, `calloc`, `free`, `fopen`, `fclose`, engine function
  invoked) is appended, in program order, to the event log of the `Env`.
* While an exception is pending Node-API refuses to fetch an element of an
  array (`napi_get_element` returns `napi_pending_exception`), and
  node-addon-api turns the refusal into a C++ exception or into an abort of the
  process, depending on how the addon is built: either way the dispatcher is
  left at that point (event `unwound`).  Reading the bytes of a typed array,
  the instance data, and building a boolean are not refused.
* The cryptographic engine, `calloc` and `fopen` are parameters (`Engine`,
  `Host`); the size constants of `c_kzg_4844.h` are the parameter `Constants`.
* A native pointer is an `Option`: `none` is `nullptr`.
-/

namespace CKzg

/-! ## Values of the calling runtime -/

/-- Bytes of a buffer, one natural number per byte. -/
abbrev Bytes := List Nat

/-- The element kinds of a JavaScript typed array (`napi_typedarray_type`). -/
inductive TypedArrayType where
  | napi_int8_array
  | napi_uint8_array
  | napi_uint8_clamped_array
  | napi_int16_array
  | napi_uint16_array
  | napi_int32_array
  | napi_uint32_array
  | napi_float32_array
  | napi_float64_array
  | napi_bigint64_array
  | napi_biguint64_array
  deriving DecidableEq, Repr

/-- A JavaScript number, an IEEE-754 double: not-a-number, an infinity, or a
finite value, `mantissa * 2 ^ exponent` with its sign, where
`mantissa < 2 ^ 53` and `-1074 ≤ exponent ≤ 971`.  Every finite double (the
two zeros and the subnormal numbers included) has this form, and every number
of this form is a double. -/
inductive Double where
  | nan
  | infinity (negative : Bool)
  | finite (negative : Bool) (mantissa : Nat) (exponent : Int)
      (in_range : mantissa < 2 ^ 53 ∧ -1074 ≤ exponent ∧ exponent ≤ 971)
  deriving Repr

namespace Double

/-- The double of a natural number below `2 ^ 53`. -/
def ofNat (k : Nat) (h : k < 2 ^ 53) : Double :=
  finite false k 0 ⟨h, by decide, by decide⟩

/-- The integer left of a finite double when its fraction is dropped
(truncation toward zero), which is how C++ and Node-API convert a double to an
integer type. -/
def truncate : Double → Option Int
  | nan => none
  | infinity _ => none
  | finite negative mantissa exponent _ =>
    let magnitude : Nat :=
      if 0 ≤ exponent then mantissa * 2 ^ exponent.toNat
      else mantissa / 2 ^ (-exponent).toNat
    some (if negative then -(magnitude : Int) else (magnitude : Int))

/-- `static_cast<uint64_t>(d)`: the truncated value when it lies in
`[0, 2^64)`; for every other double (below zero, too large, an infinity,
not-a-number) C++ leaves the conversion undefined: `none`. -/
def to_uint64 (d : Double) : Option Nat :=
  match d.truncate with
  | some t => if 0 ≤ t ∧ t < 2 ^ 64 then some t.toNat else none
  | none => none

end Double

/-- A runtime value (`Napi::Value`).  A number carries its double; a typed
array carries its element kind and the bytes of its view (a Node.js `Buffer`
is a typed array of kind `napi_uint8_array`). -/
inductive Value where
  | undefined
  | null
  | boolean (b : Bool)
  | number (d : Double)
  | string (s : String)
  | typedArray (kind : TypedArrayType) (data : Bytes)
  | array (elems : List Value)
  | object
  deriving Repr

namespace Value

/-- `val.IsTypedArray()`. -/
def IsTypedArray : Value → Bool
  | typedArray _ _ => true
  | _ => false

/-- `val.As<Napi::TypedArray>().TypedArrayType()`, for a typed array. -/
def TypedArrayType : Value → Option CKzg.TypedArrayType
  | typedArray kind _ => some kind
  | _ => none

/-- The bytes `array.Data()` points to, `array.ByteLength()` of them. -/
def Data : Value → Bytes
  | typedArray _ data => data
  | _ => []

/-- `array.ByteLength()`. -/
def ByteLength (v : Value) : Nat := v.Data.length

/-- `val.IsArray()`. -/
def IsArray : Value → Bool
  | array _ => true
  | _ => false

/-- The elements of `val.As<Napi::Array>()`. -/
def elems : Value → List Value
  | array es => es
  | _ => []

/-- `array.Length()`. -/
def Length (v : Value) : Nat := v.elems.length

/-- `val.IsNumber()`. -/
def IsNumber : Value → Bool
  | number _ => true
  | _ => false

/-- `static_cast<uint64_t>(val.As<Napi::Number>().DoubleValue())`: the double
with its fraction dropped, when that lies in `[0, 2^64)`.  Where C++ leaves
the conversion undefined (`Double.to_uint64` is `none`) the model takes 0; the
statements about the ids handed to the engine are made for numbers on which
the conversion is defined. -/
def DoubleValue_u64 : Value → Nat
  | number d => d.to_uint64.getD 0
  | _ => 0

/-- `static_cast<uint64_t>(val.As<Napi::Number>().Uint32Value())`
(`napi_get_value_uint32`): the double with its fraction dropped, reduced to
its bottom 32 bits; 0 for an infinity and for not-a-number. -/
def Uint32Value : Value → Nat
  | number d =>
    match d.truncate with
    | some t => (t % (2 ^ 32 : Int)).toNat
    | none => 0
  | _ => 0

end Value

/-- `array[i]` and `info[i]`: the i-th element, `undefined` past the end.
An element of an array (`Napi::Array::operator[]`, that is
`napi_get_element`) can be fetched only while no exception is pending; that
is so at every fetch of the dispatchers but those that follow a call of
`get_cell_id` in the same round of a loop, which go through
`element_after_get_cell_id`: every other throw is followed by a `return` or by
`goto out`. -/
def at_index (xs : List Value) (i : Nat) : Value := xs.getD i Value.undefined

/-- `array[i]` right after `get_cell_id(env, val)` in the same round of a loop.
Node-API refuses `napi_get_element` while a JavaScript exception is pending,
and `get_cell_id` has left one pending exactly when `val` is not a number;
node-addon-api then throws a C++ exception, which no dispatcher catches, or
aborts the process (depending on how the addon is built): `none`, the call
leaves the dispatcher there. -/
def element_after_get_cell_id (val : Value) (xs : List Value) (i : Nat) : Option Value :=
  if val.IsNumber then some (at_index xs i) else none

/-- A fresh `Uint8Array` of `n` bytes (a well-formed argument of that size). -/
def zeros (n : Nat) : Value := Value.typedArray .napi_uint8_array (List.replicate n 0)

/-! ## Engine, host and instance state -/

/-- Size constants of `c_kzg_4844.h`, which the sources include but do not
contain. -/
structure Constants where
  BYTES_PER_BLOB : Nat
  BYTES_PER_COMMITMENT : Nat
  BYTES_PER_PROOF : Nat
  BYTES_PER_FIELD_ELEMENT : Nat
  BYTES_PER_CELL : Nat
  CELLS_PER_EXT_BLOB : Nat
  deriving DecidableEq, Repr

/-- The values the constants have in the engine header the bindings are built
against (EIP-4844 / EIP-7594); used to instantiate theorems at a concrete
input. -/
def eip4844 : Constants where
  BYTES_PER_BLOB := 131072
  BYTES_PER_COMMITMENT := 48
  BYTES_PER_PROOF := 48
  BYTES_PER_FIELD_ELEMENT := 32
  BYTES_PER_CELL := 2048
  CELLS_PER_EXT_BLOB := 128

/-- Result code of an engine function (`C_KZG_RET`), as its integer code. -/
abbrev C_KZG_RET := Nat

def C_KZG_OK : C_KZG_RET := 0
def C_KZG_BADARGS : C_KZG_RET := 1
def C_KZG_ERROR : C_KZG_RET := 2
def C_KZG_MALLOC : C_KZG_RET := 3

/-- Status of the status-returning validators of `refactor/kzg.h`. -/
inductive C_KSG_TS_RET where
  | C_KZG_TS_OK
  | C_KZG_BADARGS
  | C_KZG_ERROR
  | C_KZG_MALLOC
  | C_KZG_TS_ERROR_THROWN
  deriving DecidableEq, Repr

/-- Integer code of a `C_KSG_TS_RET` enumerator (`C_KZG_TS_OK = 0`, then in
order). -/
def C_KSG_TS_RET.code : C_KSG_TS_RET → Nat
  | C_KZG_TS_OK => 0
  | C_KZG_BADARGS => 1
  | C_KZG_ERROR => 2
  | C_KZG_MALLOC => 3
  | C_KZG_TS_ERROR_THROWN => 4

/-- Status of the status-returning validators of `src/new.h`. -/
inductive C_KZG_TS_RET where
  | OK
  | BADARGS
  | ERROR
  | MALLOC
  | JS_ERROR_THROWN
  deriving DecidableEq, Repr

/-- The engine's setup object, opaque to the bindings. -/
abbrev KZGSettings := Nat

/-- Instance data of the bindings (`KzgAddonData`). -/
structure KzgAddonData where
  is_setup : Bool
  settings : KZGSettings
  deriving DecidableEq, Repr

/-- An invocation of an engine function, with the arguments it is given.  A
pointer argument that the caller may pass as `nullptr` is an `Option`. -/
inductive EngineCall where
  | load_trusted_setup_file (file : Nat) (precompute : Nat)
  | free_trusted_setup (settings : KZGSettings)
  | blob_to_kzg_commitment (blob : Bytes) (s : KZGSettings)
  | compute_kzg_proof (blob z : Option Bytes) (s : Option KZGSettings)
  | compute_blob_kzg_proof (blob commitment : Bytes) (s : KZGSettings)
  | verify_kzg_proof (commitment z y proof : Bytes) (s : KZGSettings)
  | verify_blob_kzg_proof (blob commitment proof : Bytes) (s : KZGSettings)
  | verify_blob_kzg_proof_batch (blobs commitments proofs : List Bytes) (count : Nat)
      (s : KZGSettings)
  | compute_cells_and_kzg_proofs (withProofs : Bool) (blob : Bytes) (s : KZGSettings)
  | cells_to_blob (cells : List Bytes)
  | recover_all_cells (cell_ids : List Nat) (cells : List Bytes) (num_cells : Nat)
      (s : KZGSettings)
  | verify_cell_kzg_proof (commitment : Bytes) (cell_id : Nat) (cell proof : Bytes)
      (s : KZGSettings)
  | verify_cell_kzg_proof_batch (commitments : List Bytes) (num_commitments : Nat)
      (row_indices column_indices : List Nat) (cells proofs : List Bytes) (num_cells : Nat)
      (s : KZGSettings)
  deriving DecidableEq, Repr

/-- The two JavaScript error classes the bindings throw. -/
inductive ErrorKind where
  | Error
  | TypeError
  deriving DecidableEq, Repr

/-- One observable effect of a call.  `unwound`: control leaves the
dispatcher from the middle of its body (a C++ exception thrown by
node-addon-api, or the process aborting); nothing of the dispatcher runs after
it, the label `out` included. -/
inductive Event where
  | threw (kind : ErrorKind) (msg : String)
  | calloc (buf : Nat) (count size : Nat)
  | calloc_null (count size : Nat)
  | free (buf : Nat)
  | fopen (path : String) (handle : Option Nat)
  | fclose (handle : Nat)
  | engine (call : EngineCall)
  | unwound
  deriving DecidableEq, Repr

/-- The event is the call leaving the dispatcher from the middle. -/
def Event.isUnwound : Event → Bool
  | Event.unwound => true
  | _ => false

/-- The cryptographic engine: each function gives its result code and what it
writes through its output pointers. -/
structure Engine where
  load_trusted_setup_file : KZGSettings → Nat → Nat → C_KZG_RET × KZGSettings
  blob_to_kzg_commitment : Bytes → KZGSettings → C_KZG_RET × Bytes
  compute_kzg_proof : Option Bytes → Option Bytes → Option KZGSettings → C_KZG_RET × Bytes × Bytes
  compute_blob_kzg_proof : Bytes → Bytes → KZGSettings → C_KZG_RET × Bytes
  verify_kzg_proof : Bytes → Bytes → Bytes → Bytes → KZGSettings → C_KZG_RET × Bool
  verify_blob_kzg_proof : Bytes → Bytes → Bytes → KZGSettings → C_KZG_RET × Bool
  verify_blob_kzg_proof_batch :
    List Bytes → List Bytes → List Bytes → Nat → KZGSettings → C_KZG_RET × Bool
  compute_cells_and_kzg_proofs : Bool → Bytes → KZGSettings → C_KZG_RET × List Bytes × List Bytes
  cells_to_blob : List Bytes → C_KZG_RET × Bytes
  recover_all_cells : List Nat → List Bytes → Nat → KZGSettings → C_KZG_RET × List Bytes
  verify_cell_kzg_proof : Bytes → Nat → Bytes → Bytes → KZGSettings → C_KZG_RET × Bool
  verify_cell_kzg_proof_batch :
    List Bytes → Nat → List Nat → List Nat → List Bytes → List Bytes → Nat → KZGSettings →
      C_KZG_RET × Bool

/-- The C library: whether the n-th `calloc` of a call (of `count` elements of
`size` bytes) succeeds, and the handle `fopen` gives for a path. -/
structure Host where
  calloc_ok : Nat → Nat → Nat → Bool
  fopen : String → Option Nat

/-- State threaded through one call: the instance data, the events so far,
and the number of `calloc` calls made so far. -/
structure Env where
  data : KzgAddonData
  log : List Event
  ncalloc : Nat
  deriving DecidableEq, Repr

namespace Env

/-- The environment at the entry of a call on an instance. -/
def start (data : KzgAddonData) : Env := ⟨data, [], 0⟩

/-- Append an event. -/
def emit (env : Env) (e : Event) : Env := { env with log := env.log ++ [e] }

/-- `Napi::Error::New(env, msg).ThrowAsJavaScriptException()` (or
`Napi::TypeError`). -/
def throwJs (env : Env) (kind : ErrorKind) (msg : String) : Env :=
  env.emit (Event.threw kind msg)

/-- The call has left the dispatcher from the middle of its body. -/
def unwound (env : Env) : Bool := env.log.any Event.isUnwound

end Env

/-! ## Validators (`refactor/kzg.cxx`) -/

/-- `from_c_kzg_ret` (`refactor/kzg.cxx:3`). -/
def from_c_kzg_ret (ret : C_KZG_RET) : String :=
  if ret = C_KZG_OK then "C_KZG_OK"
  else if ret = C_KZG_BADARGS then "C_KZG_BADARGS"
  else if ret = C_KZG_ERROR then "C_KZG_ERROR"
  else if ret = C_KZG_MALLOC then "C_KZG_MALLOC"
  else "UNKNOWN (" ++ toString ret ++ ")"

/-- `get_bytes` (`refactor/kzg.cxx:20`): the byte view of `val`, or `nullptr`
after throwing a `TypeError`. -/
def get_bytes (val : Value) (length : Nat) (name : String) (env : Env) : Option Bytes × Env :=
  if !val.IsTypedArray || val.TypedArrayType != some .napi_uint8_array then
    (none, env.throwJs .TypeError ("Expected " ++ name ++ " to be a Uint8Array"))
  else if val.ByteLength != length then
    (none, env.throwJs .TypeError
      ("Expected " ++ name ++ " to be " ++ toString length ++ " bytes"))
  else
    (some val.Data, env)

/-- `get_blob` (`refactor/kzg.cxx:42`): its body returns the pointer of
`get_bytes`, which every caller tests against `nullptr`. -/
def get_blob (K : Constants) (val : Value) (env : Env) : Option Bytes × Env :=
  get_bytes val K.BYTES_PER_BLOB "blob" env

/-- `get_bytes32` (`refactor/kzg.cxx:48`). -/
def get_bytes32 (K : Constants) (val : Value) (name : String) (env : Env) : Option Bytes × Env :=
  get_bytes val K.BYTES_PER_FIELD_ELEMENT name env

/-- `get_bytes48` (`refactor/kzg.cxx:58`). -/
def get_bytes48 (K : Constants) (val : Value) (name : String) (env : Env) : Option Bytes × Env :=
  get_bytes val K.BYTES_PER_COMMITMENT name env

/-- `get_cell` (`refactor/kzg.cxx:68`). -/
def get_cell (K : Constants) (val : Value) (env : Env) : Option Bytes × Env :=
  get_bytes val K.BYTES_PER_CELL "cell" env

/-- The enumerator a plain integer returned as a `C_KSG_TS_RET` stands for. -/
def C_KSG_TS_RET.ofCode : Nat → C_KSG_TS_RET
  | 0 => .C_KZG_TS_OK
  | 1 => .C_KZG_BADARGS
  | 2 => .C_KZG_ERROR
  | 3 => .C_KZG_MALLOC
  | _ => .C_KZG_TS_ERROR_THROWN

/-- `get_cell_id` (`refactor/kzg.cxx:74`): the status returned and the value
of the reference parameter `id` afterwards.  For a value that is not a number
it throws and executes `return 0`. -/
def get_cell_id (id : Nat) (val : Value) (env : Env) : (C_KSG_TS_RET × Nat) × Env :=
  if !val.IsNumber then
    ((C_KSG_TS_RET.ofCode 0, id), env.throwJs .TypeError "cell id should be a number")
  else
    ((C_KSG_TS_RET.C_KZG_TS_OK, val.DoubleValue_u64), env)

/-- The call `get_cell_id(env, val)` of the dispatchers, whose value they put
in a `uint64_t` slot (`uint64_t cell_id = get_cell_id(env, info[1])`,
`cell_ids[i] = get_cell_id(env, cell_ids_param[i])`).  The call sites have the
two-argument form that `src/kzg.h:148` declares
(`uint64_t get_cell_id(env, val)`), while the one body in the sources
(`refactor/kzg.cxx:74`) already takes the slot as its reference parameter
`id`.  The call is read as that body run on the slot: afterwards the slot
holds what the body assigned to `id`, the converted number; when the body
threw it assigned nothing, and the slot holds 0, which is both what a slot
fresh from `calloc` holds and what the body's `return 0` hands back under the
two-argument declaration. -/
def get_cell_id_call (val : Value) (env : Env) : Nat × Env :=
  let r := get_cell_id 0 val env
  (r.1.2, r.2)

/-! ## Status-returning validators (`src/new.h`) -/

namespace new_h

/-- `get_bytes_new` (`src/new.h:18`): the status returned and the pointer left
in the reference parameter `bytes`. -/
def get_bytes_new (val : Value) (length : Nat) (name : String) (env : Env) :
    (C_KZG_TS_RET × Option Bytes) × Env :=
  if !val.IsTypedArray || val.TypedArrayType != some .napi_uint8_array then
    ((C_KZG_TS_RET.JS_ERROR_THROWN, none),
      env.throwJs .TypeError ("Expected " ++ name ++ " to be a Uint8Array"))
  else if val.ByteLength != length then
    ((C_KZG_TS_RET.OK, none),
      env.throwJs .TypeError
        ("Expected " ++ name ++ " to be " ++ toString length ++ " bytes"))
  else
    ((C_KZG_TS_RET.OK, some val.Data), env)

/-- `get_blob_new` (`src/new.h:49`). -/
def get_blob_new (K : Constants) (val : Value) (env : Env) :
    (C_KZG_TS_RET × Option Bytes) × Env :=
  get_bytes_new val K.BYTES_PER_BLOB "blob" env

/-- `get_bytes32` (`src/new.h:57`). -/
def get_bytes32 (K : Constants) (val : Value) (name : String) (env : Env) :
    (C_KZG_TS_RET × Option Bytes) × Env :=
  get_bytes_new val K.BYTES_PER_FIELD_ELEMENT name env

/-- `get_bytes48` (`src/new.h:72`). -/
def get_bytes48 (K : Constants) (val : Value) (name : String) (env : Env) :
    (C_KZG_TS_RET × Option Bytes) × Env :=
  get_bytes_new val K.BYTES_PER_FIELD_ELEMENT name env

/-- `get_cell` (`src/new.h:87`). -/
def get_cell (K : Constants) (val : Value) (env : Env) :
    (C_KZG_TS_RET × Option Bytes) × Env :=
  get_bytes_new val K.BYTES_PER_CELL "cell" env

/-- `get_cell_id` (`src/new.h:95`): the status returned and the value of the
reference parameter `cell_id` afterwards. -/
def get_cell_id (cell_id : Nat) (val : Value) (env : Env) : (C_KZG_TS_RET × Nat) × Env :=
  if !val.IsNumber then
    ((C_KZG_TS_RET.JS_ERROR_THROWN, cell_id),
      env.throwJs .TypeError "cell id should be a number")
  else
    ((C_KZG_TS_RET.OK, val.Uint32Value), env)

end new_h

/-! ## Setup lifecycle (`refactor/kzg.cxx`) -/

/-- `get_kzg_settings` (`refactor/kzg.cxx:122`). -/
def get_kzg_settings (env : Env) : Option KZGSettings × Env :=
  if !env.data.is_setup then
    (none, env.throwJs .Error
      "Must run loadTrustedSetup before running any other c-kzg functions")
  else
    (some env.data.settings, env)

/-- `LoadTrustedSetup` (`refactor/kzg.cxx:135`).  `info[0]` and `info[1]` are
converted without a check (`As<Napi::Number>`, `As<Napi::String>`); the model
takes the converted precompute level and file path. -/
def LoadTrustedSetup (H : Host) (E : Engine) (precompute : Int) (file_path : String)
    (env : Env) : Value × Env :=
  if env.data.is_setup then
    (Value.undefined, env.throwJs .Error "Error trusted setup is already loaded")
  else
    let precompute := (precompute % (2 ^ 64 : Int)).toNat
    let file_handle := H.fopen file_path
    let env := env.emit (Event.fopen file_path file_handle)
    match file_handle with
    | none =>
      (Value.undefined, env.throwJs .Error ("Error opening trusted setup file: " ++ file_path))
    | some fh =>
      let r := E.load_trusted_setup_file env.data.settings fh precompute
      let env := env.emit (Event.engine (EngineCall.load_trusted_setup_file fh precompute))
      let env := { env with data := { env.data with settings := r.2 } }
      let env := env.emit (Event.fclose fh)
      if r.1 != C_KZG_OK then
        (Value.undefined,
          env.throwJs .Error ("Error loading trusted setup file: " ++ from_c_kzg_ret r.1))
      else
        (Value.undefined, { env with data := { env.data with is_setup := true } })

/-- `delete_kzg_addon_data` (`refactor/kzg.cxx:99`): the events of the
teardown of an instance.  The `free(data)` that ends it releases the instance
record itself, which is not one of the numbered buffers of a call. -/
def delete_kzg_addon_data (data : KzgAddonData) : List Event :=
  if data.is_setup then [Event.engine (EngineCall.free_trusted_setup data.settings)] else []

/-- The instance data `Init` installs (`refactor/kzg.cxx:195`): `is_setup` is
false, `settings` is whatever the fresh allocation holds. -/
def Init (settings : KZGSettings) : KzgAddonData := ⟨false, settings⟩

/-! ## Native buffers -/

/-- `calloc(count, size)`: the pointer (the number of the allocation) or
`nullptr`. -/
def calloc (H : Host) (count size : Nat) (env : Env) : Option Nat × Env :=
  if H.calloc_ok env.ncalloc count size then
    (some env.ncalloc,
      { env with log := env.log ++ [Event.calloc env.ncalloc count size],
                 ncalloc := env.ncalloc + 1 })
  else
    (none,
      { env with log := env.log ++ [Event.calloc_null count size],
                 ncalloc := env.ncalloc + 1 })

/-- `free(p)`: nothing for `nullptr`. -/
def free (p : Option Nat) (env : Env) : Env :=
  match p with
  | none => env
  | some b => env.emit (Event.free b)

/-- `Napi::Buffer<uint8_t>::Copy(env, p, len)`: a fresh buffer holding the
`len` bytes at `p`; bytes the engine left unwritten read as zero. -/
def Buffer_Copy (p : Bytes) (len : Nat) : Value :=
  Value.typedArray .napi_uint8_array (p.take len ++ List.replicate (len - p.length) 0)

/-- The zeroed contents of `calloc(count, size)`, as `count` elements. -/
def zeroed (count size : Nat) : List Bytes := List.replicate count (List.replicate size 0)

/-- `memcpy(&buf[i], src, size)`. -/
def memcpy_at (buf : List Bytes) (i : Nat) (src : Bytes) (size : Nat) : List Bytes :=
  buf.set i (src.take size)

/-- The array built by `for (i = 0; i < n; i++) a.Set(i, Buffer::Copy(env, &buf[i], size))`. -/
def copy_out (buf : List Bytes) (n size : Nat) : Value :=
  Value.array ((List.range n).map fun i => Buffer_Copy (buf.getD i []) size)

/-- `for (i = start; i < start + n; i++) body`, where the body either goes on
(`ok`) or leaves the loop by `goto out` (`error`). -/
def for_loop {σ : Type} (body : Nat → σ → Except σ σ) : Nat → Nat → σ → Except σ σ
  | 0, _, s => Except.ok s
  | n + 1, i, s =>
    match body i s with
    | Except.error s1 => Except.error s1
    | Except.ok s1 => for_loop body n (i + 1) s1

/-! ## Dispatchers of `refactor/cells_and_blobs.cxx` -/

/-- `BlobToKzgCommitment` (`refactor/cells_and_blobs.cxx:13`). -/
def BlobToKzgCommitment (E : Engine) (K : Constants) (info : List Value) (env : Env) :
    Value × Env :=
  match get_blob K (at_index info 0) env with
  | (none, env) => (Value.null, env)
  | (some blob, env) =>
    match get_kzg_settings env with
    | (none, env) => (Value.null, env)
    | (some kzg_settings, env) =>
      let r := E.blob_to_kzg_commitment blob kzg_settings
      let env := env.emit (Event.engine (EngineCall.blob_to_kzg_commitment blob kzg_settings))
      if r.1 != C_KZG_OK then
        (Value.undefined,
          env.throwJs .Error ("Failed to convert blob to commitment: " ++ from_c_kzg_ret r.1))
      else
        (Buffer_Copy r.2 K.BYTES_PER_COMMITMENT, env)

/-- `ComputeCells` (`refactor/cells_and_blobs.cxx:47`). -/
def ComputeCells (H : Host) (E : Engine) (K : Constants) (info : List Value) (env : Env) :
    Value × Env :=
  match get_blob K (at_index info 0) env with
  | (none, env) => (Value.null, env)
  | (some blob, env) =>
    match get_kzg_settings env with
    | (none, env) => (Value.null, env)
    | (some kzg_settings, env) =>
      -- out: free(cells); return result;
      let out := fun (cells : Option Nat) (result : Value) (env : Env) => (result, free cells env)
      match calloc H K.CELLS_PER_EXT_BLOB K.BYTES_PER_CELL env with
      | (none, env) =>
        out none Value.null (env.throwJs .Error "Failed to allocate cells in computeCells")
      | (some cells, env) =>
        let r := E.compute_cells_and_kzg_proofs false blob kzg_settings
        let env := env.emit
          (Event.engine (EngineCall.compute_cells_and_kzg_proofs false blob kzg_settings))
        if r.1 != C_KZG_OK then
          out (some cells) Value.null
            (env.throwJs .Error ("Error in computeCells: " ++ from_c_kzg_ret r.1))
        else
          out (some cells) (copy_out r.2.1 K.CELLS_PER_EXT_BLOB K.BYTES_PER_CELL) env

/-- Body of the copy loop of `CellsToBlob` (`refactor/cells_and_blobs.cxx:129`)
and of the other loops that copy one validated cell per round. -/
def cells_loop_body (K : Constants) (cells_param : List Value) (i : Nat)
    (s : List Bytes × Env) : Except (List Bytes × Env) (List Bytes × Env) :=
  match get_cell K (at_index cells_param i) s.2 with
  | (none, env) => Except.error (s.1, env)
  | (some cell, env) => Except.ok (memcpy_at s.1 i cell K.BYTES_PER_CELL, env)

/-- `CellsToBlob` (`refactor/cells_and_blobs.cxx:105`). -/
def CellsToBlob (H : Host) (E : Engine) (K : Constants) (info : List Value) (env : Env) :
    Value × Env :=
  if !(at_index info 0).IsArray then
    (Value.null, env.throwJs .Error "Cells must be an array")
  else
    let cells_param := (at_index info 0).elems
    -- out: free(cells); return result;
    let out := fun (cells : Option Nat) (result : Value) (env : Env) => (result, free cells env)
    if cells_param.length != K.CELLS_PER_EXT_BLOB then
      out none Value.null (env.throwJs .Error "Cells must have CELLS_PER_EXT_BLOB cells")
    else
      match calloc H K.CELLS_PER_EXT_BLOB K.BYTES_PER_CELL env with
      | (none, env) =>
        out none Value.null (env.throwJs .Error "Error while allocating memory for cells")
      | (some cells, env) =>
        match for_loop (cells_loop_body K cells_param) K.CELLS_PER_EXT_BLOB 0
            (zeroed K.CELLS_PER_EXT_BLOB K.BYTES_PER_CELL, env) with
        | Except.error (_, env) => out (some cells) Value.null env
        | Except.ok (mem, env) =>
          let r := E.cells_to_blob mem
          let env := env.emit (Event.engine (EngineCall.cells_to_blob mem))
          if r.1 != C_KZG_OK then
            out (some cells) Value.null
              (env.throwJs .Error ("Error in cellsToBlob: " ++ from_c_kzg_ret r.1))
          else
            out (some cells) (Buffer_Copy r.2 K.BYTES_PER_BLOB) env

/-- Memory of the buffers `RecoverAllCells` fills in its loop. -/
structure RecoverBufs where
  cell_ids : List Nat
  cells : List Bytes

/-- Body of the loop of `RecoverAllCells` (`refactor/cells_and_blobs.cxx:224`):
`cell_ids[i] = get_cell_id(env, cell_ids_param[i])`, then
`get_cell(env, cells_param[i])`, whose argument is fetched with the exception
of `get_cell_id` pending when the id is not a number. -/
def recover_loop_body (K : Constants) (cell_ids_param cells_param : List Value) (i : Nat)
    (s : RecoverBufs × Env) : Except (RecoverBufs × Env) (RecoverBufs × Env) :=
  match get_cell_id_call (at_index cell_ids_param i) s.2 with
  | (id, env) =>
    let cell_ids := s.1.cell_ids.set i id
    match element_after_get_cell_id (at_index cell_ids_param i) cells_param i with
    | none => Except.error (⟨cell_ids, s.1.cells⟩, env.emit Event.unwound)
    | some cell_val =>
      match get_cell K cell_val env with
      | (none, env) => Except.error (⟨cell_ids, s.1.cells⟩, env)
      | (some cell, env) =>
        Except.ok (⟨cell_ids, memcpy_at s.1.cells i cell K.BYTES_PER_CELL⟩, env)

/-- `RecoverAllCells` (`refactor/cells_and_blobs.cxx:170`).  When the loop
was left from the middle (`unwound`), nothing of the dispatcher runs any more:
the label `out` is not passed, and no value is returned (the `undefined` of
the model stands for none). -/
def RecoverAllCells (H : Host) (E : Engine) (K : Constants) (info : List Value) (env : Env) :
    Value × Env :=
  if !(at_index info 0).IsArray then
    (Value.null, env.throwJs .Error "CellIds must be an array")
  else if !(at_index info 1).IsArray then
    (Value.null, env.throwJs .Error "Cells must be an array")
  else
    match get_kzg_settings env with
    | (none, env) => (Value.null, env)
    | (some kzg_settings, env) =>
      let cell_ids_param := (at_index info 0).elems
      let cells_param := (at_index info 1).elems
      -- out: free(cells); return result;
      let out := fun (cells : Option Nat) (result : Value) (env : Env) => (result, free cells env)
      if cell_ids_param.length != cells_param.length then
        out none Value.null
          (env.throwJs .Error "There must equal lengths of cellIds and cells")
      else
        let num_cells := cells_param.length
        match calloc H num_cells 8 env with
        | (none, env) =>
          out none Value.null (env.throwJs .Error "Error while allocating memory for cell_ids")
        | (some _cell_ids, env) =>
          match calloc H num_cells K.BYTES_PER_CELL env with
          | (none, env) =>
            out none Value.null (env.throwJs .Error "Error while allocating memory for cells")
          | (some cells, env) =>
            match calloc H K.CELLS_PER_EXT_BLOB K.BYTES_PER_CELL env with
            | (none, env) =>
              out (some cells) Value.null
                (env.throwJs .Error "Error while allocating memory for recovered")
            | (some _recovered, env) =>
              match for_loop (recover_loop_body K cell_ids_param cells_param) num_cells 0
                  (⟨List.replicate num_cells 0, zeroed num_cells K.BYTES_PER_CELL⟩, env) with
              | Except.error (_, env) =>
                if env.unwound then (Value.undefined, env) else out (some cells) Value.null env
              | Except.ok (mem, env) =>
                let r := E.recover_all_cells mem.cell_ids mem.cells num_cells kzg_settings
                let env := env.emit (Event.engine
                  (EngineCall.recover_all_cells mem.cell_ids mem.cells num_cells kzg_settings))
                if r.1 != C_KZG_OK then
                  out (some cells) Value.null
                    (env.throwJs .Error ("Error in recoverAllCells: " ++ from_c_kzg_ret r.1))
                else
                  out (some cells) (copy_out r.2 K.CELLS_PER_EXT_BLOB K.BYTES_PER_CELL) env

/-! ## Dispatchers of `refactor/proofs.cxx` -/

/-- The locals `blob`, `z_bytes` and `kzg_settings` of
`prepare_compute_kzg_proof` when it returns. -/
structure PreparedProofArgs where
  blob : Option Bytes
  z_bytes : Option Bytes
  kzg_settings : Option KZGSettings

/-- `prepare_compute_kzg_proof` (`refactor/proofs.cxx:3`): validates the blob,
the point and the setup, returning at the first that fails. -/
def prepare_compute_kzg_proof (K : Constants) (info : List Value) (env : Env) :
    PreparedProofArgs × Env :=
  match get_blob K (at_index info 0) env with
  | (none, env) => (⟨none, none, none⟩, env)
  | (some blob, env) =>
    match get_bytes32 K (at_index info 1) "zBytes" env with
    | (none, env) => (⟨some blob, none, none⟩, env)
    | (some z_bytes, env) =>
      match get_kzg_settings env with
      | (none, env) => (⟨some blob, some z_bytes, none⟩, env)
      | (some kzg_settings, env) => (⟨some blob, some z_bytes, some kzg_settings⟩, env)

/-- `ComputeKzgProof` (`refactor/proofs.cxx:40`): the statements of the
source in their order.  It calls `prepare_compute_kzg_proof()`, overwrites its
result without testing it, calls the engine wrapper `compute_kzg_proof()`
(`refactor/proofs.cxx:19`), tests the code returned, and throws or builds the
pair.  The source writes both calls without arguments: which blob, point and
settings the engine is handed, and where it writes `proof` and `y_out`, the
source does not say.  So that the call can be logged, the event carries the
pointers `prepare_compute_kzg_proof` obtained (null where a check failed), and
the buffers copied are the oracle's; nothing is stated about either.  What is
stated of this dispatcher rests on the order of the statements only: the
exceptions of the checks, the engine call made whatever the checks gave, the
error thrown on a code other than `C_KZG_OK`, the instance data untouched. -/
def ComputeKzgProof (E : Engine) (K : Constants) (info : List Value) (env : Env) :
    Value × Env :=
  match prepare_compute_kzg_proof K info env with
  | (args, env) =>
    let r := E.compute_kzg_proof args.blob args.z_bytes args.kzg_settings
    let env := env.emit
      (Event.engine (EngineCall.compute_kzg_proof args.blob args.z_bytes args.kzg_settings))
    if r.1 != C_KZG_OK then
      (Value.undefined, env.throwJs .Error ("Failed to compute proof: " ++ from_c_kzg_ret r.1))
    else
      (Value.array [Buffer_Copy r.2.1 K.BYTES_PER_PROOF,
                    Buffer_Copy r.2.2 K.BYTES_PER_FIELD_ELEMENT], env)

/-- `ComputeBlobKzgProof` (`refactor/proofs.cxx:74`). -/
def ComputeBlobKzgProof (E : Engine) (K : Constants) (info : List Value) (env : Env) :
    Value × Env :=
  match get_blob K (at_index info 0) env with
  | (none, env) => (Value.null, env)
  | (some blob, env) =>
    match get_bytes48 K (at_index info 1) "commitmentBytes" env with
    | (none, env) => (Value.null, env)
    | (some commitment_bytes, env) =>
      match get_kzg_settings env with
      | (none, env) => (Value.null, env)
      | (some kzg_settings, env) =>
        let r := E.compute_blob_kzg_proof blob commitment_bytes kzg_settings
        let env := env.emit (Event.engine
          (EngineCall.compute_blob_kzg_proof blob commitment_bytes kzg_settings))
        if r.1 != C_KZG_OK then
          (Value.undefined,
            env.throwJs .Error ("Error in computeBlobKzgProof: " ++ from_c_kzg_ret r.1))
        else
          (Buffer_Copy r.2 K.BYTES_PER_PROOF, env)

/-- `ComputeCellsAndKzgProofs` (`refactor/proofs.cxx:115`). -/
def ComputeCellsAndKzgProofs (H : Host) (E : Engine) (K : Constants) (info : List Value)
    (env : Env) : Value × Env :=
  match get_blob K (at_index info 0) env with
  | (none, env) => (Value.null, env)
  | (some blob, env) =>
    match get_kzg_settings env with
    | (none, env) => (Value.null, env)
    | (some kzg_settings, env) =>
      -- out: free(cells); free(proofs); return result;
      let out := fun (cells proofs : Option Nat) (result : Value) (env : Env) =>
        (result, free proofs (free cells env))
      match calloc H K.CELLS_PER_EXT_BLOB K.BYTES_PER_CELL env with
      | (none, env) =>
        out none none Value.null
          (env.throwJs .Error "Failed to allocate cells in computeCellsAndKzgProofs")
      | (some cells, env) =>
        match calloc H K.CELLS_PER_EXT_BLOB K.BYTES_PER_PROOF env with
        | (none, env) =>
          out (some cells) none Value.null
            (env.throwJs .Error "Failed to allocate proofs in computeCellsAndKzgProofs")
        | (some proofs, env) =>
          let r := E.compute_cells_and_kzg_proofs true blob kzg_settings
          let env := env.emit
            (Event.engine (EngineCall.compute_cells_and_kzg_proofs true blob kzg_settings))
          if r.1 != C_KZG_OK then
            out (some cells) (some proofs) Value.null
              (env.throwJs .Error ("Error in computeCellsAndKzgProofs: " ++ from_c_kzg_ret r.1))
          else
            out (some cells) (some proofs)
              (Value.array [copy_out r.2.1 K.CELLS_PER_EXT_BLOB K.BYTES_PER_CELL,
                            copy_out r.2.2 K.CELLS_PER_EXT_BLOB K.BYTES_PER_PROOF]) env

/-! ## Dispatchers of `refactor/verify.cxx` -/

/-- `VerifyKzgProof` (`refactor/verify.cxx:16`). -/
def VerifyKzgProof (E : Engine) (K : Constants) (info : List Value) (env : Env) :
    Value × Env :=
  match get_bytes48 K (at_index info 0) "commitmentBytes" env with
  | (none, env) => (Value.null, env)
  | (some commitment_bytes, env) =>
    match get_bytes32 K (at_index info 1) "zBytes" env with
    | (none, env) => (Value.null, env)
    | (some z_bytes, env) =>
      match get_bytes32 K (at_index info 2) "yBytes" env with
      | (none, env) => (Value.null, env)
      | (some y_bytes, env) =>
        match get_bytes48 K (at_index info 3) "proofBytes" env with
        | (none, env) => (Value.null, env)
        | (some proof_bytes, env) =>
          match get_kzg_settings env with
          | (none, env) => (Value.null, env)
          | (some kzg_settings, env) =>
            let r := E.verify_kzg_proof commitment_bytes z_bytes y_bytes proof_bytes kzg_settings
            let env := env.emit (Event.engine (EngineCall.verify_kzg_proof
              commitment_bytes z_bytes y_bytes proof_bytes kzg_settings))
            if r.1 != C_KZG_OK then
              (Value.undefined,
                env.throwJs .Error ("Failed to verify KZG proof: " ++ from_c_kzg_ret r.1))
            else
              (Value.boolean r.2, env)

/-- `VerifyBlobKzgProof` (`refactor/verify.cxx:66`). -/
def VerifyBlobKzgProof (E : Engine) (K : Constants) (info : List Value) (env : Env) :
    Value × Env :=
  match get_blob K (at_index info 0) env with
  | (none, env) => (Value.null, env)
  | (some blob_bytes, env) =>
    match get_bytes48 K (at_index info 1) "commitmentBytes" env with
    | (none, env) => (Value.null, env)
    | (some commitment_bytes, env) =>
      match get_bytes48 K (at_index info 2) "proofBytes" env with
      | (none, env) => (Value.null, env)
      | (some proof_bytes, env) =>
        match get_kzg_settings env with
        | (none, env) => (Value.null, env)
        | (some kzg_settings, env) =>
          let r := E.verify_blob_kzg_proof blob_bytes commitment_bytes proof_bytes kzg_settings
          let env := env.emit (Event.engine (EngineCall.verify_blob_kzg_proof
            blob_bytes commitment_bytes proof_bytes kzg_settings))
          if r.1 != C_KZG_OK then
            (Value.undefined,
              env.throwJs .Error ("Error in verifyBlobKzgProof: " ++ from_c_kzg_ret r.1))
          else
            (Value.boolean r.2, env)

/-- Memory of the three buffers of `VerifyBlobKzgProofBatch`. -/
structure BlobBatchBufs where
  blobs : List Bytes
  commitments : List Bytes
  proofs : List Bytes

/-- Body of the loop of `VerifyBlobKzgProofBatch` (`refactor/verify.cxx:164`). -/
def blob_batch_loop_body (K : Constants) (blobs_param commitments_param proofs_param : List Value)
    (index : Nat) (s : BlobBatchBufs × Env) :
    Except (BlobBatchBufs × Env) (BlobBatchBufs × Env) :=
  match get_blob K (at_index blobs_param index) s.2 with
  | (none, env) => Except.error (s.1, env)
  | (some blob, env) =>
    let blobs := memcpy_at s.1.blobs index blob K.BYTES_PER_BLOB
    match get_bytes48 K (at_index commitments_param index) "commitmentBytes" env with
    | (none, env) => Except.error (⟨blobs, s.1.commitments, s.1.proofs⟩, env)
    | (some commitment, env) =>
      let commitments := memcpy_at s.1.commitments index commitment K.BYTES_PER_COMMITMENT
      match get_bytes48 K (at_index proofs_param index) "proofBytes" env with
      | (none, env) => Except.error (⟨blobs, commitments, s.1.proofs⟩, env)
      | (some proof, env) =>
        Except.ok (⟨blobs, commitments, memcpy_at s.1.proofs index proof K.BYTES_PER_PROOF⟩, env)

/-- `VerifyBlobKzgProofBatch` (`refactor/verify.cxx:116`). -/
def VerifyBlobKzgProofBatch (H : Host) (E : Engine) (K : Constants) (info : List Value)
    (env : Env) : Value × Env :=
  if !((at_index info 0).IsArray && (at_index info 1).IsArray && (at_index info 2).IsArray) then
    (Value.null, env.throwJs .Error "Blobs, commitments, and proofs must all be arrays")
  else
    let blobs_param := (at_index info 0).elems
    let commitments_param := (at_index info 1).elems
    let proofs_param := (at_index info 2).elems
    match get_kzg_settings env with
    | (none, env) => (Value.null, env)
    | (some kzg_settings, env) =>
      let count := blobs_param.length
      if count != commitments_param.length || count != proofs_param.length then
        (Value.null, env.throwJs .Error "Requires equal number of blobs/commitments/proofs")
      else
        -- out: free(blobs); free(commitments); free(proofs); return result;
        let out := fun (blobs commitments proofs : Option Nat) (result : Value) (env : Env) =>
          (result, free proofs (free commitments (free blobs env)))
        match calloc H count K.BYTES_PER_BLOB env with
        | (none, env) =>
          out none none none Value.null
            (env.throwJs .Error "Error while allocating memory for blobs")
        | (some blobs, env) =>
          match calloc H count 48 env with
          | (none, env) =>
            out (some blobs) none none Value.null
              (env.throwJs .Error "Error while allocating memory for commitments")
          | (some commitments, env) =>
            match calloc H count 48 env with
            | (none, env) =>
              out (some blobs) (some commitments) none Value.null
                (env.throwJs .Error "Error while allocating memory for proofs")
            | (some proofs, env) =>
              match for_loop (blob_batch_loop_body K blobs_param commitments_param proofs_param)
                  count 0
                  (⟨zeroed count K.BYTES_PER_BLOB, zeroed count 48, zeroed count 48⟩, env) with
              | Except.error (_, env) =>
                out (some blobs) (some commitments) (some proofs) Value.null env
              | Except.ok (mem, env) =>
                let r := E.verify_blob_kzg_proof_batch mem.blobs mem.commitments mem.proofs
                  count kzg_settings
                let env := env.emit (Event.engine (EngineCall.verify_blob_kzg_proof_batch
                  mem.blobs mem.commitments mem.proofs count kzg_settings))
                if r.1 != C_KZG_OK then
                  out (some blobs) (some commitments) (some proofs) Value.null
                    (env.throwJs .Error
                      ("Error in verifyBlobKzgProofBatch: " ++ from_c_kzg_ret r.1))
                else
                  out (some blobs) (some commitments) (some proofs) (Value.boolean r.2) env

/-- `VerifyCellKzgProof` (`refactor/verify.cxx:220`). -/
def VerifyCellKzgProof (E : Engine) (K : Constants) (info : List Value) (env : Env) :
    Value × Env :=
  match get_bytes48 K (at_index info 0) "commitmentBytes" env with
  | (none, env) => (Value.null, env)
  | (some commitment_bytes, env) =>
    match get_cell_id_call (at_index info 1) env with
    | (cell_id, env) =>
      match get_cell K (at_index info 2) env with
      | (none, env) => (Value.null, env)
      | (some cell, env) =>
        match get_bytes48 K (at_index info 3) "proofBytes" env with
        | (none, env) => (Value.null, env)
        | (some proof_bytes, env) =>
          match get_kzg_settings env with
          | (none, env) => (Value.null, env)
          | (some kzg_settings, env) =>
            let r := E.verify_cell_kzg_proof commitment_bytes cell_id cell proof_bytes
              kzg_settings
            let env := env.emit (Event.engine (EngineCall.verify_cell_kzg_proof
              commitment_bytes cell_id cell proof_bytes kzg_settings))
            if r.1 != C_KZG_OK then
              (Value.undefined,
                env.throwJs .Error ("Error in verifyCellKzgProof: " ++ from_c_kzg_ret r.1))
            else
              (Value.boolean r.2, env)

/-- Memory of the five buffers of `VerifyCellKzgProofBatch`. -/
structure CellBatchBufs where
  commitments : List Bytes
  row_indices : List Nat
  column_indices : List Nat
  cells : List Bytes
  proofs : List Bytes

/-- Body of the first loop of `VerifyCellKzgProofBatch`
(`refactor/verify.cxx:355`). -/
def commitments_loop_body (K : Constants) (commitments_param : List Value) (i : Nat)
    (s : CellBatchBufs × Env) : Except (CellBatchBufs × Env) (CellBatchBufs × Env) :=
  match get_bytes48 K (at_index commitments_param i) "commitmentBytes" s.2 with
  | (none, env) => Except.error (s.1, env)
  | (some commitment, env) =>
    Except.ok ({ s.1 with
      commitments := memcpy_at s.1.commitments i commitment K.BYTES_PER_COMMITMENT }, env)

/-- Body of the second loop of `VerifyCellKzgProofBatch`
(`refactor/verify.cxx:368`): the row index, the column index, the cell and the
proof of round `i`, in this order.  `column_indices_param[i]` is fetched after
`get_cell_id` ran on the row index, `cells_param[i]` after it ran on the
column index: with its exception pending when the index is not a number. -/
def cell_batch_loop_body (K : Constants)
    (row_indices_param column_indices_param cells_param proofs_param : List Value) (i : Nat)
    (s : CellBatchBufs × Env) : Except (CellBatchBufs × Env) (CellBatchBufs × Env) :=
  match get_cell_id_call (at_index row_indices_param i) s.2 with
  | (row, env) =>
    let m := { s.1 with row_indices := s.1.row_indices.set i row }
    match element_after_get_cell_id (at_index row_indices_param i) column_indices_param i with
    | none => Except.error (m, env.emit Event.unwound)
    | some column_val =>
      match get_cell_id_call column_val env with
      | (column, env) =>
        let m := { m with column_indices := m.column_indices.set i column }
        match element_after_get_cell_id column_val cells_param i with
        | none => Except.error (m, env.emit Event.unwound)
        | some cell_val =>
          match get_cell K cell_val env with
          | (none, env) => Except.error (m, env)
          | (some cell, env) =>
            let m := { m with cells := memcpy_at m.cells i cell K.BYTES_PER_CELL }
            match get_bytes48 K (at_index proofs_param i) "proofBytes" env with
            | (none, env) => Except.error (m, env)
            | (some proof, env) =>
              Except.ok ({ m with proofs := memcpy_at m.proofs i proof K.BYTES_PER_PROOF },
                env)

/-- The five pointers `VerifyCellKzgProofBatch` frees at `out`. -/
structure CellBatchPtrs where
  commitments : Option Nat
  row_indices : Option Nat
  column_indices : Option Nat
  cells : Option Nat
  proofs : Option Nat

/-- The label `out` of `VerifyCellKzgProofBatch` (`refactor/verify.cxx:406`). -/
def cell_batch_out (p : CellBatchPtrs) (result : Value) (env : Env) : Value × Env :=
  (result,
    free p.proofs (free p.cells (free p.column_indices (free p.row_indices
      (free p.commitments env)))))

/-- `VerifyCellKzgProofBatch` (`refactor/verify.cxx:270`).  When the second
loop was left from the middle (`unwound`), nothing of the dispatcher runs any
more: the label `out` is not passed, and no value is returned (the `undefined`
of the model stands for none). -/
def VerifyCellKzgProofBatch (H : Host) (E : Engine) (K : Constants) (info : List Value)
    (env : Env) : Value × Env :=
  if !((at_index info 0).IsArray && (at_index info 1).IsArray && (at_index info 2).IsArray &&
        (at_index info 3).IsArray && (at_index info 4).IsArray) then
    (Value.null, env.throwJs .Error
      "commitments, row_indices, column_indices, cells, and proofs must be arrays")
  else
    let commitments_param := (at_index info 0).elems
    let row_indices_param := (at_index info 1).elems
    let column_indices_param := (at_index info 2).elems
    let cells_param := (at_index info 3).elems
    let proofs_param := (at_index info 4).elems
    match get_kzg_settings env with
    | (none, env) => (Value.null, env)
    | (some kzg_settings, env) =>
      let num_cells := cells_param.length
      let num_commitments := commitments_param.length
      if row_indices_param.length != num_cells || column_indices_param.length != num_cells ||
          proofs_param.length != num_cells then
        cell_batch_out ⟨none, none, none, none, none⟩ Value.null (env.throwJs .Error
          "Must have equal lengths for row_indices, column_indices, cells, and proofs")
      else
        match calloc H commitments_param.length 48 env with
        | (none, env) =>
          cell_batch_out ⟨none, none, none, none, none⟩ Value.null
            (env.throwJs .Error "Error while allocating memory for commitments")
        | (some commitments, env) =>
        match calloc H row_indices_param.length 8 env with
        | (none, env) =>
          cell_batch_out ⟨some commitments, none, none, none, none⟩ Value.null
            (env.throwJs .Error "Error while allocating memory for row_indices")
        | (some row_indices, env) =>
        match calloc H column_indices_param.length 8 env with
        | (none, env) =>
          cell_batch_out ⟨some commitments, some row_indices, none, none, none⟩ Value.null
            (env.throwJs .Error "Error while allocating memory for column_indices")
        | (some column_indices, env) =>
        match calloc H cells_param.length K.BYTES_PER_CELL env with
        | (none, env) =>
          cell_batch_out ⟨some commitments, some row_indices, some column_indices, none, none⟩
            Value.null (env.throwJs .Error "Error while allocating memory for cells")
        | (some cells, env) =>
        match calloc H proofs_param.length 48 env with
        | (none, env) =>
          cell_batch_out
            ⟨some commitments, some row_indices, some column_indices, some cells, none⟩
            Value.null (env.throwJs .Error "Error while allocating memory for proofs")
        | (some proofs, env) =>
          let ptrs : CellBatchPtrs :=
            ⟨some commitments, some row_indices, some column_indices, some cells, some proofs⟩
          let mem0 : CellBatchBufs :=
            ⟨zeroed commitments_param.length 48,
             List.replicate row_indices_param.length 0,
             List.replicate column_indices_param.length 0,
             zeroed cells_param.length K.BYTES_PER_CELL,
             zeroed proofs_param.length 48⟩
          match for_loop (commitments_loop_body K commitments_param) num_commitments 0
              (mem0, env) with
          | Except.error (_, env) => cell_batch_out ptrs Value.null env
          | Except.ok s1 =>
            match for_loop (cell_batch_loop_body K row_indices_param column_indices_param
                cells_param proofs_param) num_cells 0 s1 with
            | Except.error (_, env) =>
              if env.unwound then (Value.undefined, env) else cell_batch_out ptrs Value.null env
            | Except.ok (mem, env) =>
              let r := E.verify_cell_kzg_proof_batch mem.commitments num_commitments
                mem.row_indices mem.column_indices mem.cells mem.proofs num_cells kzg_settings
              let env := env.emit (Event.engine (EngineCall.verify_cell_kzg_proof_batch
                mem.commitments num_commitments mem.row_indices mem.column_indices mem.cells
                mem.proofs num_cells kzg_settings))
              if r.1 != C_KZG_OK then
                cell_batch_out ptrs Value.null (env.throwJs .Error
                  ("Error in verifyCellKzgProofBatch: " ++ from_c_kzg_ret r.1))
              else
                cell_batch_out ptrs (Value.boolean r.2) env

/-! ## The exported surface (`Init`, `refactor/kzg.cxx:212`) -/

/-- The exported operations other than `loadTrustedSetup`. -/
inductive Operation where
  | blobToKzgCommitment
  | computeKzgProof
  | computeBlobKzgProof
  | verifyKzgProof
  | verifyBlobKzgProof
  | verifyBlobKzgProofBatch
  | computeCells
  | computeCellsAndKzgProofs
  | cellsToBlob
  | recoverAllCells
  | verifyCellKzgProof
  | verifyCellKzgProofBatch
  deriving DecidableEq, Repr

/-- The function `Init` exports under each name. -/
def Operation.run (H : Host) (E : Engine) (K : Constants) :
    Operation → List Value → Env → Value × Env
  | blobToKzgCommitment => BlobToKzgCommitment E K
  | computeKzgProof => ComputeKzgProof E K
  | computeBlobKzgProof => ComputeBlobKzgProof E K
  | verifyKzgProof => VerifyKzgProof E K
  | verifyBlobKzgProof => VerifyBlobKzgProof E K
  | verifyBlobKzgProofBatch => VerifyBlobKzgProofBatch H E K
  | computeCells => ComputeCells H E K
  | computeCellsAndKzgProofs => ComputeCellsAndKzgProofs H E K
  | cellsToBlob => CellsToBlob H E K
  | recoverAllCells => RecoverAllCells H E K
  | verifyCellKzgProof => VerifyCellKzgProof E K
  | verifyCellKzgProofBatch => VerifyCellKzgProofBatch H E K

/-! ## Observations on an event log -/

/-- The event is a thrown exception. -/
def Event.isThrow : Event → Bool
  | Event.threw _ _ => true
  | _ => false

/-- The event is an invocation of an engine function. -/
def Event.isEngine : Event → Bool
  | Event.engine _ => true
  | _ => false

/-- The event is a successful allocation. -/
def Event.isAlloc : Event → Bool
  | Event.calloc _ _ _ => true
  | _ => false

/-- The exceptions thrown, in order. -/
def thrown (log : List Event) : List (ErrorKind × String) :=
  log.filterMap fun e => match e with
    | Event.threw k m => some (k, m)
    | _ => none

/-- The buffers successfully allocated, in order. -/
def allocated (log : List Event) : List Nat :=
  log.filterMap fun e => match e with
    | Event.calloc b _ _ => some b
    | _ => none

/-- The buffers released, in order. -/
def released (log : List Event) : List Nat :=
  log.filterMap fun e => match e with
    | Event.free b => some b
    | _ => none

/-- The engine functions invoked, in order. -/
def engine_calls (log : List Event) : List EngineCall :=
  log.filterMap fun e => match e with
    | Event.engine c => some c
    | _ => none

/-- The buffers still held at the end of a log: allocated and not released. -/
def leaked (log : List Event) : List Nat :=
  (allocated log).filter fun b => !(released log).contains b

/-- The message thrown when the setup is not loaded. -/
def not_loaded_msg : String :=
  "Must run loadTrustedSetup before running any other c-kzg functions"

/-! ## Concrete collaborators, used to instantiate theorems -/

/-- A host on which every allocation succeeds and the one file
`trusted_setup.txt` exists. -/
def host_ok : Host where
  calloc_ok := fun _ _ _ => true
  fopen := fun path => if path = "trusted_setup.txt" then some 3 else none

/-- An engine whose functions all report `C_KZG_OK` (verifiers answering
`true`, outputs empty). -/
def engine_ok : Engine where
  load_trusted_setup_file := fun _ _ _ => (C_KZG_OK, 1)
  blob_to_kzg_commitment := fun _ _ => (C_KZG_OK, [])
  compute_kzg_proof := fun _ _ _ => (C_KZG_OK, [], [])
  compute_blob_kzg_proof := fun _ _ _ => (C_KZG_OK, [])
  verify_kzg_proof := fun _ _ _ _ _ => (C_KZG_OK, true)
  verify_blob_kzg_proof := fun _ _ _ _ => (C_KZG_OK, true)
  verify_blob_kzg_proof_batch := fun _ _ _ _ _ => (C_KZG_OK, true)
  compute_cells_and_kzg_proofs := fun _ _ _ => (C_KZG_OK, [], [])
  cells_to_blob := fun _ => (C_KZG_OK, [])
  recover_all_cells := fun _ _ _ _ => (C_KZG_OK, [])
  verify_cell_kzg_proof := fun _ _ _ _ _ => (C_KZG_OK, true)
  verify_cell_kzg_proof_batch := fun _ _ _ _ _ _ _ _ => (C_KZG_OK, true)

/-- Instance data of an instance on which the setup has been loaded. -/
def loaded : KzgAddonData := ⟨true, 1⟩

/-- Instance data of an instance on which no setup has been loaded. -/
def not_loaded : KzgAddonData := ⟨false, 0⟩

/-! ## Vocabulary of the statements -/

/-- The value is a `Uint8Array` of exactly `n` bytes. -/
def HasBytes (v : Value) (n : Nat) : Prop :=
  ∃ d, v = Value.typedArray .napi_uint8_array d ∧ d.length = n

/-- From `env` to `env1` nothing happened but `TypeError`s being thrown. -/
def throwsOnly (env env1 : Env) : Prop :=
  env1.data = env.data ∧ env1.ncalloc = env.ncalloc ∧
    ∃ ms : List String, env1.log = env.log ++ ms.map (Event.threw .TypeError)

/-- From `env` to `env1` nothing happened but `TypeError`s being thrown and
then, possibly, the call leaving the dispatcher from the middle. -/
def throwsOrUnwinds (env env1 : Env) : Prop :=
  throwsOnly env env1 ∨ ∃ e, throwsOnly env e ∧ env1 = e.emit Event.unwound

/-- Each exception of a log, with the buffers that had been allocated when it
was thrown (`held` being those allocated before the log starts). -/
def raised_with (held : List Nat) : List Event → List ((ErrorKind × String) × List Nat)
  | [] => []
  | Event.threw k m :: rest => ((k, m), held) :: raised_with held rest
  | Event.calloc b _ _ :: rest => raised_with (held ++ [b]) rest
  | _ :: rest => raised_with held rest

/-- The exceptions by which a dispatcher rejects the shape of an array
argument: not an array, a wrong number of elements, arrays of unequal
lengths. -/
def shape_errors : List (ErrorKind × String) :=
  [(.Error, "Cells must be an array"),
   (.Error, "Cells must have CELLS_PER_EXT_BLOB cells"),
   (.Error, "CellIds must be an array"),
   (.Error, "There must equal lengths of cellIds and cells"),
   (.Error, "Blobs, commitments, and proofs must all be arrays"),
   (.Error, "Requires equal number of blobs/commitments/proofs"),
   (.Error, "commitments, row_indices, column_indices, cells, and proofs must be arrays"),
   (.Error, "Must have equal lengths for row_indices, column_indices, cells, and proofs")]

/-- The event is a call of `calloc`, successful or not. -/
def Event.isAllocAttempt : Event → Bool
  | Event.calloc _ _ _ => true
  | Event.calloc_null _ _ => true
  | _ => false

/-- The event is a call of `free` on a buffer. -/
def Event.isFree : Event → Bool
  | Event.free _ => true
  | _ => false

/-- The event ends a call: a `free` on a buffer, or the call leaving the
dispatcher from the middle. -/
def Event.isExit (e : Event) : Bool := e.isFree || e.isUnwound

/-- The form of the log of a dispatcher call: first exceptions thrown while
the arguments are checked (`pre`), then the allocations (`A`), then the
`TypeError`s of the element loops (`ms`), then the engine call and the errors
of a failed allocation or a failed engine call (`tail`), then the releases, or
the call leaving the dispatcher from the middle (`F`).  With `arrays`, a
`TypeError` is thrown in the loops only, and then after the `nbuf` buffers of
the call have been allocated; without, only while the arguments are checked.
With `balanced`, the call ends by the releases of the buffers allocated, in
order. -/
def Shape (arrays balanced : Bool) (nbuf : Nat) (log : List Event) : Prop :=
  ∃ (pre : List (ErrorKind × String)) (A : List Event) (ms : List String)
      (tail F : List Event),
    log = pre.map (fun x => Event.threw x.1 x.2) ++ A ++ ms.map (Event.threw .TypeError) ++
        tail ++ F ∧
    (∀ x ∈ pre, x.1 = ErrorKind.TypeError → arrays = false) ∧
    (∀ e ∈ A, e.isAllocAttempt = true) ∧
    (allocated A).Nodup ∧
    (ms ≠ [] → arrays = true ∧ allocated A = List.range nbuf ∧ nbuf ≠ 0) ∧
    (∀ e ∈ tail, e.isEngine = true ∨
      ∃ m, e = Event.threw .Error m ∧ (ErrorKind.Error, m) ∉ shape_errors) ∧
    (∀ e ∈ F, e.isExit = true) ∧
    (balanced = true → F = (allocated A).map Event.free)

/-- The operation takes arrays, whose elements it validates in a loop. -/
def Operation.takes_arrays : Operation → Bool
  | cellsToBlob => true
  | recoverAllCells => true
  | verifyBlobKzgProofBatch => true
  | verifyCellKzgProofBatch => true
  | _ => false

/-- The number of buffers an operation allocates before the loop in which it
validates the elements of its arrays: `CellsToBlob` the cells;
`RecoverAllCells` the cell ids, the cells and the recovered cells;
`VerifyBlobKzgProofBatch` the blobs, the commitments and the proofs;
`VerifyCellKzgProofBatch` the commitments, the row indices, the column
indices, the cells and the proofs.  The other operations have no such loop. -/
def Operation.element_buffers : Operation → Nat
  | cellsToBlob => 1
  | recoverAllCells => 3
  | verifyBlobKzgProofBatch => 3
  | verifyCellKzgProofBatch => 5
  | _ => 0

/-- The operation calls `get_kzg_settings` (all do but `CellsToBlob`). -/
def Operation.consults_setup : Operation → Bool
  | cellsToBlob => false
  | _ => true

/-- The arguments pass every check the dispatcher makes before it calls
`get_kzg_settings`. -/
def reaches_setup_check (K : Constants) (op : Operation) (info : List Value) : Prop :=
  match op with
  | .blobToKzgCommitment => HasBytes (at_index info 0) K.BYTES_PER_BLOB
  | .computeCells => HasBytes (at_index info 0) K.BYTES_PER_BLOB
  | .computeCellsAndKzgProofs => HasBytes (at_index info 0) K.BYTES_PER_BLOB
  | .computeKzgProof =>
    HasBytes (at_index info 0) K.BYTES_PER_BLOB ∧
      HasBytes (at_index info 1) K.BYTES_PER_FIELD_ELEMENT
  | .computeBlobKzgProof =>
    HasBytes (at_index info 0) K.BYTES_PER_BLOB ∧
      HasBytes (at_index info 1) K.BYTES_PER_COMMITMENT
  | .verifyKzgProof =>
    HasBytes (at_index info 0) K.BYTES_PER_COMMITMENT ∧
      HasBytes (at_index info 1) K.BYTES_PER_FIELD_ELEMENT ∧
      HasBytes (at_index info 2) K.BYTES_PER_FIELD_ELEMENT ∧
      HasBytes (at_index info 3) K.BYTES_PER_COMMITMENT
  | .verifyBlobKzgProof =>
    HasBytes (at_index info 0) K.BYTES_PER_BLOB ∧
      HasBytes (at_index info 1) K.BYTES_PER_COMMITMENT ∧
      HasBytes (at_index info 2) K.BYTES_PER_COMMITMENT
  | .verifyBlobKzgProofBatch =>
    (at_index info 0).IsArray = true ∧ (at_index info 1).IsArray = true ∧
      (at_index info 2).IsArray = true
  | .cellsToBlob => False
  | .recoverAllCells =>
    (at_index info 0).IsArray = true ∧ (at_index info 1).IsArray = true
  | .verifyCellKzgProof =>
    HasBytes (at_index info 0) K.BYTES_PER_COMMITMENT ∧
      HasBytes (at_index info 2) K.BYTES_PER_CELL ∧
      HasBytes (at_index info 3) K.BYTES_PER_COMMITMENT
  | .verifyCellKzgProofBatch =>
    (at_index info 0).IsArray = true ∧ (at_index info 1).IsArray = true ∧
      (at_index info 2).IsArray = true ∧ (at_index info 3).IsArray = true ∧
      (at_index info 4).IsArray = true

/-- What a call `r` of operation `op` amounts to when it stops at the loaded-check
or before it: `null` returned, no engine call, nothing allocated, at least one
exception, among them the not-loaded error exactly when the arguments pass the
checks made before the setup is consulted. -/
def StoppedUnloaded (K : Constants) (op : Operation) (info : List Value) (r : Value × Env) :
    Prop :=
  r.1 = Value.null ∧ engine_calls r.2.log = [] ∧ allocated r.2.log = [] ∧
    thrown r.2.log ≠ [] ∧
    ((ErrorKind.Error, not_loaded_msg) ∈ thrown r.2.log ↔ reaches_setup_check K op info)

/-- The value is the boolean `true`. -/
def Value.isTrue : Value → Bool
  | Value.boolean true => true
  | _ => false

/-- The message of the error `get_bytes` throws for a value that is not a
`Uint8Array`. -/
def wrong_type_msg (name : String) : String :=
  "Expected " ++ name ++ " to be a Uint8Array"

/-- The message of the error `get_bytes` throws for a `Uint8Array` of a wrong
length. -/
def wrong_length_msg (name : String) (length : Nat) : String :=
  "Expected " ++ name ++ " to be " ++ toString length ++ " bytes"

/-- The byte arguments of a single-operation dispatcher in the order its
documentation declares them (`@param`), with the size and the name of each. -/
def byte_args (K : Constants) : Operation → List (Nat × String)
  | .computeBlobKzgProof =>
    [(K.BYTES_PER_BLOB, "blob"), (K.BYTES_PER_COMMITMENT, "commitmentBytes")]
  | .verifyKzgProof =>
    [(K.BYTES_PER_COMMITMENT, "commitmentBytes"), (K.BYTES_PER_FIELD_ELEMENT, "zBytes"),
     (K.BYTES_PER_FIELD_ELEMENT, "yBytes"), (K.BYTES_PER_COMMITMENT, "proofBytes")]
  | .verifyBlobKzgProof =>
    [(K.BYTES_PER_BLOB, "blob"), (K.BYTES_PER_COMMITMENT, "commitmentBytes"),
     (K.BYTES_PER_COMMITMENT, "proofBytes")]
  | _ => []

/-- A host on which no allocation succeeds. -/
def host_no_memory : Host where
  calloc_ok := fun _ _ _ => false
  fopen := fun _ => none

/-- An engine that reports `C_KZG_OK` and writes zero-filled outputs of the
sizes of `K`. -/
def engine_zeros (K : Constants) : Engine where
  load_trusted_setup_file := fun _ _ _ => (C_KZG_OK, 1)
  blob_to_kzg_commitment := fun _ _ => (C_KZG_OK, List.replicate K.BYTES_PER_COMMITMENT 0)
  compute_kzg_proof := fun _ _ _ =>
    (C_KZG_OK, List.replicate K.BYTES_PER_PROOF 0, List.replicate K.BYTES_PER_FIELD_ELEMENT 0)
  compute_blob_kzg_proof := fun _ _ _ => (C_KZG_OK, List.replicate K.BYTES_PER_PROOF 0)
  verify_kzg_proof := fun _ _ _ _ _ => (C_KZG_OK, true)
  verify_blob_kzg_proof := fun _ _ _ _ => (C_KZG_OK, true)
  verify_blob_kzg_proof_batch := fun _ _ _ _ _ => (C_KZG_OK, true)
  compute_cells_and_kzg_proofs := fun _ _ _ =>
    (C_KZG_OK, zeroed K.CELLS_PER_EXT_BLOB K.BYTES_PER_CELL,
      zeroed K.CELLS_PER_EXT_BLOB K.BYTES_PER_PROOF)
  cells_to_blob := fun _ => (C_KZG_OK, List.replicate K.BYTES_PER_BLOB 0)
  recover_all_cells := fun _ _ _ _ =>
    (C_KZG_OK, zeroed K.CELLS_PER_EXT_BLOB K.BYTES_PER_CELL)
  verify_cell_kzg_proof := fun _ _ _ _ _ => (C_KZG_OK, true)
  verify_cell_kzg_proof_batch := fun _ _ _ _ _ _ _ _ => (C_KZG_OK, true)

/-! ## Sequences of calls on one instance -/

/-- One call on the exported surface. -/
inductive Call where
  | load (precompute : Int) (file_path : String)
  | op (o : Operation) (info : List Value)

/-- The call, made on the instance whose data is `data`. -/
def Call.run (H : Host) (E : Engine) (K : Constants) : Call → KzgAddonData → Value × Env
  | Call.load precompute file_path, data =>
    LoadTrustedSetup H E precompute file_path (Env.start data)
  | Call.op o info, data => o.run H E K info (Env.start data)

/-- The instance data after a sequence of calls. -/
def run_calls (H : Host) (E : Engine) (K : Constants) : List Call → KzgAddonData → KzgAddonData
  | [], data => data
  | c :: cs, data => run_calls H E K cs (c.run H E K data).2.data

/-- The call is a `loadTrustedSetup`. -/
def Call.isLoad : Call → Bool
  | Call.load _ _ => true
  | Call.op _ _ => false

/-- Every `loadTrustedSetup` of the sequence fails, that is, throws. -/
def all_loads_fail (H : Host) (E : Engine) (K : Constants) : List Call → KzgAddonData → Bool
  | [], _ => true
  | c :: cs, data =>
    (!c.isLoad || !(thrown (c.run H E K data).2.log).isEmpty) &&
      all_loads_fail H E K cs (c.run H E K data).2.data

/-- The result code the engine returns on a call, made on an instance holding
`data` (`load_trusted_setup_file` is handed `&data->settings`);
`free_trusted_setup` returns nothing. -/
def Engine.ret (E : Engine) (data : KzgAddonData) : EngineCall → Option C_KZG_RET
  | .load_trusted_setup_file file precompute =>
    some (E.load_trusted_setup_file data.settings file precompute).1
  | .free_trusted_setup _ => none
  | .blob_to_kzg_commitment blob s => some (E.blob_to_kzg_commitment blob s).1
  | .compute_kzg_proof blob z s => some (E.compute_kzg_proof blob z s).1
  | .compute_blob_kzg_proof blob commitment s =>
    some (E.compute_blob_kzg_proof blob commitment s).1
  | .verify_kzg_proof commitment z y proof s =>
    some (E.verify_kzg_proof commitment z y proof s).1
  | .verify_blob_kzg_proof blob commitment proof s =>
    some (E.verify_blob_kzg_proof blob commitment proof s).1
  | .verify_blob_kzg_proof_batch blobs commitments proofs count s =>
    some (E.verify_blob_kzg_proof_batch blobs commitments proofs count s).1
  | .compute_cells_and_kzg_proofs withProofs blob s =>
    some (E.compute_cells_and_kzg_proofs withProofs blob s).1
  | .cells_to_blob cells => some (E.cells_to_blob cells).1
  | .recover_all_cells cell_ids cells num_cells s =>
    some (E.recover_all_cells cell_ids cells num_cells s).1
  | .verify_cell_kzg_proof commitment cell_id cell proof s =>
    some (E.verify_cell_kzg_proof commitment cell_id cell proof s).1
  | .verify_cell_kzg_proof_batch commitments num_commitments row_indices column_indices cells
      proofs num_cells s =>
    some (E.verify_cell_kzg_proof_batch commitments num_commitments row_indices column_indices
      cells proofs num_cells s).1

@[simp] theorem log_throwJs (env : Env) (k : ErrorKind) (m : String) :
    (env.throwJs k m).log = env.log ++ [Event.threw k m] := rfl

@[simp] theorem data_throwJs (env : Env) (k : ErrorKind) (m : String) :
    (env.throwJs k m).data = env.data := rfl

@[simp] theorem ncalloc_throwJs (env : Env) (k : ErrorKind) (m : String) :
    (env.throwJs k m).ncalloc = env.ncalloc := rfl

@[simp] theorem log_emit (env : Env) (e : Event) : (env.emit e).log = env.log ++ [e] := rfl

@[simp] theorem data_emit (env : Env) (e : Event) : (env.emit e).data = env.data := rfl

@[simp] theorem ncalloc_emit (env : Env) (e : Event) : (env.emit e).ncalloc = env.ncalloc := rfl

@[simp] theorem log_free_some (b : Nat) (env : Env) :
    (free (some b) env).log = env.log ++ [Event.free b] := rfl

@[simp] theorem free_none (env : Env) : free none env = env := rfl

@[simp] theorem data_free (p : Option Nat) (env : Env) : (free p env).data = env.data := by
  cases p <;> rfl

@[simp] theorem allocated_append (l1 l2 : List Event) :
    allocated (l1 ++ l2) = allocated l1 ++ allocated l2 := by
  simp [allocated, List.filterMap_append]

@[simp] theorem released_append (l1 l2 : List Event) :
    released (l1 ++ l2) = released l1 ++ released l2 := by
  simp [released, List.filterMap_append]

@[simp] theorem engine_calls_append (l1 l2 : List Event) :
    engine_calls (l1 ++ l2) = engine_calls l1 ++ engine_calls l2 := by
  simp [engine_calls, List.filterMap_append]

@[simp] theorem allocated_throws (k : ErrorKind) (ms : List String) :
    allocated (ms.map (Event.threw k)) = [] := by
  induction ms with
  | nil => rfl
  | cons m ms ih => simp [allocated]

@[simp] theorem released_throws (k : ErrorKind) (ms : List String) :
    released (ms.map (Event.threw k)) = [] := by
  induction ms with
  | nil => rfl
  | cons m ms ih => simp [released]

@[simp] theorem engine_calls_throws (k : ErrorKind) (ms : List String) :
    engine_calls (ms.map (Event.threw k)) = [] := by
  induction ms with
  | nil => rfl
  | cons m ms ih => simp [engine_calls]

@[simp] theorem thrown_throws (k : ErrorKind) (ms : List String) :
    thrown (ms.map (Event.threw k)) = ms.map fun m => (k, m) := by
  induction ms with
  | nil => rfl
  | cons m ms ih => simpa [thrown] using ih

theorem raised_with_append (l1 l2 : List Event) :
    ∀ held, raised_with held (l1 ++ l2) =
      raised_with held l1 ++ raised_with (held ++ allocated l1) l2 := by
  induction l1 with
  | nil => intro held; simp [raised_with, allocated]
  | cons e l1 ih =>
    intro held
    cases e <;> simp [raised_with, allocated, ih, List.filterMap_cons]

theorem raised_with_throws (k : ErrorKind) (ms : List String) (held : List Nat) :
    raised_with held (ms.map (Event.threw k)) = ms.map fun m => ((k, m), held) := by
  induction ms with
  | nil => rfl
  | cons m ms ih => simp [raised_with, ih]

/-! ## Lemmas on the validators -/

theorem get_bytes_spec (v : Value) (n : Nat) (name : String) (env : Env) :
    (∃ d, v = Value.typedArray .napi_uint8_array d ∧ d.length = n ∧
        get_bytes v n name env = (some d, env)) ∨
    ((∀ d, v ≠ Value.typedArray .napi_uint8_array d) ∧
        get_bytes v n name env =
          (none, env.throwJs .TypeError ("Expected " ++ name ++ " to be a Uint8Array"))) ∨
    (∃ d, v = Value.typedArray .napi_uint8_array d ∧ d.length ≠ n ∧
        get_bytes v n name env =
          (none, env.throwJs .TypeError
            ("Expected " ++ name ++ " to be " ++ toString n ++ " bytes"))) := by
  unfold get_bytes
  cases v with
  | typedArray kind data =>
    by_cases hk : kind = .napi_uint8_array
    · subst hk
      by_cases hl : data.length = n
      · left
        exact ⟨data, rfl, hl, by
          simp [Value.IsTypedArray, Value.TypedArrayType, Value.ByteLength, Value.Data, hl]⟩
      · right; right
        exact ⟨data, rfl, hl, by
          simp [Value.IsTypedArray, Value.TypedArrayType, Value.ByteLength, Value.Data, hl]⟩
    · right; left
      refine ⟨?_, by simp [Value.IsTypedArray, Value.TypedArrayType, hk]⟩
      intro d h
      injection h with h1 h2
      exact hk h1
  | _ =>
    right; left
    refine ⟨?_, by simp [Value.IsTypedArray, Value.TypedArrayType]⟩
    intro d h
    cases h

theorem get_bytes_some {v : Value} {n : Nat} {name : String} {env env1 : Env} {d : Bytes}
    (h : get_bytes v n name env = (some d, env1)) :
    v = Value.typedArray .napi_uint8_array d ∧ d.length = n ∧ env1 = env := by
  rcases get_bytes_spec v n name env with ⟨d0, h1, h2, h3⟩ | ⟨-, h3⟩ | ⟨d0, -, -, h3⟩
  · rw [h3] at h
    simp only [Prod.mk.injEq, Option.some.injEq] at h
    obtain ⟨rfl, rfl⟩ := h
    exact ⟨h1, h2, rfl⟩
  · rw [h3] at h; simp at h
  · rw [h3] at h; simp at h

theorem get_bytes_none {v : Value} {n : Nat} {name : String} {env env1 : Env}
    (h : get_bytes v n name env = (none, env1)) :
    ¬ HasBytes v n ∧ ∃ m, env1 = env.throwJs .TypeError m := by
  rcases get_bytes_spec v n name env with ⟨d0, h1, h2, h3⟩ | ⟨h1, h3⟩ | ⟨d0, h1, h2, h3⟩
  · rw [h3] at h; simp at h
  · rw [h3] at h
    simp only [Prod.mk.injEq, true_and] at h
    refine ⟨?_, _, h.symm⟩
    rintro ⟨d, hd, -⟩
    exact h1 d hd
  · rw [h3] at h
    simp only [Prod.mk.injEq, true_and] at h
    refine ⟨?_, _, h.symm⟩
    rintro ⟨d, hd, hl⟩
    rw [h1] at hd
    injection hd with _ hd
    exact h2 (hd ▸ hl)

theorem get_bytes_of_hasBytes {v : Value} {n : Nat} (name : String) (env : Env)
    (h : HasBytes v n) : get_bytes v n name env = (some v.Data, env) := by
  obtain ⟨d, rfl, hl⟩ := h
  rcases get_bytes_spec (Value.typedArray .napi_uint8_array d) n name env with
    ⟨d0, h1, h2, h3⟩ | ⟨h1, -⟩ | ⟨d0, h1, h2, -⟩
  · injection h1 with _ h1
    subst h1
    simpa [Value.Data] using h3
  · exact absurd rfl (h1 d)
  · injection h1 with _ h1
    subst h1
    exact absurd hl h2

theorem get_bytes_short {d : Bytes} {n : Nat} (name : String) (env : Env)
    (h : d.length ≠ n) :
    get_bytes (Value.typedArray .napi_uint8_array d) n name env =
      (none, env.throwJs .TypeError
        ("Expected " ++ name ++ " to be " ++ toString n ++ " bytes")) := by
  rcases get_bytes_spec (Value.typedArray .napi_uint8_array d) n name env with
    ⟨d0, h1, h2, -⟩ | ⟨h1, -⟩ | ⟨d0, -, -, h3⟩
  · injection h1 with _ h1
    subst h1
    exact absurd h2 h
  · exact absurd rfl (h1 d)
  · exact h3

theorem throwsOnly_refl (env : Env) : throwsOnly env env :=
  ⟨rfl, rfl, [], by simp⟩

theorem throwsOnly_trans {a b c : Env} (h1 : throwsOnly a b) (h2 : throwsOnly b c) :
    throwsOnly a c := by
  obtain ⟨d1, n1, ms1, l1⟩ := h1
  obtain ⟨d2, n2, ms2, l2⟩ := h2
  exact ⟨d2.trans d1, n2.trans n1, ms1 ++ ms2, by simp [l2, l1]⟩

theorem throwsOnly_throw (env : Env) (m : String) :
    throwsOnly env (env.throwJs .TypeError m) :=
  ⟨rfl, rfl, [m], by simp⟩

theorem get_bytes_throwsOnly (v : Value) (n : Nat) (name : String) (env : Env) :
    throwsOnly env (get_bytes v n name env).2 := by
  rcases get_bytes_spec v n name env with ⟨d0, -, -, h3⟩ | ⟨-, h3⟩ | ⟨d0, -, -, h3⟩ <;>
    rw [h3]
  · exact throwsOnly_refl env
  · exact throwsOnly_throw env _
  · exact throwsOnly_throw env _

theorem get_cell_id_call_throwsOnly (v : Value) (env : Env) :
    throwsOnly env (get_cell_id_call v env).2 := by
  unfold get_cell_id_call get_cell_id
  cases h : v.IsNumber
  · simpa using throwsOnly_throw env _
  · simpa using throwsOnly_refl env

theorem get_kzg_settings_cases (env : Env) :
    (env.data.is_setup = true ∧ get_kzg_settings env = (some env.data.settings, env)) ∨
    (env.data.is_setup = false ∧
      get_kzg_settings env = (none, env.throwJs .Error not_loaded_msg)) := by
  unfold get_kzg_settings not_loaded_msg
  cases h : env.data.is_setup <;> simp

theorem calloc_cases (H : Host) (count size : Nat) (env : Env) :
    (H.calloc_ok env.ncalloc count size = true ∧
      calloc H count size env = (some env.ncalloc,
        ⟨env.data, env.log ++ [Event.calloc env.ncalloc count size], env.ncalloc + 1⟩)) ∨
    (H.calloc_ok env.ncalloc count size = false ∧
      calloc H count size env = (none,
        ⟨env.data, env.log ++ [Event.calloc_null count size], env.ncalloc + 1⟩)) := by
  unfold calloc
  cases H.calloc_ok env.ncalloc count size <;> simp

/-! ## Lemmas on the loops -/

theorem for_loop_throwsOnly {σ : Type} (envOf : σ → Env) (body : Nat → σ → Except σ σ)
    (hbody : ∀ i s r, (body i s = Except.ok r ∨ body i s = Except.error r) →
      throwsOnly (envOf s) (envOf r)) :
    ∀ n i s r, (for_loop body n i s = Except.ok r ∨ for_loop body n i s = Except.error r) →
      throwsOnly (envOf s) (envOf r) := by
  intro n
  induction n with
  | zero =>
    intro i s r h
    simp only [for_loop] at h
    rcases h with h | h
    · injection h with h; subst h; exact throwsOnly_refl _
    · cases h
  | succ n ih =>
    intro i s r h
    simp only [for_loop] at h
    cases hb : body i s with
    | error s1 =>
      rw [hb] at h
      rcases h with h | h
      · cases h
      · injection h with h; subst h; exact hbody i s s1 (Or.inr hb)
    | ok s1 =>
      rw [hb] at h
      exact throwsOnly_trans (hbody i s s1 (Or.inl hb)) (ih (i + 1) s1 r h)

theorem cells_loop_body_throwsOnly (K : Constants) (cells_param : List Value) (i : Nat)
    (s r : List Bytes × Env)
    (h : cells_loop_body K cells_param i s = Except.ok r ∨
      cells_loop_body K cells_param i s = Except.error r) : throwsOnly s.2 r.2 := by
  have hb := get_bytes_throwsOnly (at_index cells_param i) K.BYTES_PER_CELL "cell" s.2
  unfold cells_loop_body get_cell at h
  rcases hg : get_bytes (at_index cells_param i) K.BYTES_PER_CELL "cell" s.2 with ⟨_ | d, e⟩
  all_goals
    rw [hg] at h hb
    simp only [Except.ok.injEq, Except.error.injEq, false_or, or_false, reduceCtorEq] at h
    subst h
    exact hb

theorem for_loop_ok_throwsOnly {σ : Type} (envOf : σ → Env) (body : Nat → σ → Except σ σ)
    (hbody : ∀ i s r, body i s = Except.ok r → throwsOnly (envOf s) (envOf r)) :
    ∀ n i s r, for_loop body n i s = Except.ok r → throwsOnly (envOf s) (envOf r) := by
  intro n
  induction n with
  | zero =>
    intro i s r h
    simp only [for_loop] at h
    injection h with h; subst h; exact throwsOnly_refl _
  | succ n ih =>
    intro i s r h
    simp only [for_loop] at h
    cases hb : body i s with
    | error s1 => rw [hb] at h; cases h
    | ok s1 =>
      rw [hb] at h
      exact throwsOnly_trans (hbody i s s1 hb) (ih (i + 1) s1 r h)

theorem throwsOrUnwinds_trans {a b c : Env} (h1 : throwsOnly a b) (h2 : throwsOrUnwinds b c) :
    throwsOrUnwinds a c := by
  rcases h2 with h2 | ⟨e, h2, rfl⟩
  · exact Or.inl (throwsOnly_trans h1 h2)
  · exact Or.inr ⟨e, throwsOnly_trans h1 h2, rfl⟩

theorem for_loop_error_throwsOrUnwinds {σ : Type} (envOf : σ → Env)
    (body : Nat → σ → Except σ σ)
    (hok : ∀ i s r, body i s = Except.ok r → throwsOnly (envOf s) (envOf r))
    (herr : ∀ i s r, body i s = Except.error r → throwsOrUnwinds (envOf s) (envOf r)) :
    ∀ n i s r, for_loop body n i s = Except.error r →
      throwsOrUnwinds (envOf s) (envOf r) := by
  intro n
  induction n with
  | zero =>
    intro i s r h
    simp only [for_loop] at h
    cases h
  | succ n ih =>
    intro i s r h
    simp only [for_loop] at h
    cases hb : body i s with
    | error s1 =>
      rw [hb] at h
      injection h with h; subst h; exact herr i s s1 hb
    | ok s1 =>
      rw [hb] at h
      exact throwsOrUnwinds_trans (hok i s s1 hb) (ih (i + 1) s1 r h)

theorem throwsOrUnwinds_data {a b : Env} (h : throwsOrUnwinds a b) :
    b.data = a.data ∧ b.ncalloc = a.ncalloc := by
  rcases h with h | ⟨e, h, rfl⟩
  · exact ⟨h.1, h.2.1⟩
  · exact ⟨h.1, h.2.1⟩

theorem element_after_get_cell_id_cases (val : Value) (xs : List Value) (i : Nat) :
    (val.IsNumber = true ∧ element_after_get_cell_id val xs i = some (at_index xs i)) ∨
    (val.IsNumber = false ∧ element_after_get_cell_id val xs i = none) := by
  unfold element_after_get_cell_id
  cases h : val.IsNumber
  · exact Or.inr ⟨rfl, by simp⟩
  · exact Or.inl ⟨rfl, by simp⟩

theorem recover_loop_body_ok (K : Constants) (cell_ids_param cells_param : List Value)
    (i : Nat) (s r : RecoverBufs × Env)
    (h : recover_loop_body K cell_ids_param cells_param i s = Except.ok r) :
    throwsOnly s.2 r.2 := by
  have h1 := get_cell_id_call_throwsOnly (at_index cell_ids_param i) s.2
  unfold recover_loop_body get_cell at h
  rcases element_after_get_cell_id_cases (at_index cell_ids_param i) cells_param i with
    ⟨-, he⟩ | ⟨-, he⟩
  · have h2 := get_bytes_throwsOnly (at_index cells_param i) K.BYTES_PER_CELL "cell"
      (get_cell_id_call (at_index cell_ids_param i) s.2).2
    have h12 := throwsOnly_trans h1 h2
    rcases hg : get_bytes (at_index cells_param i) K.BYTES_PER_CELL "cell"
      (get_cell_id_call (at_index cell_ids_param i) s.2).2 with ⟨_ | d, e⟩
    all_goals
      rw [hg] at h12
      simp only [he, hg, Except.ok.injEq, reduceCtorEq] at h
    subst h
    exact h12
  · simp only [he, reduceCtorEq] at h

theorem recover_loop_body_error (K : Constants) (cell_ids_param cells_param : List Value)
    (i : Nat) (s r : RecoverBufs × Env)
    (h : recover_loop_body K cell_ids_param cells_param i s = Except.error r) :
    throwsOrUnwinds s.2 r.2 := by
  have h1 := get_cell_id_call_throwsOnly (at_index cell_ids_param i) s.2
  unfold recover_loop_body get_cell at h
  rcases element_after_get_cell_id_cases (at_index cell_ids_param i) cells_param i with
    ⟨-, he⟩ | ⟨-, he⟩
  · have h2 := get_bytes_throwsOnly (at_index cells_param i) K.BYTES_PER_CELL "cell"
      (get_cell_id_call (at_index cell_ids_param i) s.2).2
    have h12 := throwsOnly_trans h1 h2
    rcases hg : get_bytes (at_index cells_param i) K.BYTES_PER_CELL "cell"
      (get_cell_id_call (at_index cell_ids_param i) s.2).2 with ⟨_ | d, e⟩
    all_goals
      rw [hg] at h12
      simp only [he, hg, Except.error.injEq, reduceCtorEq] at h
    subst h
    exact Or.inl h12
  · simp only [he, Except.error.injEq] at h
    subst h
    exact Or.inr ⟨_, h1, rfl⟩

theorem recover_loop_ok (K : Constants) (cell_ids_param cells_param : List Value)
    (n i : Nat) (s r : RecoverBufs × Env)
    (h : for_loop (recover_loop_body K cell_ids_param cells_param) n i s = Except.ok r) :
    throwsOnly s.2 r.2 :=
  for_loop_ok_throwsOnly (fun x : RecoverBufs × Env => x.2) _
    (recover_loop_body_ok K cell_ids_param cells_param) n i s r h

theorem recover_loop_error (K : Constants) (cell_ids_param cells_param : List Value)
    (n i : Nat) (s r : RecoverBufs × Env)
    (h : for_loop (recover_loop_body K cell_ids_param cells_param) n i s = Except.error r) :
    throwsOrUnwinds s.2 r.2 :=
  for_loop_error_throwsOrUnwinds (fun x : RecoverBufs × Env => x.2) _
    (recover_loop_body_ok K cell_ids_param cells_param)
    (recover_loop_body_error K cell_ids_param cells_param) n i s r h

theorem blob_batch_loop_body_throwsOnly (K : Constants)
    (blobs_param commitments_param proofs_param : List Value)
    (i : Nat) (s r : BlobBatchBufs × Env)
    (h : blob_batch_loop_body K blobs_param commitments_param proofs_param i s = Except.ok r ∨
      blob_batch_loop_body K blobs_param commitments_param proofs_param i s = Except.error r) :
    throwsOnly s.2 r.2 := by
  unfold blob_batch_loop_body get_blob get_bytes48 at h
  have h1 := get_bytes_throwsOnly (at_index blobs_param i) K.BYTES_PER_BLOB "blob" s.2
  rcases hg1 : get_bytes (at_index blobs_param i) K.BYTES_PER_BLOB "blob" s.2 with ⟨_ | d1, e1⟩
  · rw [hg1] at h1
    simp only [hg1, Except.ok.injEq, Except.error.injEq, false_or, or_false, reduceCtorEq] at h
    subst h
    exact h1
  · rw [hg1] at h1
    simp only [hg1] at h
    have h2 := get_bytes_throwsOnly (at_index commitments_param i) K.BYTES_PER_COMMITMENT
      "commitmentBytes" e1
    rcases hg2 : get_bytes (at_index commitments_param i) K.BYTES_PER_COMMITMENT
      "commitmentBytes" e1 with ⟨_ | d2, e2⟩
    · rw [hg2] at h2
      simp only [hg2, Except.ok.injEq, Except.error.injEq, false_or, or_false, reduceCtorEq] at h
      subst h
      exact throwsOnly_trans h1 h2
    · rw [hg2] at h2
      simp only [hg2] at h
      have h3 := get_bytes_throwsOnly (at_index proofs_param i) K.BYTES_PER_COMMITMENT
        "proofBytes" e2
      rcases hg3 : get_bytes (at_index proofs_param i) K.BYTES_PER_COMMITMENT
        "proofBytes" e2 with ⟨_ | d3, e3⟩
      all_goals
        rw [hg3] at h3
        simp only [hg3, Except.ok.injEq, Except.error.injEq, false_or, or_false,
          reduceCtorEq] at h
        subst h
        exact throwsOnly_trans h1 (throwsOnly_trans h2 h3)

theorem commitments_loop_body_throwsOnly (K : Constants) (commitments_param : List Value)
    (i : Nat) (s r : CellBatchBufs × Env)
    (h : commitments_loop_body K commitments_param i s = Except.ok r ∨
      commitments_loop_body K commitments_param i s = Except.error r) : throwsOnly s.2 r.2 := by
  have hb := get_bytes_throwsOnly (at_index commitments_param i) K.BYTES_PER_COMMITMENT
    "commitmentBytes" s.2
  unfold commitments_loop_body get_bytes48 at h
  rcases hg : get_bytes (at_index commitments_param i) K.BYTES_PER_COMMITMENT
    "commitmentBytes" s.2 with ⟨_ | d, e⟩
  all_goals
    rw [hg] at hb
    simp only [hg, Except.ok.injEq, Except.error.injEq, false_or, or_false, reduceCtorEq] at h
    subst h
    exact hb

theorem cell_batch_loop_body_exit (K : Constants)
    (rows cols cells_param proofs_param : List Value)
    (i : Nat) (s r : CellBatchBufs × Env) :
    (cell_batch_loop_body K rows cols cells_param proofs_param i s = Except.ok r →
      throwsOnly s.2 r.2) ∧
    (cell_batch_loop_body K rows cols cells_param proofs_param i s = Except.error r →
      throwsOrUnwinds s.2 r.2) := by
  unfold cell_batch_loop_body get_cell get_bytes48
  have h1 := get_cell_id_call_throwsOnly (at_index rows i) s.2
  rcases hr : get_cell_id_call (at_index rows i) s.2 with ⟨row, ea⟩
  rw [hr] at h1
  dsimp only
  rcases element_after_get_cell_id_cases (at_index rows i) cols i with ⟨-, he⟩ | ⟨-, he⟩
  · rw [he]; dsimp only
    have h2 := get_cell_id_call_throwsOnly (at_index cols i) ea
    rcases hc : get_cell_id_call (at_index cols i) ea with ⟨col, e0⟩
    rw [hc] at h2
    dsimp only
    have h12 := throwsOnly_trans h1 h2
    rcases element_after_get_cell_id_cases (at_index cols i) cells_param i with
      ⟨-, he2⟩ | ⟨-, he2⟩
    · rw [he2]; dsimp only
      have h3 := get_bytes_throwsOnly (at_index cells_param i) K.BYTES_PER_CELL "cell" e0
      rcases hg3 : get_bytes (at_index cells_param i) K.BYTES_PER_CELL "cell" e0 with
        ⟨_ | d3, e3⟩
      · rw [hg3] at h3
        dsimp only
        refine ⟨fun h => (by cases h), fun h => ?_⟩
        injection h with h; subst h
        exact Or.inl (throwsOnly_trans h12 h3)
      · rw [hg3] at h3
        dsimp only
        have h4 := get_bytes_throwsOnly (at_index proofs_param i) K.BYTES_PER_COMMITMENT
          "proofBytes" e3
        rcases hg4 : get_bytes (at_index proofs_param i) K.BYTES_PER_COMMITMENT
          "proofBytes" e3 with ⟨_ | d4, e4⟩
        · rw [hg4] at h4
          dsimp only
          refine ⟨fun h => (by cases h), fun h => ?_⟩
          injection h with h; subst h
          exact Or.inl (throwsOnly_trans h12 (throwsOnly_trans h3 h4))
        · rw [hg4] at h4
          dsimp only
          refine ⟨fun h => ?_, fun h => (by cases h)⟩
          injection h with h; subst h
          exact throwsOnly_trans h12 (throwsOnly_trans h3 h4)
    · rw [he2]; dsimp only
      refine ⟨fun h => (by cases h), fun h => ?_⟩
      injection h with h; subst h
      exact Or.inr ⟨_, h12, rfl⟩
  · rw [he]; dsimp only
    refine ⟨fun h => (by cases h), fun h => ?_⟩
    injection h with h; subst h
    exact Or.inr ⟨_, h1, rfl⟩

theorem cell_batch_loop_ok (K : Constants) (rows cols cells_param proofs_param : List Value)
    (n i : Nat) (s r : CellBatchBufs × Env)
    (h : for_loop (cell_batch_loop_body K rows cols cells_param proofs_param) n i s =
      Except.ok r) : throwsOnly s.2 r.2 :=
  for_loop_ok_throwsOnly (fun x : CellBatchBufs × Env => x.2) _
    (fun i s r => (cell_batch_loop_body_exit K rows cols cells_param proofs_param i s r).1)
    n i s r h

theorem cell_batch_loop_error (K : Constants) (rows cols cells_param proofs_param : List Value)
    (n i : Nat) (s r : CellBatchBufs × Env)
    (h : for_loop (cell_batch_loop_body K rows cols cells_param proofs_param) n i s =
      Except.error r) : throwsOrUnwinds s.2 r.2 :=
  for_loop_error_throwsOrUnwinds (fun x : CellBatchBufs × Env => x.2) _
    (fun i s r => (cell_batch_loop_body_exit K rows cols cells_param proofs_param i s r).1)
    (fun i s r => (cell_batch_loop_body_exit K rows cols cells_param proofs_param i s r).2)
    n i s r h

/-! ## Lemmas on the form of a log -/

theorem allocated_pre (pre : List (ErrorKind × String)) :
    allocated (pre.map fun x => Event.threw x.1 x.2) = [] := by
  induction pre with
  | nil => rfl
  | cons x pre ih => simp [allocated]

theorem released_pre (pre : List (ErrorKind × String)) :
    released (pre.map fun x => Event.threw x.1 x.2) = [] := by
  induction pre with
  | nil => rfl
  | cons x pre ih => simp [released]

theorem raised_with_pre (pre : List (ErrorKind × String)) (held : List Nat) :
    raised_with held (pre.map fun x => Event.threw x.1 x.2) = pre.map fun x => (x, held) := by
  induction pre with
  | nil => rfl
  | cons x pre ih => simp [raised_with, ih]

theorem released_allocs (A : List Event) (h : ∀ e ∈ A, e.isAllocAttempt = true) :
    released A = [] := by
  induction A with
  | nil => rfl
  | cons e A ih =>
    have h1 := h e (List.mem_cons_self _ _)
    have h2 := ih fun x hx => h x (List.mem_cons_of_mem _ hx)
    cases e <;> simp_all [released, Event.isAllocAttempt]

theorem raised_with_allocs (A : List Event) (h : ∀ e ∈ A, e.isAllocAttempt = true) :
    ∀ held, raised_with held A = [] := by
  induction A with
  | nil => intro held; rfl
  | cons e A ih =>
    intro held
    have h1 := h e (List.mem_cons_self _ _)
    have h2 := ih fun x hx => h x (List.mem_cons_of_mem _ hx)
    cases e <;> simp_all [raised_with, Event.isAllocAttempt]

theorem tail_no_buffers (tail : List Event)
    (h : ∀ e ∈ tail, e.isEngine = true ∨
      ∃ m, e = Event.threw .Error m ∧ (ErrorKind.Error, m) ∉ shape_errors) :
    allocated tail = [] ∧ released tail = [] := by
  induction tail with
  | nil => exact ⟨rfl, rfl⟩
  | cons e tail ih =>
    have h1 := h e (List.mem_cons_self _ _)
    have h2 := ih fun x hx => h x (List.mem_cons_of_mem _ hx)
    rcases h1 with h1 | ⟨m, rfl, -⟩
    · cases e <;> simp_all [allocated, released, Event.isEngine]
    · simpa [allocated, released] using h2

theorem raised_with_tail (tail : List Event)
    (h : ∀ e ∈ tail, e.isEngine = true ∨
      ∃ m, e = Event.threw .Error m ∧ (ErrorKind.Error, m) ∉ shape_errors) :
    ∀ held, ∀ x ∈ raised_with held tail, x.1.1 = ErrorKind.Error ∧ x.1 ∉ shape_errors := by
  induction tail with
  | nil => intro held x hx; simp [raised_with] at hx
  | cons e tail ih =>
    intro held x hx
    have h1 := h e (List.mem_cons_self _ _)
    have h2 := ih fun x hx => h x (List.mem_cons_of_mem _ hx)
    rcases h1 with h1 | ⟨m, rfl, hm⟩
    · cases e with
      | engine c =>
        simp only [raised_with] at hx
        exact h2 held x hx
      | _ => simp [Event.isEngine] at h1
    · simp only [raised_with, List.mem_cons] at hx
      rcases hx with rfl | hx
      · exact ⟨rfl, hm⟩
      · exact h2 held x hx

theorem frees_no_throw (F : List Event) (h : ∀ e ∈ F, e.isExit = true) :
    allocated F = [] ∧ ∀ held, raised_with held F = [] := by
  induction F with
  | nil => exact ⟨rfl, fun _ => rfl⟩
  | cons e F ih =>
    have h1 := h e (List.mem_cons_self _ _)
    have h2 := ih fun x hx => h x (List.mem_cons_of_mem _ hx)
    cases e <;> simp_all [allocated, raised_with, Event.isExit, Event.isFree, Event.isUnwound]

theorem isExit_of_isFree {F : List Event} (h : ∀ e ∈ F, e.isFree = true) :
    ∀ e ∈ F, e.isExit = true := by
  intro e he
  simp [Event.isExit, h e he]

theorem released_frees (bs : List Nat) : released (bs.map Event.free) = bs := by
  induction bs with
  | nil => rfl
  | cons b bs ih =>
    rw [List.map_cons]
    show b :: released (bs.map Event.free) = b :: bs
    rw [ih]

theorem shape_errors_kind (x : ErrorKind × String) (h : x ∈ shape_errors) :
    x.1 = ErrorKind.Error := by
  simp only [shape_errors, List.mem_cons, List.mem_nil_iff, or_false] at h
  rcases h with h | h | h | h | h | h | h | h <;> rw [h]

/-- On a balanced log, the buffers released are the buffers allocated, in
order, none twice. -/
theorem Shape.balanced {arrays : Bool} {nbuf : Nat} {log : List Event}
    (h : Shape arrays true nbuf log) :
    released log = allocated log ∧ (released log).Nodup := by
  obtain ⟨pre, A, ms, tail, F, hlog, -, hA, hnd, -, htail, hF, hbal⟩ := h
  have hF2 := hbal rfl
  subst hF2
  have ht := tail_no_buffers tail htail
  have e1 : released log = allocated A := by
    rw [hlog]
    simp [released_pre, released_allocs A hA, ht.2, released_frees]
  have e2 : allocated log = allocated A := by
    rw [hlog]
    simp [allocated_pre, ht.1, (frees_no_throw _ hF).1]
  rw [e1, e2]
  exact ⟨rfl, hnd⟩

/-- On a log of the form `Shape`, an exception that rejects the shape of an
array argument is thrown with nothing allocated; a `TypeError` is thrown with
nothing allocated exactly when the operation takes no arrays, and when it
does, with the `nbuf` buffers of the call allocated, which are all the call
allocates. -/
theorem Shape.raised {arrays balanced : Bool} {nbuf : Nat} {log : List Event}
    (h : Shape arrays balanced nbuf log) :
    ∀ x ∈ raised_with [] log,
      (x.1 ∈ shape_errors → x.2 = []) ∧
      (x.1.1 = ErrorKind.TypeError →
        (x.2 = [] ↔ arrays = false) ∧
        (arrays = true → x.2 = List.range nbuf ∧ x.2 = allocated log)) := by
  obtain ⟨pre, A, ms, tail, F, hlog, hpre, hA, -, hms, htail, hF, -⟩ := h
  have hall : allocated log = allocated A := by
    rw [hlog]
    simp [allocated_pre, (tail_no_buffers tail htail).1, (frees_no_throw _ hF).1]
  intro x hx
  rw [hlog] at hx
  simp only [raised_with_append, raised_with_pre, raised_with_allocs A hA,
    raised_with_throws, (frees_no_throw F hF).2, List.append_nil, List.nil_append,
    List.mem_append, List.mem_map, allocated_append, allocated_pre, allocated_throws] at hx
  rcases hx with (⟨y, hy, rfl⟩ | ⟨m, hm, rfl⟩) | hx
  · refine ⟨fun _ => rfl, fun hk => ⟨?_, fun ha => ?_⟩⟩
    · simp [hpre y hy hk]
    · rw [hpre y hy hk] at ha
      cases ha
  · have hne : ms ≠ [] := List.ne_nil_of_mem hm
    obtain ⟨ha, hal, hn⟩ := hms hne
    refine ⟨fun hs => ?_, fun _ => ⟨?_, fun _ => ⟨hal, ?_⟩⟩⟩
    · have := shape_errors_kind _ hs
      cases this
    · have hr : List.range nbuf ≠ [] := by
        intro h0
        have := congrArg List.length h0
        simp at this
        exact hn this
      simp [ha, hal, hr]
    · rw [hall]
  · obtain ⟨hk, hs⟩ := raised_with_tail tail htail _ x hx
    refine ⟨fun h1 => absurd h1 hs, fun h1 => ?_⟩
    rw [hk] at h1
    cases h1

/-! ## The form of the log of each dispatcher -/

theorem get_bytes_cases (v : Value) (n : Nat) (name : String) (env : Env) :
    (∃ d, get_bytes v n name env = (some d, env) ∧
        v = Value.typedArray .napi_uint8_array d ∧ d.length = n) ∨
    (∃ m, get_bytes v n name env = (none, env.throwJs .TypeError m) ∧ ¬ HasBytes v n) := by
  rcases hg : get_bytes v n name env with ⟨_ | d, e⟩
  · obtain ⟨h1, m, rfl⟩ := get_bytes_none hg
    exact Or.inr ⟨m, rfl, h1⟩
  · obtain ⟨h1, h2, rfl⟩ := get_bytes_some hg
    exact Or.inl ⟨d, rfl, h1, h2⟩

theorem not_shape_error (m : String)
    (h : m.data.head? = some 'E' ∨ m.data.head? = some 'F') :
    (ErrorKind.Error, m) ∉ shape_errors := by
  intro hm
  simp only [shape_errors, List.mem_cons, Prod.mk.injEq, true_and, List.mem_nil_iff,
    or_false] at hm
  rcases hm with hm | hm | hm | hm | hm | hm | hm | hm <;>
  · subst hm
    revert h
    decide

theorem shape_tail (arrays balanced : Bool) {nbuf : Nat} (tail : List Event)
    (h : ∀ e ∈ tail, e.isEngine = true ∨
      ∃ m, e = Event.threw .Error m ∧ (ErrorKind.Error, m) ∉ shape_errors) :
    Shape arrays balanced nbuf tail :=
  ⟨[], [], [], tail, [], by simp, by simp, by simp, by simp [allocated], by simp, h, by simp,
    by simp [allocated]⟩

theorem shape_cons_throw {arrays balanced : Bool} {nbuf : Nat} {log : List Event}
    (k : ErrorKind)
    (m : String) (hk : k = ErrorKind.TypeError → arrays = false)
    (h : Shape arrays balanced nbuf log) :
    Shape arrays balanced nbuf (Event.threw k m :: log) := by
  obtain ⟨pre, A, ms, tail, F, hlog, hpre, hA, hnd, hms, htail, hF, hbal⟩ := h
  refine ⟨(k, m) :: pre, A, ms, tail, F, by simp [hlog], ?_, hA, hnd, hms, htail, hF, hbal⟩
  intro x hx
  rcases List.mem_cons.1 hx with rfl | hx
  · exact hk
  · exact hpre x hx

theorem shape_alloc (balanced : Bool) (arrays : Bool) {nbuf : Nat} (A : List Event)
    (ms : List String) (tail F : List Event)
    (hA : ∀ e ∈ A, e.isAllocAttempt = true) (hnd : (allocated A).Nodup)
    (hms : ms ≠ [] → arrays = true ∧ allocated A = List.range nbuf ∧ nbuf ≠ 0)
    (htail : ∀ e ∈ tail, e.isEngine = true ∨
      ∃ m, e = Event.threw .Error m ∧ (ErrorKind.Error, m) ∉ shape_errors)
    (hF : ∀ e ∈ F, e.isFree = true)
    (hbal : balanced = true → F = (allocated A).map Event.free) :
    Shape arrays balanced nbuf (A ++ ms.map (Event.threw .TypeError) ++ tail ++ F) :=
  ⟨[], A, ms, tail, F, by simp, by simp, hA, hnd, hms, htail, isExit_of_isFree hF, hbal⟩

theorem tail_engine (c : EngineCall) :
    ∀ e ∈ [Event.engine c], e.isEngine = true ∨
      ∃ m, e = Event.threw .Error m ∧ (ErrorKind.Error, m) ∉ shape_errors := by
  intro e he
  simp only [List.mem_singleton] at he
  subst he
  exact Or.inl rfl

theorem tail_engine_error (c : EngineCall) (m : String)
    (h : m.data.head? = some 'E' ∨ m.data.head? = some 'F') :
    ∀ e ∈ [Event.engine c, Event.threw .Error m], e.isEngine = true ∨
      ∃ m, e = Event.threw .Error m ∧ (ErrorKind.Error, m) ∉ shape_errors := by
  intro e he
  simp only [List.mem_cons, List.mem_singleton, List.mem_nil_iff, or_false] at he
  rcases he with rfl | rfl
  · exact Or.inl rfl
  · exact Or.inr ⟨m, rfl, not_shape_error m h⟩

theorem tail_error (m : String)
    (h : m.data.head? = some 'E' ∨ m.data.head? = some 'F') :
    ∀ e ∈ [Event.threw .Error m], e.isEngine = true ∨
      ∃ m, e = Event.threw .Error m ∧ (ErrorKind.Error, m) ∉ shape_errors := by
  intro e he
  simp only [List.mem_singleton] at he
  subst he
  exact Or.inr ⟨m, rfl, not_shape_error m h⟩

theorem BlobToKzgCommitment_shape (E : Engine) (K : Constants) (info : List Value)
    (st : KzgAddonData) :
    Shape false true 0 (BlobToKzgCommitment E K info (Env.start st)).2.log := by
  unfold BlobToKzgCommitment get_blob
  rcases get_bytes_cases (at_index info 0) K.BYTES_PER_BLOB "blob" (Env.start st) with
    ⟨d, h, -, -⟩ | ⟨m, h, -⟩
  · rw [h]; dsimp only
    rcases get_kzg_settings_cases (Env.start st) with ⟨-, h2⟩ | ⟨-, h2⟩
    · rw [h2]; dsimp only
      split
      · exact shape_tail _ _ _ (tail_engine_error _ _ (by simp [String.data_append]))
      · exact shape_tail _ _ _ (tail_engine _)
    · rw [h2]
      exact shape_cons_throw _ _ (by simp) (shape_tail _ _ [] (by simp))
  · rw [h]
    exact shape_cons_throw _ _ (by simp) (shape_tail _ _ [] (by simp))

theorem get_cell_id_call_cases (v : Value) (env : Env) :
    (v.IsNumber = true ∧ get_cell_id_call v env = (v.DoubleValue_u64, env)) ∨
    (v.IsNumber = false ∧
      get_cell_id_call v env = (0, env.throwJs .TypeError "cell id should be a number")) := by
  unfold get_cell_id_call get_cell_id
  cases h : v.IsNumber <;> simp

theorem ComputeKzgProof_shape (E : Engine) (K : Constants) (info : List Value)
    (st : KzgAddonData) :
    Shape false true 0 (ComputeKzgProof E K info (Env.start st)).2.log := by
  unfold ComputeKzgProof prepare_compute_kzg_proof get_blob get_bytes32
  rcases get_bytes_cases (at_index info 0) K.BYTES_PER_BLOB "blob" (Env.start st) with
    ⟨d, h, -, -⟩ | ⟨m, h, -⟩
  · rw [h]; dsimp only
    rcases get_bytes_cases (at_index info 1) K.BYTES_PER_FIELD_ELEMENT "zBytes" (Env.start st)
      with ⟨d1, h1, -, -⟩ | ⟨m1, h1, -⟩
    · rw [h1]; dsimp only
      rcases get_kzg_settings_cases (Env.start st) with ⟨-, h2⟩ | ⟨-, h2⟩
      · rw [h2]; dsimp only
        split
        · exact shape_tail _ _ _ (tail_engine_error _ _ (by simp [String.data_append]))
        · exact shape_tail _ _ _ (tail_engine _)
      · rw [h2]; dsimp only
        split
        · exact shape_cons_throw _ _ (by simp)
            (shape_tail _ _ _ (tail_engine_error _ _ (by simp [String.data_append])))
        · exact shape_cons_throw _ _ (by simp) (shape_tail _ _ _ (tail_engine _))
    · rw [h1]; dsimp only
      split
      · exact shape_cons_throw _ _ (by simp)
          (shape_tail _ _ _ (tail_engine_error _ _ (by simp [String.data_append])))
      · exact shape_cons_throw _ _ (by simp) (shape_tail _ _ _ (tail_engine _))
  · rw [h]; dsimp only
    split
    · exact shape_cons_throw _ _ (by simp)
        (shape_tail _ _ _ (tail_engine_error _ _ (by simp [String.data_append])))
    · exact shape_cons_throw _ _ (by simp) (shape_tail _ _ _ (tail_engine _))

theorem ComputeBlobKzgProof_shape (E : Engine) (K : Constants) (info : List Value)
    (st : KzgAddonData) :
    Shape false true 0 (ComputeBlobKzgProof E K info (Env.start st)).2.log := by
  unfold ComputeBlobKzgProof get_blob get_bytes48
  rcases get_bytes_cases (at_index info 0) K.BYTES_PER_BLOB "blob" (Env.start st) with
    ⟨d, h, -, -⟩ | ⟨m, h, -⟩
  · rw [h]; dsimp only
    rcases get_bytes_cases (at_index info 1) K.BYTES_PER_COMMITMENT "commitmentBytes"
      (Env.start st) with ⟨d1, h1, -, -⟩ | ⟨m1, h1, -⟩
    · rw [h1]; dsimp only
      rcases get_kzg_settings_cases (Env.start st) with ⟨-, h2⟩ | ⟨-, h2⟩
      · rw [h2]; dsimp only
        split
        · exact shape_tail _ _ _ (tail_engine_error _ _ (by simp [String.data_append]))
        · exact shape_tail _ _ _ (tail_engine _)
      · rw [h2]
        exact shape_cons_throw _ _ (by simp) (shape_tail _ _ [] (by simp))
    · rw [h1]
      exact shape_cons_throw _ _ (by simp) (shape_tail _ _ [] (by simp))
  · rw [h]
    exact shape_cons_throw _ _ (by simp) (shape_tail _ _ [] (by simp))

theorem VerifyKzgProof_shape (E : Engine) (K : Constants) (info : List Value)
    (st : KzgAddonData) :
    Shape false true 0 (VerifyKzgProof E K info (Env.start st)).2.log := by
  unfold VerifyKzgProof get_bytes32 get_bytes48
  rcases get_bytes_cases (at_index info 0) K.BYTES_PER_COMMITMENT "commitmentBytes"
    (Env.start st) with ⟨d, h, -, -⟩ | ⟨m, h, -⟩
  · rw [h]; dsimp only
    rcases get_bytes_cases (at_index info 1) K.BYTES_PER_FIELD_ELEMENT "zBytes"
      (Env.start st) with ⟨d1, h1, -, -⟩ | ⟨m1, h1, -⟩
    · rw [h1]; dsimp only
      rcases get_bytes_cases (at_index info 2) K.BYTES_PER_FIELD_ELEMENT "yBytes"
        (Env.start st) with ⟨d2, h2, -, -⟩ | ⟨m2, h2, -⟩
      · rw [h2]; dsimp only
        rcases get_bytes_cases (at_index info 3) K.BYTES_PER_COMMITMENT "proofBytes"
          (Env.start st) with ⟨d3, h3, -, -⟩ | ⟨m3, h3, -⟩
        · rw [h3]; dsimp only
          rcases get_kzg_settings_cases (Env.start st) with ⟨-, h4⟩ | ⟨-, h4⟩
          · rw [h4]; dsimp only
            split
            · exact shape_tail _ _ _ (tail_engine_error _ _ (by simp [String.data_append]))
            · exact shape_tail _ _ _ (tail_engine _)
          · rw [h4]
            exact shape_cons_throw _ _ (by simp) (shape_tail _ _ [] (by simp))
        · rw [h3]
          exact shape_cons_throw _ _ (by simp) (shape_tail _ _ [] (by simp))
      · rw [h2]
        exact shape_cons_throw _ _ (by simp) (shape_tail _ _ [] (by simp))
    · rw [h1]
      exact shape_cons_throw _ _ (by simp) (shape_tail _ _ [] (by simp))
  · rw [h]
    exact shape_cons_throw _ _ (by simp) (shape_tail _ _ [] (by simp))

theorem VerifyBlobKzgProof_shape (E : Engine) (K : Constants) (info : List Value)
    (st : KzgAddonData) :
    Shape false true 0 (VerifyBlobKzgProof E K info (Env.start st)).2.log := by
  unfold VerifyBlobKzgProof get_blob get_bytes48
  rcases get_bytes_cases (at_index info 0) K.BYTES_PER_BLOB "blob"
    (Env.start st) with ⟨d, h, -, -⟩ | ⟨m, h, -⟩
  · rw [h]; dsimp only
    rcases get_bytes_cases (at_index info 1) K.BYTES_PER_COMMITMENT "commitmentBytes"
      (Env.start st) with ⟨d1, h1, -, -⟩ | ⟨m1, h1, -⟩
    · rw [h1]; dsimp only
      rcases get_bytes_cases (at_index info 2) K.BYTES_PER_COMMITMENT "proofBytes"
        (Env.start st) with ⟨d2, h2, -, -⟩ | ⟨m2, h2, -⟩
      · rw [h2]; dsimp only
        rcases get_kzg_settings_cases (Env.start st) with ⟨-, h4⟩ | ⟨-, h4⟩
        · rw [h4]; dsimp only
          split
          · exact shape_tail _ _ _ (tail_engine_error _ _ (by simp [String.data_append]))
          · exact shape_tail _ _ _ (tail_engine _)
        · rw [h4]
          exact shape_cons_throw _ _ (by simp) (shape_tail _ _ [] (by simp))
      · rw [h2]
        exact shape_cons_throw _ _ (by simp) (shape_tail _ _ [] (by simp))
    · rw [h1]
      exact shape_cons_throw _ _ (by simp) (shape_tail _ _ [] (by simp))
  · rw [h]
    exact shape_cons_throw _ _ (by simp) (shape_tail _ _ [] (by simp))

theorem VerifyCellKzgProof_shape_from (E : Engine) (K : Constants) (info : List Value)
    (cell_id : Nat) (commitment_bytes : Bytes) (env : Env)
    (henv : ∀ l, Shape false true 0 l → Shape false true 0 (env.log ++ l)) :
    Shape false true 0
      (match get_bytes (at_index info 2) K.BYTES_PER_CELL "cell" env with
        | (none, env) => (Value.null, env)
        | (some cell, env) =>
          match get_bytes (at_index info 3) K.BYTES_PER_COMMITMENT "proofBytes" env with
          | (none, env) => (Value.null, env)
          | (some proof_bytes, env) =>
            match get_kzg_settings env with
            | (none, env) => (Value.null, env)
            | (some kzg_settings, env) =>
              if ((E.verify_cell_kzg_proof commitment_bytes cell_id cell proof_bytes
                  kzg_settings).1 != C_KZG_OK) = true then
                (Value.undefined,
                  (env.emit (Event.engine (EngineCall.verify_cell_kzg_proof
                    commitment_bytes cell_id cell proof_bytes kzg_settings))).throwJs .Error
                    ("Error in verifyCellKzgProof: " ++ from_c_kzg_ret
                      (E.verify_cell_kzg_proof commitment_bytes cell_id cell proof_bytes
                        kzg_settings).1))
              else
                (Value.boolean (E.verify_cell_kzg_proof commitment_bytes cell_id cell
                    proof_bytes kzg_settings).2,
                  env.emit (Event.engine (EngineCall.verify_cell_kzg_proof
                    commitment_bytes cell_id cell proof_bytes kzg_settings)))).2.log := by
  rcases get_bytes_cases (at_index info 2) K.BYTES_PER_CELL "cell" env with
    ⟨d2, h2, -, -⟩ | ⟨m2, h2, -⟩
  · rw [h2]; dsimp only
    rcases get_bytes_cases (at_index info 3) K.BYTES_PER_COMMITMENT "proofBytes" env with
      ⟨d3, h3, -, -⟩ | ⟨m3, h3, -⟩
    · rw [h3]; dsimp only
      rcases get_kzg_settings_cases env with ⟨-, h4⟩ | ⟨-, h4⟩
      · rw [h4]; dsimp only
        split
        · simp only [log_throwJs, log_emit, List.append_assoc]
          exact henv _ (shape_tail _ _ _
            (tail_engine_error _ _ (by simp [String.data_append])))
        · simp only [log_emit]
          exact henv _ (shape_tail _ _ _ (tail_engine _))
      · rw [h4]
        simp only [log_throwJs]
        exact henv _ (shape_cons_throw _ _ (by simp) (shape_tail _ _ [] (by simp)))
    · rw [h3]
      simp only [log_throwJs]
      exact henv _ (shape_cons_throw _ _ (by simp) (shape_tail _ _ [] (by simp)))
  · rw [h2]
    simp only [log_throwJs]
    exact henv _ (shape_cons_throw _ _ (by simp) (shape_tail _ _ [] (by simp)))

theorem VerifyCellKzgProof_shape (E : Engine) (K : Constants) (info : List Value)
    (st : KzgAddonData) :
    Shape false true 0 (VerifyCellKzgProof E K info (Env.start st)).2.log := by
  unfold VerifyCellKzgProof get_cell get_bytes48
  rcases get_bytes_cases (at_index info 0) K.BYTES_PER_COMMITMENT "commitmentBytes"
    (Env.start st) with ⟨d, h, -, -⟩ | ⟨m, h, -⟩
  · rw [h]; dsimp only
    rcases get_cell_id_call_cases (at_index info 1) (Env.start st) with ⟨-, h1⟩ | ⟨-, h1⟩
    · rw [h1]; dsimp only
      exact VerifyCellKzgProof_shape_from E K info _ d (Env.start st)
        (fun l hl => by simpa [Env.start] using hl)
    · rw [h1]; dsimp only
      exact VerifyCellKzgProof_shape_from E K info _ d _
        (fun l hl => by
          simpa [Env.start] using shape_cons_throw .TypeError "cell id should be a number"
            (by simp) hl)
  · rw [h]
    exact shape_cons_throw _ _ (by simp) (shape_tail _ _ [] (by simp))

theorem shape_alloc_eq (arrays balanced : Bool) {nbuf : Nat} (A : List Event)
    (ms : List String) (tail F : List Event) (log : List Event)
    (hlog : log = A ++ ms.map (Event.threw .TypeError) ++ tail ++ F)
    (hA : ∀ e ∈ A, e.isAllocAttempt = true) (hnd : (allocated A).Nodup)
    (hms : ms ≠ [] → arrays = true ∧ allocated A = List.range nbuf ∧ nbuf ≠ 0)
    (htail : ∀ e ∈ tail, e.isEngine = true ∨
      ∃ m, e = Event.threw .Error m ∧ (ErrorKind.Error, m) ∉ shape_errors)
    (hF : ∀ e ∈ F, e.isFree = true)
    (hbal : balanced = true → F = (allocated A).map Event.free) :
    Shape arrays balanced nbuf log :=
  ⟨[], A, ms, tail, F, by simp [hlog], by simp, hA, hnd, hms, htail, isExit_of_isFree hF,
    hbal⟩

theorem ComputeCells_shape (H : Host) (E : Engine) (K : Constants) (info : List Value)
    (st : KzgAddonData) :
    Shape false true 0 (ComputeCells H E K info (Env.start st)).2.log := by
  unfold ComputeCells get_blob
  rcases get_bytes_cases (at_index info 0) K.BYTES_PER_BLOB "blob" (Env.start st) with
    ⟨d, h, -, -⟩ | ⟨m, h, -⟩
  · rw [h]; dsimp only
    rcases get_kzg_settings_cases (Env.start st) with ⟨-, h2⟩ | ⟨-, h2⟩
    · rw [h2]; dsimp only
      rcases calloc_cases H K.CELLS_PER_EXT_BLOB K.BYTES_PER_CELL (Env.start st) with
        ⟨-, h3⟩ | ⟨-, h3⟩
      · rw [h3]; dsimp only
        split
        · exact shape_alloc_eq _ _ [Event.calloc 0 _ _] [] [Event.engine _, Event.threw .Error _]
            [Event.free 0] _ rfl (by simp [Event.isAllocAttempt])
            (by simp [allocated]) (by simp)
            (tail_engine_error _ _ (by simp [String.data_append]))
            (by simp [Event.isFree]) (by simp [allocated])
        · exact shape_alloc_eq _ _ [Event.calloc 0 _ _] [] [Event.engine _]
            [Event.free 0] _ rfl (by simp [Event.isAllocAttempt])
            (by simp [allocated]) (by simp) (tail_engine _)
            (by simp [Event.isFree]) (by simp [allocated])
      · rw [h3]; dsimp only
        exact shape_alloc_eq _ _ [Event.calloc_null _ _] [] [Event.threw .Error _]
            [] _ rfl (by simp [Event.isAllocAttempt])
            (by simp [allocated]) (by simp) (tail_error _ (by decide))
            (by simp) (by simp [allocated])
    · rw [h2]
      exact shape_cons_throw _ _ (by simp) (shape_tail _ _ [] (by simp))
  · rw [h]
    exact shape_cons_throw _ _ (by simp) (shape_tail _ _ [] (by simp))

theorem foldl_snoc (l es : List Event) :
    List.foldl (fun l e => l ++ [e]) l es = l ++ es := by
  induction es generalizing l with
  | nil => simp
  | cons e es ih => simp [ih]

theorem shape_snoc (arrays balanced : Bool) {nbuf : Nat} (A : List Event)
    (ms : List String) (tail F : List Event) (envlog log : List Event)
    (hl : envlog = A ++ ms.map (Event.threw .TypeError))
    (hlog : log = List.foldl (fun l e => l ++ [e]) envlog (tail ++ F))
    (hA : ∀ e ∈ A, e.isAllocAttempt = true) (hnd : (allocated A).Nodup)
    (hms : ms ≠ [] → arrays = true ∧ allocated A = List.range nbuf ∧ nbuf ≠ 0)
    (htail : ∀ e ∈ tail, e.isEngine = true ∨
      ∃ m, e = Event.threw .Error m ∧ (ErrorKind.Error, m) ∉ shape_errors)
    (hF : ∀ e ∈ F, e.isFree = true)
    (hbal : balanced = true → F = (allocated A).map Event.free) :
    Shape arrays balanced nbuf log :=
  shape_alloc_eq arrays balanced A ms tail F log
    (by rw [hlog, foldl_snoc, hl]; simp) hA hnd hms htail hF hbal

theorem ComputeCellsAndKzgProofs_shape (H : Host) (E : Engine) (K : Constants)
    (info : List Value) (st : KzgAddonData) :
    Shape false true 0 (ComputeCellsAndKzgProofs H E K info (Env.start st)).2.log := by
  unfold ComputeCellsAndKzgProofs get_blob
  rcases get_bytes_cases (at_index info 0) K.BYTES_PER_BLOB "blob" (Env.start st) with
    ⟨d, h, -, -⟩ | ⟨m, h, -⟩
  · rw [h]; dsimp only
    rcases get_kzg_settings_cases (Env.start st) with ⟨-, h2⟩ | ⟨-, h2⟩
    · rw [h2]; dsimp only
      rcases calloc_cases H K.CELLS_PER_EXT_BLOB K.BYTES_PER_CELL (Env.start st) with
        ⟨-, h3⟩ | ⟨-, h3⟩
      · rw [h3]; dsimp only
        rcases calloc_cases H K.CELLS_PER_EXT_BLOB K.BYTES_PER_PROOF
          ⟨(Env.start st).data, (Env.start st).log ++
            [Event.calloc (Env.start st).ncalloc K.CELLS_PER_EXT_BLOB K.BYTES_PER_CELL],
            (Env.start st).ncalloc + 1⟩ with ⟨-, h4⟩ | ⟨-, h4⟩
        · rw [h4]; dsimp only
          split
          · exact shape_alloc_eq _ _ [Event.calloc 0 _ _, Event.calloc 1 _ _] []
              [Event.engine _, Event.threw .Error _] [Event.free 0, Event.free 1] _ rfl
              (by simp [Event.isAllocAttempt]) (by simp [allocated]) (by simp)
              (tail_engine_error _ _ (by simp [String.data_append]))
              (by simp [Event.isFree]) (by simp [allocated])
          · exact shape_alloc_eq _ _ [Event.calloc 0 _ _, Event.calloc 1 _ _] []
              [Event.engine _] [Event.free 0, Event.free 1] _ rfl
              (by simp [Event.isAllocAttempt]) (by simp [allocated]) (by simp)
              (tail_engine _) (by simp [Event.isFree]) (by simp [allocated])
        · rw [h4]; dsimp only
          exact shape_alloc_eq _ _ [Event.calloc 0 _ _, Event.calloc_null _ _] []
            [Event.threw .Error _] [Event.free 0] _ rfl
            (by simp [Event.isAllocAttempt]) (by simp [allocated]) (by simp)
            (tail_error _ (by decide)) (by simp [Event.isFree]) (by simp [allocated])
      · rw [h3]; dsimp only
        exact shape_alloc_eq _ _ [Event.calloc_null _ _] [] [Event.threw .Error _]
            [] _ rfl (by simp [Event.isAllocAttempt])
            (by simp [allocated]) (by simp) (tail_error _ (by decide))
            (by simp) (by simp [allocated])
    · rw [h2]
      exact shape_cons_throw _ _ (by simp) (shape_tail _ _ [] (by simp))
  · rw [h]
    exact shape_cons_throw _ _ (by simp) (shape_tail _ _ [] (by simp))

theorem CellsToBlob_shape (H : Host) (E : Engine) (K : Constants)
    (info : List Value) (st : KzgAddonData) :
    Shape true true 1 (CellsToBlob H E K info (Env.start st)).2.log := by
  unfold CellsToBlob
  split
  · exact shape_cons_throw _ _ (by simp) (shape_tail _ _ [] (by simp))
  · dsimp only
    split
    · exact shape_cons_throw _ _ (by simp) (shape_tail _ _ [] (by simp))
    · rcases calloc_cases H K.CELLS_PER_EXT_BLOB K.BYTES_PER_CELL (Env.start st) with
        ⟨-, h3⟩ | ⟨-, h3⟩
      · rw [h3]; dsimp only
        split
        · next x env heq =>
          obtain ⟨-, -, ms, hl⟩ := for_loop_throwsOnly (fun s : List Bytes × Env => s.2) _
            (cells_loop_body_throwsOnly K (at_index info 0).elems) _ _ _ _ (Or.inr heq)
          exact shape_snoc _ _ [_] ms [] [_] _ _ hl rfl
            (by simp [Event.isAllocAttempt]) (by simp [allocated]) (fun _ => ⟨rfl, rfl, by decide⟩)
            (by simp) (by simp [Event.isFree]) (by simp [allocated, Env.start])
        · next mem env heq =>
          obtain ⟨-, -, ms, hl⟩ := for_loop_throwsOnly (fun s : List Bytes × Env => s.2) _
            (cells_loop_body_throwsOnly K (at_index info 0).elems) _ _ _ _ (Or.inl heq)
          split
          · exact shape_snoc _ _ [_] ms [_, _] [_] _ _ hl rfl
              (by simp [Event.isAllocAttempt]) (by simp [allocated]) (fun _ => ⟨rfl, rfl, by decide⟩)
              (tail_engine_error _ _ (by simp [String.data_append]))
              (by simp [Event.isFree]) (by simp [allocated, Env.start])
          · exact shape_snoc _ _ [_] ms [_] [_] _ _ hl rfl
              (by simp [Event.isAllocAttempt]) (by simp [allocated]) (fun _ => ⟨rfl, rfl, by decide⟩)
              (tail_engine _)
              (by simp [Event.isFree]) (by simp [allocated, Env.start])
      · rw [h3]; dsimp only
        exact shape_alloc_eq _ _ [Event.calloc_null _ _] [] [Event.threw .Error _]
            [] _ rfl (by simp [Event.isAllocAttempt])
            (by simp [allocated]) (by simp) (tail_error _ (by decide))
            (by simp) (by simp [allocated])

theorem calloc_some {H : Host} {count size : Nat} {env env1 : Env} {b : Nat}
    (h : calloc H count size env = (some b, env1)) :
    b = env.ncalloc ∧
      env1 = ⟨env.data, env.log ++ [Event.calloc env.ncalloc count size], env.ncalloc + 1⟩ := by
  rcases calloc_cases H count size env with ⟨-, h1⟩ | ⟨-, h1⟩
  · rw [h1] at h
    simp only [Prod.mk.injEq, Option.some.injEq] at h
    exact ⟨h.1.symm, h.2.symm⟩
  · rw [h1] at h
    simp at h

theorem calloc_none {H : Host} {count size : Nat} {env env1 : Env}
    (h : calloc H count size env = (none, env1)) :
    env1 = ⟨env.data, env.log ++ [Event.calloc_null count size], env.ncalloc + 1⟩ := by
  rcases calloc_cases H count size env with ⟨-, h1⟩ | ⟨-, h1⟩
  · rw [h1] at h
    simp at h
  · rw [h1] at h
    simp only [Prod.mk.injEq, true_and] at h
    exact h.symm

theorem get_kzg_settings_some {env env1 : Env} {s : KZGSettings}
    (h : get_kzg_settings env = (some s, env1)) :
    env.data.is_setup = true ∧ s = env.data.settings ∧ env1 = env := by
  rcases get_kzg_settings_cases env with ⟨h0, h1⟩ | ⟨h0, h1⟩
  · rw [h1] at h
    simp only [Prod.mk.injEq, Option.some.injEq] at h
    exact ⟨h0, h.1.symm, h.2.symm⟩
  · rw [h1] at h
    simp at h

theorem get_kzg_settings_none {env env1 : Env}
    (h : get_kzg_settings env = (none, env1)) :
    env.data.is_setup = false ∧ env1 = env.throwJs .Error not_loaded_msg := by
  rcases get_kzg_settings_cases env with ⟨h0, h1⟩ | ⟨h0, h1⟩
  · rw [h1] at h
    simp at h
  · rw [h1] at h
    simp only [Prod.mk.injEq, true_and] at h
    exact ⟨h0, h.symm⟩

theorem unwound_of_throws (env : Env) (A : List Event) (ms : List String)
    (h : env.log = A ++ ms.map (Event.threw .TypeError))
    (hA : ∀ e ∈ A, e.isAllocAttempt = true) : env.unwound = false := by
  unfold Env.unwound
  rw [h]
  simp only [List.any_append, Bool.or_eq_false_iff, List.any_eq_false, List.mem_map]
  constructor
  · intro e he
    have := hA e he
    cases e <;> simp_all [Event.isUnwound, Event.isAllocAttempt]
  · rintro e ⟨m, -, rfl⟩
    simp [Event.isUnwound]

theorem unwound_emit (env : Env) : (env.emit Event.unwound).unwound = true := by
  simp [Env.unwound, Env.emit, Event.isUnwound]

theorem shape_unwound (arrays : Bool) {nbuf : Nat} (A : List Event) (ms : List String)
    (envlog log : List Event)
    (hl : envlog = A ++ ms.map (Event.threw .TypeError))
    (hlog : log = envlog ++ [Event.unwound])
    (hA : ∀ e ∈ A, e.isAllocAttempt = true) (hnd : (allocated A).Nodup)
    (hms : ms ≠ [] → arrays = true ∧ allocated A = List.range nbuf ∧ nbuf ≠ 0) :
    Shape arrays false nbuf log :=
  ⟨[], A, ms, [], [Event.unwound], by simp [hlog, hl], by simp, hA, hnd, hms, by simp,
    by simp [Event.isExit, Event.isUnwound], by simp⟩

theorem RecoverAllCells_shape (H : Host) (E : Engine) (K : Constants)
    (info : List Value) (st : KzgAddonData) :
    Shape true false 3 (RecoverAllCells H E K info (Env.start st)).2.log := by
  unfold RecoverAllCells
  split
  · exact shape_cons_throw _ _ (by simp) (shape_tail _ _ [] (by simp))
  split
  · exact shape_cons_throw _ _ (by simp) (shape_tail _ _ [] (by simp))
  split
  · next env1 heq =>
    obtain ⟨-, rfl⟩ := get_kzg_settings_none heq
    exact shape_cons_throw _ _ (by simp) (shape_tail _ _ [] (by simp))
  next s env1 heq =>
  obtain ⟨-, -, rfl⟩ := get_kzg_settings_some heq
  dsimp only
  split
  · exact shape_cons_throw _ _ (by simp) (shape_tail _ _ [] (by simp))
  split
  · next env2 hc0 =>
    rw [calloc_none hc0]
    exact shape_alloc_eq _ _ [Event.calloc_null _ _] [] [Event.threw .Error _]
      [] _ rfl (by simp [Event.isAllocAttempt])
      (by simp [allocated]) (by simp) (tail_error _ (by decide))
      (by simp) (by simp)
  next b0 env2 hc0 =>
  obtain ⟨rfl, rfl⟩ := calloc_some hc0
  split
  · next env3 hc1 =>
    rw [calloc_none hc1]
    exact shape_alloc_eq _ _ [Event.calloc 0 _ _, Event.calloc_null _ _] []
      [Event.threw .Error _] [] _ rfl (by simp [Event.isAllocAttempt])
      (by simp [allocated]) (by simp) (tail_error _ (by decide))
      (by simp) (by simp)
  next b1 env3 hc1 =>
  obtain ⟨rfl, rfl⟩ := calloc_some hc1
  split
  · next env4 hc2 =>
    rw [calloc_none hc2]
    exact shape_alloc_eq _ _ [Event.calloc 0 _ _, Event.calloc 1 _ _, Event.calloc_null _ _] []
      [Event.threw .Error _] [Event.free 1] _ rfl (by simp [Event.isAllocAttempt])
      (by simp [allocated]) (by simp) (tail_error _ (by decide))
      (by simp [Event.isFree]) (by simp)
  next b2 env4 hc2 =>
  obtain ⟨rfl, rfl⟩ := calloc_some hc2
  split
  · next x env heq =>
    rcases recover_loop_error K _ _ _ _ _ _ heq with
      ⟨-, -, ms, hl⟩ | ⟨e, ⟨-, -, ms, hl⟩, he⟩
    · have hu : env.unwound = false :=
        unwound_of_throws env [_, _, _] ms hl (by simp [Event.isAllocAttempt])
      rw [hu]
      exact shape_snoc _ _ [_, _, _] ms [] [_] _ _ hl rfl
        (by simp [Event.isAllocAttempt]) (by simp [allocated, Env.start])
        (fun _ => ⟨rfl, rfl, by decide⟩) (by simp) (by simp [Event.isFree]) (by simp)
    · dsimp only at he
      subst he
      rw [unwound_emit]
      exact shape_unwound _ [_, _, _] ms _ _ hl rfl
        (by simp [Event.isAllocAttempt]) (by simp [allocated, Env.start])
        (fun _ => ⟨rfl, rfl, by decide⟩)
  · next mem env heq =>
    obtain ⟨-, -, ms, hl⟩ := recover_loop_ok K _ _ _ _ _ _ heq
    split
    · exact shape_snoc _ _ [_, _, _] ms [_, _] [_] _ _ hl rfl
        (by simp [Event.isAllocAttempt]) (by simp [allocated, Env.start])
        (fun _ => ⟨rfl, rfl, by decide⟩)
        (tail_engine_error _ _ (by simp [String.data_append]))
        (by simp [Event.isFree]) (by simp)
    · exact shape_snoc _ _ [_, _, _] ms [_] [_] _ _ hl rfl
        (by simp [Event.isAllocAttempt]) (by simp [allocated, Env.start])
        (fun _ => ⟨rfl, rfl, by decide⟩) (tail_engine _)
        (by simp [Event.isFree]) (by simp)

theorem VerifyBlobKzgProofBatch_shape (H : Host) (E : Engine) (K : Constants)
    (info : List Value) (st : KzgAddonData) :
    Shape true true 3 (VerifyBlobKzgProofBatch H E K info (Env.start st)).2.log := by
  unfold VerifyBlobKzgProofBatch
  split
  · exact shape_cons_throw _ _ (by simp) (shape_tail _ _ [] (by simp))
  dsimp only
  split
  · next env1 heq =>
    obtain ⟨-, rfl⟩ := get_kzg_settings_none heq
    exact shape_cons_throw _ _ (by simp) (shape_tail _ _ [] (by simp))
  next s env1 heq =>
  obtain ⟨-, -, rfl⟩ := get_kzg_settings_some heq
  split
  · exact shape_cons_throw _ _ (by simp) (shape_tail _ _ [] (by simp))
  split
  · next env2 hc0 =>
    rw [calloc_none hc0]
    exact shape_alloc_eq _ _ [Event.calloc_null _ _] [] [Event.threw .Error _]
      [] _ rfl (by simp [Event.isAllocAttempt])
      (by simp [allocated]) (by simp) (tail_error _ (by decide))
      (by simp) (by simp [allocated])
  next b0 env2 hc0 =>
  obtain ⟨rfl, rfl⟩ := calloc_some hc0
  split
  · next env3 hc1 =>
    rw [calloc_none hc1]
    exact shape_alloc_eq _ _ [Event.calloc 0 _ _, Event.calloc_null _ _] []
      [Event.threw .Error _] [Event.free 0] _ rfl (by simp [Event.isAllocAttempt])
      (by simp [allocated]) (by simp) (tail_error _ (by decide))
      (by simp [Event.isFree]) (by simp [allocated])
  next b1 env3 hc1 =>
  obtain ⟨rfl, rfl⟩ := calloc_some hc1
  split
  · next env4 hc2 =>
    rw [calloc_none hc2]
    exact shape_alloc_eq _ _ [Event.calloc 0 _ _, Event.calloc 1 _ _, Event.calloc_null _ _] []
      [Event.threw .Error _] [Event.free 0, Event.free 1] _ rfl
      (by simp [Event.isAllocAttempt])
      (by simp [allocated]) (by simp) (tail_error _ (by decide))
      (by simp [Event.isFree]) (by simp [allocated])
  next b2 env4 hc2 =>
  obtain ⟨rfl, rfl⟩ := calloc_some hc2
  split
  · next x env heq =>
    obtain ⟨-, -, ms, hl⟩ := for_loop_throwsOnly (fun s : BlobBatchBufs × Env => s.2) _
      (blob_batch_loop_body_throwsOnly K (at_index info 0).elems (at_index info 1).elems
        (at_index info 2).elems) _ _ _ _ (Or.inr heq)
    exact shape_snoc _ _ [_, _, _] ms [] [_, _, _] _ _ hl rfl
      (by simp [Event.isAllocAttempt]) (by simp [allocated, Env.start])
      (fun _ => ⟨rfl, rfl, by decide⟩) (by simp) (by simp [Event.isFree])
      (by simp [allocated, Env.start])
  · next mem env heq =>
    obtain ⟨-, -, ms, hl⟩ := for_loop_throwsOnly (fun s : BlobBatchBufs × Env => s.2) _
      (blob_batch_loop_body_throwsOnly K (at_index info 0).elems (at_index info 1).elems
        (at_index info 2).elems) _ _ _ _ (Or.inl heq)
    split
    · exact shape_snoc _ _ [_, _, _] ms [_, _] [_, _, _] _ _ hl rfl
        (by simp [Event.isAllocAttempt]) (by simp [allocated, Env.start])
        (fun _ => ⟨rfl, rfl, by decide⟩)
        (tail_engine_error _ _ (by simp [String.data_append]))
        (by simp [Event.isFree]) (by simp [allocated, Env.start])
    · exact shape_snoc _ _ [_, _, _] ms [_] [_, _, _] _ _ hl rfl
        (by simp [Event.isAllocAttempt]) (by simp [allocated, Env.start])
        (fun _ => ⟨rfl, rfl, by decide⟩) (tail_engine _)
        (by simp [Event.isFree]) (by simp [allocated, Env.start])

theorem VerifyCellKzgProofBatch_shape (H : Host) (E : Engine) (K : Constants)
    (info : List Value) (st : KzgAddonData) :
    Shape true false 5 (VerifyCellKzgProofBatch H E K info (Env.start st)).2.log := by
  unfold VerifyCellKzgProofBatch cell_batch_out
  split
  · exact shape_cons_throw _ _ (by simp) (shape_tail _ _ [] (by simp))
  dsimp only
  split
  · next env1 heq =>
    obtain ⟨-, rfl⟩ := get_kzg_settings_none heq
    exact shape_cons_throw _ _ (by simp) (shape_tail _ _ [] (by simp))
  next s env1 heq =>
  obtain ⟨-, -, rfl⟩ := get_kzg_settings_some heq
  split
  · exact shape_cons_throw _ _ (by simp) (shape_tail _ _ [] (by simp))
  split
  · next env2 hc0 =>
    rw [calloc_none hc0]
    exact shape_alloc_eq _ _ [Event.calloc_null _ _] [] [Event.threw .Error _]
      [] _ rfl (by simp [Event.isAllocAttempt])
      (by simp [allocated]) (by simp) (tail_error _ (by decide))
      (by simp) (by simp [allocated])
  next b0 env2 hc0 =>
  obtain ⟨rfl, rfl⟩ := calloc_some hc0
  split
  · next env3 hc1 =>
    rw [calloc_none hc1]
    exact shape_alloc_eq _ _ [Event.calloc 0 _ _, Event.calloc_null _ _] []
      [Event.threw .Error _] [Event.free 0] _ rfl (by simp [Event.isAllocAttempt])
      (by simp [allocated]) (by simp) (tail_error _ (by decide))
      (by simp [Event.isFree]) (by simp [allocated])
  next b1 env3 hc1 =>
  obtain ⟨rfl, rfl⟩ := calloc_some hc1
  split
  · next env4 hc2 =>
    rw [calloc_none hc2]
    exact shape_alloc_eq _ _ [Event.calloc 0 _ _, Event.calloc 1 _ _, Event.calloc_null _ _] []
      [Event.threw .Error _] [Event.free 0, Event.free 1] _ rfl
      (by simp [Event.isAllocAttempt])
      (by simp [allocated]) (by simp) (tail_error _ (by decide))
      (by simp [Event.isFree]) (by simp [allocated])
  next b2 env4 hc2 =>
  obtain ⟨rfl, rfl⟩ := calloc_some hc2
  split
  · next env5 hc3 =>
    rw [calloc_none hc3]
    exact shape_alloc_eq _ _
      [Event.calloc 0 _ _, Event.calloc 1 _ _, Event.calloc 2 _ _, Event.calloc_null _ _] []
      [Event.threw .Error _] [Event.free 0, Event.free 1, Event.free 2] _ rfl
      (by simp [Event.isAllocAttempt])
      (by simp [allocated]) (by simp) (tail_error _ (by decide))
      (by simp [Event.isFree]) (by simp [allocated])
  next b3 env5 hc3 =>
  obtain ⟨rfl, rfl⟩ := calloc_some hc3
  split
  · next env6 hc4 =>
    rw [calloc_none hc4]
    exact shape_alloc_eq _ _
      [Event.calloc 0 _ _, Event.calloc 1 _ _, Event.calloc 2 _ _, Event.calloc 3 _ _,
        Event.calloc_null _ _] []
      [Event.threw .Error _] [Event.free 0, Event.free 1, Event.free 2, Event.free 3] _ rfl
      (by simp [Event.isAllocAttempt])
      (by simp [allocated]) (by simp) (tail_error _ (by decide))
      (by simp [Event.isFree]) (by simp [allocated])
  next b4 env6 hc4 =>
  obtain ⟨rfl, rfl⟩ := calloc_some hc4
  dsimp only
  split
  · next x env heq =>
    obtain ⟨-, -, ms, hl⟩ := for_loop_throwsOnly (fun s : CellBatchBufs × Env => s.2) _
      (commitments_loop_body_throwsOnly K (at_index info 0).elems) _ _ _ _ (Or.inr heq)
    exact shape_snoc _ _ [_, _, _, _, _] ms [] [_, _, _, _, _] _ _ hl rfl
      (by simp [Event.isAllocAttempt]) (by simp [allocated, Env.start])
      (fun _ => ⟨rfl, rfl, by decide⟩) (by simp) (by simp [Event.isFree])
      (by simp [allocated, Env.start])
  next s1 heq1 =>
  have t1 := for_loop_throwsOnly (fun s : CellBatchBufs × Env => s.2) _
    (commitments_loop_body_throwsOnly K (at_index info 0).elems) _ _ _ _ (Or.inl heq1)
  split
  · next x env heq =>
    rcases throwsOrUnwinds_trans t1 (cell_batch_loop_error K _ _ _ _ _ _ _ _ heq) with
      ⟨-, -, ms, hl⟩ | ⟨e, ⟨-, -, ms, hl⟩, he⟩
    · have hu : env.unwound = false :=
        unwound_of_throws env [_, _, _, _, _] ms hl (by simp [Event.isAllocAttempt])
      rw [hu]
      exact shape_snoc _ _ [_, _, _, _, _] ms [] [_, _, _, _, _] _ _ hl rfl
        (by simp [Event.isAllocAttempt]) (by simp [allocated, Env.start])
        (fun _ => ⟨rfl, rfl, by decide⟩) (by simp) (by simp [Event.isFree])
        (by simp [allocated, Env.start])
    · dsimp only at he
      subst he
      rw [unwound_emit]
      exact shape_unwound _ [_, _, _, _, _] ms _ _ hl rfl
        (by simp [Event.isAllocAttempt]) (by simp [allocated, Env.start])
        (fun _ => ⟨rfl, rfl, by decide⟩)
  · next mem env heq =>
    obtain ⟨-, -, ms, hl⟩ := throwsOnly_trans t1 (cell_batch_loop_ok K _ _ _ _ _ _ _ _ heq)
    split
    · exact shape_snoc _ _ [_, _, _, _, _] ms [_, _] [_, _, _, _, _] _ _ hl rfl
        (by simp [Event.isAllocAttempt]) (by simp [allocated, Env.start])
        (fun _ => ⟨rfl, rfl, by decide⟩)
        (tail_engine_error _ _ (by simp [String.data_append]))
        (by simp [Event.isFree]) (by simp [allocated, Env.start])
    · exact shape_snoc _ _ [_, _, _, _, _] ms [_] [_, _, _, _, _] _ _ hl rfl
        (by simp [Event.isAllocAttempt]) (by simp [allocated, Env.start])
        (fun _ => ⟨rfl, rfl, by decide⟩) (tail_engine _)
        (by simp [Event.isFree]) (by simp [allocated, Env.start])

/-! ## Validation of byte arguments -/

/-- C1: for every value, expected length `n` and field name, `get_bytes`
returns a non-null byte view exactly when the value is a `Uint8Array` of
exactly `n` bytes (the view being its bytes, nothing thrown); for any other
kind of value it returns `nullptr` and throws the `TypeError`
"Expected name to be a Uint8Array"; for a `Uint8Array` of any other length
(`n - 1` and `n + 1` included) it returns `nullptr` and throws the `TypeError`
"Expected name to be n bytes". -/
theorem get_bytes_contract (v : Value) (n : Nat) (name : String) (env : Env) :
    ((get_bytes v n name env).1.isSome = true ↔ HasBytes v n) ∧
    (∀ d, v = Value.typedArray .napi_uint8_array d → d.length = n →
      get_bytes v n name env = (some d, env)) ∧
    ((∀ d, v ≠ Value.typedArray .napi_uint8_array d) →
      get_bytes v n name env =
        (none, env.throwJs .TypeError ("Expected " ++ name ++ " to be a Uint8Array"))) ∧
    (∀ d, v = Value.typedArray .napi_uint8_array d → d.length ≠ n →
      get_bytes v n name env =
        (none, env.throwJs .TypeError
          ("Expected " ++ name ++ " to be " ++ toString n ++ " bytes"))) := by
  rcases get_bytes_spec v n name env with ⟨d0, h1, h2, h3⟩ | ⟨h1, h3⟩ | ⟨d0, h1, h2, h3⟩
  · refine ⟨?_, ?_, ?_, ?_⟩
    · rw [h3]; simpa using (⟨d0, h1, h2⟩ : HasBytes v n)
    · intro d hd _
      rw [h1] at hd; injection hd with _ hd; subst hd; exact h3
    · intro hne; exact absurd h1 (hne d0)
    · intro d hd hl
      rw [h1] at hd; injection hd with _ hd; subst hd; exact absurd h2 hl
  · refine ⟨?_, ?_, ?_, ?_⟩
    · rw [h3]
      simp only [Option.isSome_none, Bool.false_eq_true, false_iff]
      rintro ⟨d, hd, -⟩
      exact h1 d hd
    · intro d hd _; exact absurd hd (h1 d)
    · intro _; exact h3
    · intro d hd _; exact absurd hd (h1 d)
  · refine ⟨?_, ?_, ?_, ?_⟩
    · rw [h3]
      simp only [Option.isSome_none, Bool.false_eq_true, false_iff]
      rintro ⟨d, hd, hl⟩
      rw [h1] at hd; injection hd with _ hd; subst hd; exact h2 hl
    · intro d hd hl
      rw [h1] at hd; injection hd with _ hd; subst hd; exact absurd hl h2
    · intro hne; exact absurd h1 (hne d0)
    · intro _ _ _; exact h3

/-! ## Setup lifecycle -/

/-- C4: `loadTrustedSetup` on an instance whose `is_setup` is already true,
for every precompute level and file path, throws "Error trusted setup is already
loaded" and does nothing else: the log gains that exception only (no `fopen`,
no engine call) and the instance data is unchanged. -/
theorem load_when_loaded_rejected (H : Host) (E : Engine) (precompute : Int)
    (file_path : String) (env : Env) (h : env.data.is_setup = true) :
    LoadTrustedSetup H E precompute file_path env =
        (Value.undefined, env.throwJs .Error "Error trusted setup is already loaded") ∧
      (LoadTrustedSetup H E precompute file_path env).2.data = env.data ∧
      (LoadTrustedSetup H E precompute file_path env).2.log =
        env.log ++ [Event.threw .Error "Error trusted setup is already loaded"] := by
  have e : LoadTrustedSetup H E precompute file_path env =
      (Value.undefined, env.throwJs .Error "Error trusted setup is already loaded") := by
    unfold LoadTrustedSetup
    simp [h]
  rw [e]
  exact ⟨rfl, rfl, rfl⟩

/-- Witness of C4: a second load on a loaded instance, with the one existing
file. -/
theorem load_when_loaded_rejected_witness :
    (Env.start loaded).data.is_setup = true ∧
    (LoadTrustedSetup host_ok engine_ok 0 "trusted_setup.txt" (Env.start loaded)).2.log =
      [] ++ [Event.threw .Error "Error trusted setup is already loaded"] :=
  ⟨rfl, (load_when_loaded_rejected host_ok engine_ok 0 "trusted_setup.txt"
    (Env.start loaded) rfl).2.2⟩

/-- C5: a failing `loadTrustedSetup` on a not-yet-loaded instance (the file
cannot be opened, or the engine's load routine returns a code other than
`C_KZG_OK`) throws exactly one error and leaves `is_setup` false; a
subsequent `loadTrustedSetup` on the resulting instance data, with a file that
opens and on which the engine succeeds, runs as a first load: it opens the
file, calls the engine once, closes the file, throws nothing and sets
`is_setup` to true. -/
theorem failed_load_leaves_unloaded (H : Host) (E : Engine) (precompute : Int)
    (file_path : String) (st : KzgAddonData) (h : st.is_setup = false)
    (hfail : H.fopen file_path = none ∨
      ∃ fh, H.fopen file_path = some fh ∧
        (E.load_trusted_setup_file st.settings fh (precompute % (2 ^ 64 : Int)).toNat).1
          ≠ C_KZG_OK) :
    (thrown (LoadTrustedSetup H E precompute file_path (Env.start st)).2.log).length = 1 ∧
    (LoadTrustedSetup H E precompute file_path (Env.start st)).2.data.is_setup = false ∧
    ∀ (H2 : Host) (precompute2 : Int) (file_path2 : String) (fh2 : Nat),
      H2.fopen file_path2 = some fh2 →
      (E.load_trusted_setup_file
        (LoadTrustedSetup H E precompute file_path (Env.start st)).2.data.settings fh2
        (precompute2 % (2 ^ 64 : Int)).toNat).1 = C_KZG_OK →
      (LoadTrustedSetup H2 E precompute2 file_path2
        (Env.start (LoadTrustedSetup H E precompute file_path (Env.start st)).2.data)).2.data.is_setup
          = true ∧
      (LoadTrustedSetup H2 E precompute2 file_path2
        (Env.start (LoadTrustedSetup H E precompute file_path (Env.start st)).2.data)).2.log =
        [Event.fopen file_path2 (some fh2),
         Event.engine (EngineCall.load_trusted_setup_file fh2
           (precompute2 % (2 ^ 64 : Int)).toNat),
         Event.fclose fh2] := by
  have hun : (LoadTrustedSetup H E precompute file_path (Env.start st)).2.data.is_setup = false ∧
      (thrown (LoadTrustedSetup H E precompute file_path (Env.start st)).2.log).length = 1 := by
    rcases hfail with hf | ⟨fh, hf, hr⟩
    · simp [LoadTrustedSetup, Env.start, h, hf, thrown, Env.emit, Env.throwJs]
    · unfold LoadTrustedSetup
      generalize (precompute % (2 ^ 64 : Int)).toNat = p at hr ⊢
      simp [Env.start, h, hf, hr, thrown, Env.emit, Env.throwJs]
  refine ⟨hun.2, hun.1, ?_⟩
  intro H2 precompute2 file_path2 fh2 hopen hok
  generalize (LoadTrustedSetup H E precompute file_path (Env.start st)).2.data = st1 at hun hok ⊢
  unfold LoadTrustedSetup
  generalize (precompute2 % (2 ^ 64 : Int)).toNat = p2 at hok ⊢
  simp [Env.start, hun.1, hopen, hok, Env.emit]

/-- Witness of C5: a load from a path that does not open, followed by a load
from the existing file. -/
theorem failed_load_leaves_unloaded_witness :
    not_loaded.is_setup = false ∧ host_ok.fopen "missing.txt" = none ∧
    (LoadTrustedSetup host_ok engine_ok 0 "missing.txt" (Env.start not_loaded)).2.data.is_setup
      = false ∧
    (LoadTrustedSetup host_ok engine_ok 0 "trusted_setup.txt"
      (Env.start (LoadTrustedSetup host_ok engine_ok 0 "missing.txt"
        (Env.start not_loaded)).2.data)).2.data.is_setup = true :=
  ⟨rfl, by decide,
    (failed_load_leaves_unloaded host_ok engine_ok 0 "missing.txt" not_loaded rfl
      (Or.inl (by decide))).2.1,
    ((failed_load_leaves_unloaded host_ok engine_ok 0 "missing.txt" not_loaded rfl
      (Or.inl (by decide))).2.2 host_ok 0 "trusted_setup.txt" 3 (by decide) rfl).1⟩

@[simp] theorem at_index_zero (v : Value) (rest : List Value) : at_index (v :: rest) 0 = v := rfl

@[simp] theorem at_index_one (v : Value) (rest : List Value) :
    at_index (v :: rest) 1 = at_index rest 0 := rfl

@[simp] theorem at_index_two (v : Value) (rest : List Value) :
    at_index (v :: rest) 2 = at_index rest 1 := rfl

@[simp] theorem at_index_three (v : Value) (rest : List Value) :
    at_index (v :: rest) 3 = at_index rest 2 := rfl

@[simp] theorem at_index_four (v : Value) (rest : List Value) :
    at_index (v :: rest) 4 = at_index rest 3 := rfl

theorem get_bytes_zeros (n : Nat) (name : String) (env : Env) :
    get_bytes (zeros n) n name env = (some (List.replicate n 0), env) := by
  have h : HasBytes (zeros n) n := ⟨List.replicate n 0, rfl, by simp⟩
  simpa [zeros, Value.Data] using get_bytes_of_hasBytes name env h

/-! ## Array length mismatch -/

/-- C10: with the setup loaded, `verifyBlobKzgProofBatch` called with arrays
`blobs`, `commitments`, `proofs` that do not all have the same length, and
`verifyCellKzgProofBatch` called with arrays whose `rowIndices`,
`columnIndices`, `cells`, `proofs` do not all have the same length, throw the
length-mismatch error and do nothing else: the whole log of the call is that
one exception (no allocation, no engine call) and `null` is returned. -/
theorem batch_length_mismatch (H : Host) (E : Engine) (K : Constants) (st : KzgAddonData)
    (h : st.is_setup = true) :
    (∀ blobs commitments proofs rest,
      ¬ (blobs.length = commitments.length ∧ blobs.length = proofs.length) →
      VerifyBlobKzgProofBatch H E K
          (Value.array blobs :: Value.array commitments :: Value.array proofs :: rest)
          (Env.start st) =
        (Value.null,
          ⟨st, [Event.threw .Error "Requires equal number of blobs/commitments/proofs"], 0⟩)) ∧
    (∀ commitments rows columns cells proofs rest,
      ¬ (rows.length = cells.length ∧ columns.length = cells.length ∧
          proofs.length = cells.length) →
      VerifyCellKzgProofBatch H E K
          (Value.array commitments :: Value.array rows :: Value.array columns ::
            Value.array cells :: Value.array proofs :: rest)
          (Env.start st) =
        (Value.null,
          ⟨st, [Event.threw .Error
            "Must have equal lengths for row_indices, column_indices, cells, and proofs"],
            0⟩)) := by
  constructor
  · intro blobs commitments proofs rest hne
    have hc : (blobs.length != commitments.length || blobs.length != proofs.length) = true := by
      by_cases h1 : blobs.length = commitments.length
      · by_cases h2 : blobs.length = proofs.length
        · exact absurd ⟨h1, h2⟩ hne
        · simp [h2]
      · simp [h1]
    unfold VerifyBlobKzgProofBatch
    simp only [at_index_zero, at_index_one, at_index_two, Value.IsArray, Value.elems,
      Bool.and_self, Bool.not_true, Bool.false_eq_true, if_false, get_kzg_settings, Env.start,
      h, hc, if_true]
    rfl
  · intro commitments rows columns cells proofs rest hne
    have hc : (rows.length != cells.length || columns.length != cells.length ||
        proofs.length != cells.length) = true := by
      by_cases h1 : rows.length = cells.length
      · by_cases h2 : columns.length = cells.length
        · by_cases h3 : proofs.length = cells.length
          · exact absurd ⟨h1, h2, h3⟩ hne
          · simp [h3]
        · simp [h2]
      · simp [h1]
    unfold VerifyCellKzgProofBatch
    simp only [at_index_zero, at_index_one, at_index_two, at_index_three, at_index_four,
      Value.IsArray, Value.elems,
      Bool.and_self, Bool.not_true, Bool.false_eq_true, if_false, get_kzg_settings, Env.start,
      h, hc, if_true]
    rfl

/-- Witness of C10: one blob against two commitments, and one row index
against two cells. -/
theorem batch_length_mismatch_witness :
    loaded.is_setup = true ∧
    VerifyBlobKzgProofBatch host_ok engine_ok eip4844
        (Value.array [zeros 131072] :: Value.array [zeros 48, zeros 48] ::
          Value.array [zeros 48] :: [])
        (Env.start loaded) =
      (Value.null,
        ⟨loaded, [Event.threw .Error "Requires equal number of blobs/commitments/proofs"], 0⟩) :=
  ⟨rfl, (batch_length_mismatch host_ok engine_ok eip4844 loaded rfl).1
    [zeros 131072] [zeros 48, zeros 48] [zeros 48] [] (by decide)⟩

/-! ## Buffers of `recoverAllCells`, and non-numeric cell ids -/

theorem calloc_ok_eq (H : Host) (count size : Nat) (env : Env)
    (h : H.calloc_ok env.ncalloc count size = true) :
    calloc H count size env = (some env.ncalloc,
      ⟨env.data, env.log ++ [Event.calloc env.ncalloc count size], env.ncalloc + 1⟩) := by
  unfold calloc
  simp [h]

theorem get_kzg_settings_loaded (env : Env) (h : env.data.is_setup = true) :
    get_kzg_settings env = (some env.data.settings, env) := by
  unfold get_kzg_settings
  simp [h]

theorem VerifyCellKzgProof_non_numeric_id (E : Engine) (K : Constants)
    (c cell p : Bytes) (id : Value) (rest : List Value) (st : KzgAddonData)
    (hc : c.length = K.BYTES_PER_COMMITMENT) (hcell : cell.length = K.BYTES_PER_CELL)
    (hp : p.length = K.BYTES_PER_COMMITMENT) (hid : id.IsNumber = false)
    (hs : st.is_setup = true) :
    ∃ tail, (VerifyCellKzgProof E K
        (Value.typedArray .napi_uint8_array c :: id :: Value.typedArray .napi_uint8_array cell ::
          Value.typedArray .napi_uint8_array p :: rest) (Env.start st)).2.log =
      Event.threw .TypeError "cell id should be a number" ::
        Event.engine (EngineCall.verify_cell_kzg_proof c 0 cell p st.settings) :: tail := by
  unfold VerifyCellKzgProof get_bytes48 get_cell
  simp only [at_index_zero, at_index_one, at_index_two, at_index_three]
  rw [get_bytes_of_hasBytes _ _ ⟨c, rfl, hc⟩]
  simp only [get_cell_id_call, get_cell_id, hid, Bool.not_false, if_true]
  rw [get_bytes_of_hasBytes _ _ ⟨cell, rfl, hcell⟩]
  simp only []
  rw [get_bytes_of_hasBytes _ _ ⟨p, rfl, hp⟩]
  simp only []
  rw [get_kzg_settings_loaded _ (by simpa [Env.start] using hs)]
  simp only [Value.Data]
  split
  · exact ⟨_, by simp [Env.start]; rfl⟩
  · exact ⟨_, by simp [Env.start]; rfl⟩

/-- C8, the code at a failing input: `verifyCellKzgProof` with a string as
cell id and otherwise valid arguments (a 48-byte commitment, a 2048-byte cell,
a 48-byte proof), setup loaded, throws "cell id should be a number" and then
invokes the engine's `verify_cell_kzg_proof` with cell id 0. -/
theorem verify_cell_non_numeric_id_reaches_engine :
    ∃ tail, (VerifyCellKzgProof engine_ok eip4844
        [Value.typedArray .napi_uint8_array (List.replicate 48 0), Value.string "1",
         Value.typedArray .napi_uint8_array (List.replicate 2048 0),
         Value.typedArray .napi_uint8_array (List.replicate 48 0)] (Env.start loaded)).2.log =
      Event.threw .TypeError "cell id should be a number" ::
        Event.engine (EngineCall.verify_cell_kzg_proof (List.replicate 48 0) 0
          (List.replicate 2048 0) (List.replicate 48 0) loaded.settings) :: tail := by
  have h48 : (List.replicate 48 0 : Bytes).length = eip4844.BYTES_PER_COMMITMENT :=
    List.length_replicate _ _
  have h2048 : (List.replicate 2048 0 : Bytes).length = eip4844.BYTES_PER_CELL :=
    List.length_replicate _ _
  have hid : (Value.string "1").IsNumber = false := rfl
  have hs : loaded.is_setup = true := rfl
  exact VerifyCellKzgProof_non_numeric_id engine_ok eip4844 (List.replicate 48 0)
    (List.replicate 2048 0) (List.replicate 48 0) (Value.string "1") [] loaded
    h48 h2048 h48 hid hs

/-! ## Release of the buffers, and the moment validation errors are raised -/

theorem Operation.run_shape (H : Host) (E : Engine) (K : Constants) (op : Operation)
    (info : List Value) (st : KzgAddonData) :
    Shape op.takes_arrays
      (op != Operation.recoverAllCells && op != Operation.verifyCellKzgProofBatch)
      op.element_buffers (op.run H E K info (Env.start st)).2.log := by
  cases op
  · exact BlobToKzgCommitment_shape E K info st
  · exact ComputeKzgProof_shape E K info st
  · exact ComputeBlobKzgProof_shape E K info st
  · exact VerifyKzgProof_shape E K info st
  · exact VerifyBlobKzgProof_shape E K info st
  · exact VerifyBlobKzgProofBatch_shape H E K info st
  · exact ComputeCells_shape H E K info st
  · exact ComputeCellsAndKzgProofs_shape H E K info st
  · exact CellsToBlob_shape H E K info st
  · exact RecoverAllCells_shape H E K info st
  · exact VerifyCellKzgProof_shape E K info st
  · exact VerifyCellKzgProofBatch_shape H E K info st

/-- For every operation but `recoverAllCells` and `verifyCellKzgProofBatch`,
for every host, engine, argument list and instance state, the buffers released
by the call are the buffers it allocated, in the same order, none twice. -/
theorem Operation.run_balanced (H : Host) (E : Engine) (K : Constants)
    (op : Operation) (info : List Value) (st : KzgAddonData)
    (hop : op ≠ Operation.recoverAllCells ∧ op ≠ Operation.verifyCellKzgProofBatch) :
    released (op.run H E K info (Env.start st)).2.log =
        allocated (op.run H E K info (Env.start st)).2.log ∧
      (released (op.run H E K info (Env.start st)).2.log).Nodup := by
  have hb : (op != Operation.recoverAllCells && op != Operation.verifyCellKzgProofBatch)
      = true := by
    cases op <;> simp_all
  have hs := Operation.run_shape H E K op info st
  rw [hb] at hs
  exact hs.balanced

theorem VerifyCellKzgProofBatch_non_numeric_row (H : Host) (E : Engine) (K : Constants)
    (commitment cell proof : Bytes) (row col : Value) (rest : List Value)
    (st : KzgAddonData) (hrow : row.IsNumber = false)
    (hcm : commitment.length = K.BYTES_PER_COMMITMENT) (hs : st.is_setup = true)
    (h0 : H.calloc_ok 0 1 48 = true) (h1 : H.calloc_ok 1 1 8 = true)
    (h2 : H.calloc_ok 2 1 8 = true) (h3 : H.calloc_ok 3 1 K.BYTES_PER_CELL = true)
    (h4 : H.calloc_ok 4 1 48 = true) :
    VerifyCellKzgProofBatch H E K
        (Value.array [Value.typedArray .napi_uint8_array commitment] :: Value.array [row] ::
          Value.array [col] :: Value.array [Value.typedArray .napi_uint8_array cell] ::
          Value.array [Value.typedArray .napi_uint8_array proof] :: rest) (Env.start st) =
      (Value.undefined,
        ⟨st, [Event.calloc 0 1 48, Event.calloc 1 1 8, Event.calloc 2 1 8,
          Event.calloc 3 1 K.BYTES_PER_CELL, Event.calloc 4 1 48,
          Event.threw .TypeError "cell id should be a number", Event.unwound], 5⟩) := by
  unfold VerifyCellKzgProofBatch
  simp only [at_index_zero, at_index_one, at_index_two, at_index_three, at_index_four,
    Value.IsArray, Value.elems, Bool.and_self, Bool.not_true, Bool.false_eq_true, if_false]
  rw [get_kzg_settings_loaded _ hs]
  simp only [List.length_singleton, bne_self_eq_false, Bool.or_self, Bool.false_eq_true,
    if_false]
  rw [calloc_ok_eq H _ _ _ h0]
  simp only []
  rw [calloc_ok_eq H _ _ _ h1]
  simp only []
  rw [calloc_ok_eq H _ _ _ h2]
  simp only []
  rw [calloc_ok_eq H _ _ _ h3]
  simp only []
  rw [calloc_ok_eq H _ _ _ h4]
  simp only [for_loop, commitments_loop_body, get_bytes48, at_index_zero]
  rw [get_bytes_of_hasBytes _ _ ⟨commitment, rfl, hcm⟩]
  simp only [cell_batch_loop_body, at_index_zero, get_cell_id_call, get_cell_id, hrow,
    element_after_get_cell_id, Bool.not_false, if_true, Bool.false_eq_true, if_false]
  rfl

/-- C7, the code at a failing input:
`verifyCellKzgProofBatch([commitment], ["x"], [0], [cell], [proof])` with the
setup loaded and every allocation succeeding.  The five buffers are allocated;
`get_cell_id` throws the `TypeError` for the row index and the loop goes on to
fetch `column_indices_param[0]`, which Node-API refuses while the exception is
pending: the call leaves the dispatcher there, past the label `out`.  None of
the five buffers is released, and the engine is not invoked. -/
theorem cell_batch_non_numeric_index_leaks :
    (VerifyCellKzgProofBatch host_ok engine_ok eip4844
      [Value.array [zeros 48], Value.array [Value.string "x"],
        Value.array [Value.number (Double.ofNat 0 (by decide))],
        Value.array [zeros 2048], Value.array [zeros 48]] (Env.start loaded)).2.log =
      [Event.calloc 0 1 48, Event.calloc 1 1 8, Event.calloc 2 1 8, Event.calloc 3 1 2048,
        Event.calloc 4 1 48, Event.threw .TypeError "cell id should be a number",
        Event.unwound] ∧
    allocated (VerifyCellKzgProofBatch host_ok engine_ok eip4844
      [Value.array [zeros 48], Value.array [Value.string "x"],
        Value.array [Value.number (Double.ofNat 0 (by decide))],
        Value.array [zeros 2048], Value.array [zeros 48]] (Env.start loaded)).2.log =
      [0, 1, 2, 3, 4] ∧
    released (VerifyCellKzgProofBatch host_ok engine_ok eip4844
      [Value.array [zeros 48], Value.array [Value.string "x"],
        Value.array [Value.number (Double.ofNat 0 (by decide))],
        Value.array [zeros 2048], Value.array [zeros 48]] (Env.start loaded)).2.log = [] := by
  have h := VerifyCellKzgProofBatch_non_numeric_row host_ok engine_ok eip4844
    (List.replicate 48 0) (List.replicate 2048 0) (List.replicate 48 0) (Value.string "x")
    (Value.number (Double.ofNat 0 (by decide))) [] loaded rfl (List.length_replicate _ _) rfl
    rfl rfl rfl rfl rfl
  have hl : (VerifyCellKzgProofBatch host_ok engine_ok eip4844
      [Value.array [zeros 48], Value.array [Value.string "x"],
        Value.array [Value.number (Double.ofNat 0 (by decide))],
        Value.array [zeros 2048], Value.array [zeros 48]] (Env.start loaded)).2.log =
      [Event.calloc 0 1 48, Event.calloc 1 1 8, Event.calloc 2 1 8, Event.calloc 3 1 2048,
        Event.calloc 4 1 48, Event.threw .TypeError "cell id should be a number",
        Event.unwound] := congrArg (fun x => x.2.log) h
  rw [hl]
  exact ⟨rfl, rfl, rfl⟩

theorem blob_batch_bad_first_element :
    (VerifyBlobKzgProofBatch host_ok engine_ok eip4844
      [Value.array [Value.undefined], Value.array [zeros 48], Value.array [zeros 48]]
      (Env.start loaded)).2.log =
    [Event.calloc 0 1 131072, Event.calloc 1 1 48, Event.calloc 2 1 48,
     Event.threw .TypeError "Expected blob to be a Uint8Array",
     Event.free 0, Event.free 1, Event.free 2] := by
  rfl

/-- C9, counterexample: `verifyBlobKzgProofBatch` with a first blob that is not
a `Uint8Array` (setup loaded, allocations succeeding) throws the wrong-type
validation error while the three buffers 0, 1, 2 of the call are allocated. -/
theorem element_error_raised_after_allocation :
    raised_with [] (VerifyBlobKzgProofBatch host_ok engine_ok eip4844
      [Value.array [Value.undefined], Value.array [zeros 48], Value.array [zeros 48]]
      (Env.start loaded)).2.log =
    [((ErrorKind.TypeError, "Expected blob to be a Uint8Array"), [0, 1, 2])] := by
  rw [blob_batch_bad_first_element]
  rfl

/-- C9, amended: for every operation and every exception of a call, with the
buffers the call had allocated when it was thrown: an exception that rejects
the shape of an array argument (not an array, wrong number of elements, unequal
lengths) is thrown with nothing allocated; a `TypeError` (wrong type or length
of a byte value, non-numeric cell id) is thrown with nothing allocated in the
operations that take no arrays, and in those that validate array elements
(`cellsToBlob`, `recoverAllCells`, `verifyBlobKzgProofBatch`,
`verifyCellKzgProofBatch`) after the call's buffers have been allocated: the
buffers `0 .. element_buffers - 1` (one, three, three and five of them), which
are all the buffers the call allocates. -/
theorem validation_errors_and_allocation (H : Host) (E : Engine) (K : Constants)
    (op : Operation) (info : List Value) (st : KzgAddonData)
    (x : (ErrorKind × String) × List Nat)
    (hx : x ∈ raised_with [] (op.run H E K info (Env.start st)).2.log) :
    (x.1 ∈ shape_errors → x.2 = []) ∧
    (x.1.1 = ErrorKind.TypeError →
      (x.2 = [] ↔ op.takes_arrays = false) ∧
      x.2 = List.range op.element_buffers ∧
      (op.takes_arrays = true →
        x.2 = allocated (op.run H E K info (Env.start st)).2.log)) := by
  obtain ⟨h1, h2⟩ := (Operation.run_shape H E K op info st).raised x hx
  refine ⟨h1, fun hk => ?_⟩
  obtain ⟨h3, h4⟩ := h2 hk
  refine ⟨h3, ?_, fun ha => (h4 ha).2⟩
  cases ha : op.takes_arrays
  · rw [h3.2 ha]
    cases op <;> first | rfl | cases ha
  · exact (h4 ha).1

/-- Witness of C9: the wrong-type error of the first blob of a batch, thrown
with the three buffers of the call allocated. -/
theorem validation_errors_and_allocation_witness :
    ((ErrorKind.TypeError, "Expected blob to be a Uint8Array"), [0, 1, 2]) ∈
      raised_with [] (Operation.verifyBlobKzgProofBatch.run host_ok engine_ok eip4844
        [Value.array [Value.undefined], Value.array [zeros 48], Value.array [zeros 48]]
        (Env.start loaded)).2.log ∧
    (([0, 1, 2] : List Nat) = [] ↔ Operation.verifyBlobKzgProofBatch.takes_arrays = false) ∧
    ([0, 1, 2] : List Nat) = List.range Operation.verifyBlobKzgProofBatch.element_buffers ∧
    ([0, 1, 2] : List Nat) =
      allocated (Operation.verifyBlobKzgProofBatch.run host_ok engine_ok eip4844
        [Value.array [Value.undefined], Value.array [zeros 48], Value.array [zeros 48]]
        (Env.start loaded)).2.log :=
  have hx : ((ErrorKind.TypeError, "Expected blob to be a Uint8Array"), [0, 1, 2]) ∈
      raised_with [] (Operation.verifyBlobKzgProofBatch.run host_ok engine_ok eip4844
        [Value.array [Value.undefined], Value.array [zeros 48], Value.array [zeros 48]]
        (Env.start loaded)).2.log := by
    show _ ∈ raised_with [] (VerifyBlobKzgProofBatch host_ok engine_ok eip4844 _ _).2.log
    rw [blob_batch_bad_first_element]
    decide
  have h := (validation_errors_and_allocation host_ok engine_ok eip4844
    Operation.verifyBlobKzgProofBatch
    [Value.array [Value.undefined], Value.array [zeros 48], Value.array [zeros 48]]
    loaded _ hx).2 rfl
  ⟨hx, h.1, h.2.1, h.2.2 rfl⟩

/-! ## A blob one byte short -/

theorem at_index_lt {xs : List Value} {i : Nat} (h : at_index xs i ≠ Value.undefined) :
    i < xs.length := by
  by_contra hlt
  apply h
  unfold at_index
  simp [List.getD, List.getElem?_eq_none (Nat.le_of_not_lt hlt)]

theorem blob_batch_body_ok_inv {K : Constants} {blobs cs ps : List Value} {i : Nat}
    {s r : BlobBatchBufs × Env}
    (h : blob_batch_loop_body K blobs cs ps i s = Except.ok r) :
    HasBytes (at_index blobs i) K.BYTES_PER_BLOB := by
  unfold blob_batch_loop_body get_blob at h
  rcases get_bytes_cases (at_index blobs i) K.BYTES_PER_BLOB "blob" s.2 with
    ⟨d, -, h1, h2⟩ | ⟨m, h1, -⟩
  · exact ⟨d, h1, h2⟩
  · rw [h1] at h
    cases h

theorem blob_batch_body_ok (K : Constants) (blobs cs ps : List Value) (i : Nat)
    (s : BlobBatchBufs × Env)
    (hb : HasBytes (at_index blobs i) K.BYTES_PER_BLOB)
    (hc : HasBytes (at_index cs i) K.BYTES_PER_COMMITMENT)
    (hp : HasBytes (at_index ps i) K.BYTES_PER_COMMITMENT) :
    ∃ mem, blob_batch_loop_body K blobs cs ps i s = Except.ok (mem, s.2) := by
  unfold blob_batch_loop_body get_blob get_bytes48
  rw [get_bytes_of_hasBytes _ _ hb]
  dsimp only
  rw [get_bytes_of_hasBytes _ _ hc]
  dsimp only
  rw [get_bytes_of_hasBytes _ _ hp]
  exact ⟨_, rfl⟩

theorem blob_batch_body_short {K : Constants} {blobs cs ps : List Value} {i : Nat}
    (s : BlobBatchBufs × Env) {d : Bytes}
    (hb : at_index blobs i = Value.typedArray .napi_uint8_array d)
    (hd : d.length ≠ K.BYTES_PER_BLOB) :
    blob_batch_loop_body K blobs cs ps i s =
      Except.error (s.1, s.2.throwJs .TypeError
        ("Expected blob to be " ++ toString K.BYTES_PER_BLOB ++ " bytes")) := by
  unfold blob_batch_loop_body get_blob
  rw [hb, get_bytes_short _ _ hd]
  rfl

theorem blob_batch_loop_ok_inv {K : Constants} {blobs cs ps : List Value} :
    ∀ (n i : Nat) (s r : BlobBatchBufs × Env),
      for_loop (blob_batch_loop_body K blobs cs ps) n i s = Except.ok r →
      ∀ j, i ≤ j → j < i + n → HasBytes (at_index blobs j) K.BYTES_PER_BLOB := by
  intro n
  induction n with
  | zero => intro i s r _ j h1 h2; omega
  | succ n ih =>
    intro i s r h j h1 h2
    simp only [for_loop] at h
    cases hb : blob_batch_loop_body K blobs cs ps i s with
    | error s1 => rw [hb] at h; cases h
    | ok s1 =>
      rw [hb] at h
      rcases Nat.eq_or_lt_of_le h1 with rfl | hlt
      · exact blob_batch_body_ok_inv hb
      · exact ih (i + 1) s1 r h j hlt (by omega)

theorem blob_batch_loop_stops (K : Constants) (blobs cs ps : List Value) {d : Bytes}
    (hd : d.length ≠ K.BYTES_PER_BLOB) :
    ∀ (k n i : Nat) (s : BlobBatchBufs × Env), k < n →
      (∀ j, i ≤ j → j < i + k → HasBytes (at_index blobs j) K.BYTES_PER_BLOB ∧
        HasBytes (at_index cs j) K.BYTES_PER_COMMITMENT ∧
        HasBytes (at_index ps j) K.BYTES_PER_COMMITMENT) →
      at_index blobs (i + k) = Value.typedArray .napi_uint8_array d →
      ∃ mem, for_loop (blob_batch_loop_body K blobs cs ps) n i s =
        Except.error (mem, s.2.throwJs .TypeError
          ("Expected blob to be " ++ toString K.BYTES_PER_BLOB ++ " bytes")) := by
  intro k
  induction k with
  | zero =>
    intro n i s hn _ hb
    obtain ⟨n, rfl⟩ : ∃ n1, n = n1 + 1 := ⟨n - 1, by omega⟩
    have hb1 : at_index blobs i = Value.typedArray .napi_uint8_array d := hb
    simp only [for_loop, blob_batch_body_short s hb1 hd]
    exact ⟨_, rfl⟩
  | succ k ih =>
    intro n i s hn hv hb
    obtain ⟨n, rfl⟩ : ∃ n1, n = n1 + 1 := ⟨n - 1, by omega⟩
    obtain ⟨h1, h2, h3⟩ := hv i (Nat.le_refl _) (by omega)
    obtain ⟨mem, hm⟩ := blob_batch_body_ok K blobs cs ps i s h1 h2 h3
    simp only [for_loop, hm]
    exact ih n (i + 1) (mem, s.2) (by omega) (fun j hj1 hj2 => hv j (by omega) (by omega))
      (by rw [← hb]; congr 1; omega)

theorem VerifyBlobKzgProofBatch_engine_inv (H : Host) (E : Engine) (K : Constants)
    (info : List Value) (st : KzgAddonData)
    (hbad : ∃ j, j < (at_index info 0).elems.length ∧
      ¬ HasBytes (at_index (at_index info 0).elems j) K.BYTES_PER_BLOB) :
    engine_calls (VerifyBlobKzgProofBatch H E K info (Env.start st)).2.log = [] := by
  unfold VerifyBlobKzgProofBatch
  split
  · rfl
  dsimp only
  split
  · next env1 heq =>
    obtain ⟨-, rfl⟩ := get_kzg_settings_none heq
    rfl
  next s env1 heq =>
  obtain ⟨-, -, rfl⟩ := get_kzg_settings_some heq
  split
  · rfl
  split
  · next env2 hc0 =>
    rw [calloc_none hc0]
    rfl
  next b0 env2 hc0 =>
  obtain ⟨rfl, rfl⟩ := calloc_some hc0
  split
  · next env3 hc1 =>
    rw [calloc_none hc1]
    rfl
  next b1 env3 hc1 =>
  obtain ⟨rfl, rfl⟩ := calloc_some hc1
  split
  · next env4 hc2 =>
    rw [calloc_none hc2]
    rfl
  next b2 env4 hc2 =>
  obtain ⟨rfl, rfl⟩ := calloc_some hc2
  split
  · next x env heq =>
    obtain ⟨-, -, ms, hl⟩ := for_loop_throwsOnly (fun s : BlobBatchBufs × Env => s.2) _
      (blob_batch_loop_body_throwsOnly K (at_index info 0).elems (at_index info 1).elems
        (at_index info 2).elems) _ _ _ _ (Or.inr heq)
    simp only at hl
    simp [hl, Env.start, engine_calls]
  · next mem env heq =>
    exfalso
    obtain ⟨j, hj, hbad⟩ := hbad
    exact hbad (blob_batch_loop_ok_inv _ _ _ _ heq j (Nat.zero_le _) (by omega))

theorem VerifyBlobKzgProofBatch_stops (H : Host) (E : Engine) (K : Constants)
    (blobs commitments proofs rest : List Value) (st : KzgAddonData) (i : Nat) (d : Bytes)
    (hs : st.is_setup = true)
    (hc : blobs.length = commitments.length) (hp : blobs.length = proofs.length)
    (h0 : H.calloc_ok 0 blobs.length K.BYTES_PER_BLOB = true)
    (h1 : H.calloc_ok 1 blobs.length 48 = true)
    (h2 : H.calloc_ok 2 blobs.length 48 = true)
    (hb : at_index blobs i = Value.typedArray .napi_uint8_array d)
    (hd : d.length ≠ K.BYTES_PER_BLOB)
    (hv : ∀ j < i, HasBytes (at_index blobs j) K.BYTES_PER_BLOB ∧
        HasBytes (at_index commitments j) K.BYTES_PER_COMMITMENT ∧
        HasBytes (at_index proofs j) K.BYTES_PER_COMMITMENT) :
    VerifyBlobKzgProofBatch H E K
        (Value.array blobs :: Value.array commitments :: Value.array proofs :: rest)
        (Env.start st) =
      (Value.null,
        ⟨st, [Event.calloc 0 blobs.length K.BYTES_PER_BLOB, Event.calloc 1 blobs.length 48,
              Event.calloc 2 blobs.length 48,
              Event.threw .TypeError
                ("Expected blob to be " ++ toString K.BYTES_PER_BLOB ++ " bytes"),
              Event.free 0, Event.free 1, Event.free 2], 3⟩) := by
  have hi : i < blobs.length := at_index_lt (by rw [hb]; intro h; cases h)
  unfold VerifyBlobKzgProofBatch
  simp only [at_index_zero, at_index_one, at_index_two, Value.IsArray, Value.elems,
    Bool.and_self, Bool.not_true, Bool.false_eq_true, if_false]
  rw [get_kzg_settings_loaded _ hs]
  simp only [← hc, ← hp, bne_self_eq_false, Bool.or_self, Bool.false_eq_true, if_false]
  rw [calloc_ok_eq H _ _ _ h0]
  simp only []
  rw [calloc_ok_eq H _ _ _ h1]
  simp only []
  rw [calloc_ok_eq H _ _ _ h2]
  simp only []
  obtain ⟨mem, hm⟩ := blob_batch_loop_stops K blobs commitments proofs hd i
    blobs.length 0
    (⟨zeroed blobs.length K.BYTES_PER_BLOB, zeroed blobs.length 48, zeroed blobs.length 48⟩,
      ⟨(Env.start st).data,
        (Env.start st).log ++ [Event.calloc (Env.start st).ncalloc blobs.length K.BYTES_PER_BLOB]
          ++ [Event.calloc ((Env.start st).ncalloc + 1) blobs.length 48]
          ++ [Event.calloc ((Env.start st).ncalloc + 1 + 1) blobs.length 48],
        (Env.start st).ncalloc + 1 + 1 + 1⟩)
    hi (fun j _ hj => hv j (by omega)) (by simpa using hb)
  rw [hm]
  rfl

theorem BlobToKzgCommitment_short (E : Engine) (K : Constants) (info : List Value)
    (st : KzgAddonData) (d : Bytes)
    (hb : at_index info 0 = Value.typedArray .napi_uint8_array d)
    (hd : d.length ≠ K.BYTES_PER_BLOB) :
    BlobToKzgCommitment E K info (Env.start st) =
      (Value.null, ⟨st, [Event.threw .TypeError
        ("Expected blob to be " ++ toString K.BYTES_PER_BLOB ++ " bytes")], 0⟩) := by
  unfold BlobToKzgCommitment get_blob
  rw [hb, get_bytes_short _ _ hd]
  rfl

theorem ComputeBlobKzgProof_short (E : Engine) (K : Constants) (info : List Value)
    (st : KzgAddonData) (d : Bytes)
    (hb : at_index info 0 = Value.typedArray .napi_uint8_array d)
    (hd : d.length ≠ K.BYTES_PER_BLOB) :
    ComputeBlobKzgProof E K info (Env.start st) =
      (Value.null, ⟨st, [Event.threw .TypeError
        ("Expected blob to be " ++ toString K.BYTES_PER_BLOB ++ " bytes")], 0⟩) := by
  unfold ComputeBlobKzgProof get_blob
  rw [hb, get_bytes_short _ _ hd]
  rfl

theorem VerifyBlobKzgProof_short (E : Engine) (K : Constants) (info : List Value)
    (st : KzgAddonData) (d : Bytes)
    (hb : at_index info 0 = Value.typedArray .napi_uint8_array d)
    (hd : d.length ≠ K.BYTES_PER_BLOB) :
    VerifyBlobKzgProof E K info (Env.start st) =
      (Value.null, ⟨st, [Event.threw .TypeError
        ("Expected blob to be " ++ toString K.BYTES_PER_BLOB ++ " bytes")], 0⟩) := by
  unfold VerifyBlobKzgProof get_blob
  rw [hb, get_bytes_short _ _ hd]
  rfl

theorem ComputeCells_short (H : Host) (E : Engine) (K : Constants) (info : List Value)
    (st : KzgAddonData) (d : Bytes)
    (hb : at_index info 0 = Value.typedArray .napi_uint8_array d)
    (hd : d.length ≠ K.BYTES_PER_BLOB) :
    ComputeCells H E K info (Env.start st) =
      (Value.null, ⟨st, [Event.threw .TypeError
        ("Expected blob to be " ++ toString K.BYTES_PER_BLOB ++ " bytes")], 0⟩) := by
  unfold ComputeCells get_blob
  rw [hb, get_bytes_short _ _ hd]
  rfl

theorem ComputeCellsAndKzgProofs_short (H : Host) (E : Engine) (K : Constants)
    (info : List Value) (st : KzgAddonData) (d : Bytes)
    (hb : at_index info 0 = Value.typedArray .napi_uint8_array d)
    (hd : d.length ≠ K.BYTES_PER_BLOB) :
    ComputeCellsAndKzgProofs H E K info (Env.start st) =
      (Value.null, ⟨st, [Event.threw .TypeError
        ("Expected blob to be " ++ toString K.BYTES_PER_BLOB ++ " bytes")], 0⟩) := by
  unfold ComputeCellsAndKzgProofs get_blob
  rw [hb, get_bytes_short _ _ hd]
  rfl

/-- The slip of `ComputeKzgProof`: with a blob of a wrong length the
wrong-length error is thrown by `prepare_compute_kzg_proof`, and the engine's
`compute_kzg_proof` is invoked all the same, with null pointers. -/
theorem ComputeKzgProof_short (E : Engine) (K : Constants) (info : List Value)
    (st : KzgAddonData) (d : Bytes)
    (hb : at_index info 0 = Value.typedArray .napi_uint8_array d)
    (hd : d.length ≠ K.BYTES_PER_BLOB) :
    ∃ tail, (ComputeKzgProof E K info (Env.start st)).2.log =
      Event.threw .TypeError ("Expected blob to be " ++ toString K.BYTES_PER_BLOB ++ " bytes") ::
        Event.engine (EngineCall.compute_kzg_proof none none none) :: tail := by
  unfold ComputeKzgProof prepare_compute_kzg_proof get_blob
  rw [hb, get_bytes_short _ _ hd]
  dsimp only
  split
  · exact ⟨_, rfl⟩
  · exact ⟨_, rfl⟩

/-- The slip of `ComputeKzgProof` at a concrete input: a blob of 131071 bytes
and a valid point, setup loaded. -/
theorem compute_kzg_proof_short_blob_reaches_engine :
    ∃ tail, (ComputeKzgProof engine_ok eip4844
        [Value.typedArray .napi_uint8_array (List.replicate 131071 0), zeros 32]
        (Env.start loaded)).2.log =
      Event.threw .TypeError
          ("Expected blob to be " ++ toString eip4844.BYTES_PER_BLOB ++ " bytes") ::
        Event.engine (EngineCall.compute_kzg_proof none none none) :: tail :=
  ComputeKzgProof_short engine_ok eip4844 _ loaded (List.replicate 131071 0) rfl
    (by rw [List.length_replicate]; decide)

/-- C2, counterexample: a batch whose one blob has `BYTES_PER_BLOB - 1` bytes,
on an instance whose setup is not loaded: the only exception of the call is
the not-loaded error, no wrong-length error is raised. -/
theorem short_blob_in_batch_not_loaded :
    (VerifyBlobKzgProofBatch host_ok engine_ok eip4844
        [Value.array [Value.typedArray .napi_uint8_array (List.replicate 131071 0)],
         Value.array [zeros 48], Value.array [zeros 48]]
        (Env.start not_loaded)).2.log =
      [Event.threw .Error
        "Must run loadTrustedSetup before running any other c-kzg functions"] := by
  rfl

/-- C2, amended: a blob of `BYTES_PER_BLOB - 1` bytes makes
`blobToKzgCommitment`, `computeBlobKzgProof`, `verifyBlobKzgProof`,
`computeCells` and `computeCellsAndKzgProofs`, in every state and whatever the
other arguments, return `null` having thrown the wrong-length error
"Expected blob to be BYTES_PER_BLOB bytes" and done nothing else (no engine
call); as an element of the blobs of `verifyBlobKzgProofBatch` it keeps the
engine from being invoked in every state and whatever the other arguments,
and the wrong-length error is raised (the buffers being released) when the
call reaches that element: setup loaded, the three arrays of equal length, the
three allocations succeeding, every earlier element valid. -/
theorem short_blob_rejected (H : Host) (E : Engine) (K : Constants) (d : Bytes)
    (hlen : d.length + 1 = K.BYTES_PER_BLOB) :
    (∀ op ∈ [Operation.blobToKzgCommitment, Operation.computeBlobKzgProof,
        Operation.verifyBlobKzgProof, Operation.computeCells,
        Operation.computeCellsAndKzgProofs],
      ∀ info st, at_index info 0 = Value.typedArray .napi_uint8_array d →
        op.run H E K info (Env.start st) =
          (Value.null, ⟨st, [Event.threw .TypeError
            ("Expected blob to be " ++ toString K.BYTES_PER_BLOB ++ " bytes")], 0⟩)) ∧
    (∀ info st i,
      at_index (at_index info 0).elems i = Value.typedArray .napi_uint8_array d →
      engine_calls (VerifyBlobKzgProofBatch H E K info (Env.start st)).2.log = []) ∧
    (∀ blobs commitments proofs rest st i,
      st.is_setup = true →
      blobs.length = commitments.length → blobs.length = proofs.length →
      H.calloc_ok 0 blobs.length K.BYTES_PER_BLOB = true →
      H.calloc_ok 1 blobs.length 48 = true →
      H.calloc_ok 2 blobs.length 48 = true →
      at_index blobs i = Value.typedArray .napi_uint8_array d →
      (∀ j < i, HasBytes (at_index blobs j) K.BYTES_PER_BLOB ∧
        HasBytes (at_index commitments j) K.BYTES_PER_COMMITMENT ∧
        HasBytes (at_index proofs j) K.BYTES_PER_COMMITMENT) →
      VerifyBlobKzgProofBatch H E K
          (Value.array blobs :: Value.array commitments :: Value.array proofs :: rest)
          (Env.start st) =
        (Value.null,
          ⟨st, [Event.calloc 0 blobs.length K.BYTES_PER_BLOB, Event.calloc 1 blobs.length 48,
                Event.calloc 2 blobs.length 48,
                Event.threw .TypeError
                  ("Expected blob to be " ++ toString K.BYTES_PER_BLOB ++ " bytes"),
                Event.free 0, Event.free 1, Event.free 2], 3⟩)) := by
  have hd : d.length ≠ K.BYTES_PER_BLOB := by omega
  refine ⟨?_, ?_, ?_⟩
  · intro op hop info st hb
    simp only [List.mem_cons, List.mem_singleton, List.mem_nil_iff, or_false] at hop
    rcases hop with rfl | rfl | rfl | rfl | rfl
    · exact BlobToKzgCommitment_short E K info st d hb hd
    · exact ComputeBlobKzgProof_short E K info st d hb hd
    · exact VerifyBlobKzgProof_short E K info st d hb hd
    · exact ComputeCells_short H E K info st d hb hd
    · exact ComputeCellsAndKzgProofs_short H E K info st d hb hd
  · intro info st i hb
    refine VerifyBlobKzgProofBatch_engine_inv H E K info st
      ⟨i, at_index_lt (by rw [hb]; intro h; cases h), ?_⟩
    rintro ⟨d1, h1, h2⟩
    rw [hb] at h1
    injection h1 with _ h1
    subst h1
    exact hd h2
  · intro blobs commitments proofs rest st i hs hc hp h0 h1 h2 hb hv
    exact VerifyBlobKzgProofBatch_stops H E K blobs commitments proofs rest st i d hs hc hp
      h0 h1 h2 hb hd hv

/-- Witness of C2: `blobToKzgCommitment` on a blob of 131071 bytes. -/
theorem short_blob_rejected_witness :
    (List.replicate 131071 0 : Bytes).length + 1 = eip4844.BYTES_PER_BLOB ∧
    Operation.blobToKzgCommitment.run host_ok engine_ok eip4844
        [Value.typedArray .napi_uint8_array (List.replicate 131071 0)] (Env.start loaded) =
      (Value.null, ⟨loaded, [Event.threw .TypeError
        ("Expected blob to be " ++ toString eip4844.BYTES_PER_BLOB ++ " bytes")], 0⟩) :=
  have h : (List.replicate 131071 0 : Bytes).length + 1 = eip4844.BYTES_PER_BLOB := by
    rw [List.length_replicate]; rfl
  ⟨h, (short_blob_rejected host_ok engine_ok eip4844 (List.replicate 131071 0) h).1
    Operation.blobToKzgCommitment (by decide)
    [Value.typedArray .napi_uint8_array (List.replicate 131071 0)] loaded rfl⟩

/-! ## Operations before `loadTrustedSetup` -/

theorem get_kzg_settings_not_loaded (env : Env) (h : env.data.is_setup = false) :
    get_kzg_settings env = (none, env.throwJs .Error not_loaded_msg) := by
  unfold get_kzg_settings not_loaded_msg
  simp [h]

theorem ComputeCells_not_loaded (H : Host) (E : Engine) (K : Constants) (info : List Value)
    (st : KzgAddonData) (hs : st.is_setup = false) :
    StoppedUnloaded K .computeCells info (ComputeCells H E K info (Env.start st)) := by
  unfold StoppedUnloaded ComputeCells get_blob reaches_setup_check
  rcases get_bytes_cases (at_index info 0) K.BYTES_PER_BLOB "blob" (Env.start st) with
    ⟨d, h, hv, hl⟩ | ⟨m, h, hn⟩
  · rw [h]; dsimp only
    rw [get_kzg_settings_not_loaded _ hs]
    have hb : HasBytes (at_index info 0) K.BYTES_PER_BLOB := ⟨d, hv, hl⟩
    simp [thrown, engine_calls, allocated, Env.start, hb]
  · rw [h]
    simp [thrown, engine_calls, allocated, Env.start, hn]

theorem ComputeCellsAndKzgProofs_not_loaded (H : Host) (E : Engine) (K : Constants)
    (info : List Value) (st : KzgAddonData) (hs : st.is_setup = false) :
    StoppedUnloaded K .computeCellsAndKzgProofs info
      (ComputeCellsAndKzgProofs H E K info (Env.start st)) := by
  unfold StoppedUnloaded ComputeCellsAndKzgProofs get_blob reaches_setup_check
  rcases get_bytes_cases (at_index info 0) K.BYTES_PER_BLOB "blob" (Env.start st) with
    ⟨d, h, hv, hl⟩ | ⟨m, h, hn⟩
  · rw [h]; dsimp only
    rw [get_kzg_settings_not_loaded _ hs]
    have hb : HasBytes (at_index info 0) K.BYTES_PER_BLOB := ⟨d, hv, hl⟩
    simp [thrown, engine_calls, allocated, Env.start, hb]
  · rw [h]
    simp [thrown, engine_calls, allocated, Env.start, hn]

theorem RecoverAllCells_not_loaded (H : Host) (E : Engine) (K : Constants) (info : List Value)
    (st : KzgAddonData) (hs : st.is_setup = false) :
    StoppedUnloaded K .recoverAllCells info (RecoverAllCells H E K info (Env.start st)) := by
  unfold StoppedUnloaded RecoverAllCells reaches_setup_check
  cases h0 : (at_index info 0).IsArray
  · simp [thrown, engine_calls, allocated, Env.start, not_loaded_msg]
  cases h1 : (at_index info 1).IsArray
  · simp [thrown, engine_calls, allocated, Env.start, not_loaded_msg]
  simp only [Bool.not_true, Bool.false_eq_true, if_false]
  rw [get_kzg_settings_not_loaded _ hs]
  simp [thrown, engine_calls, allocated, Env.start]

theorem VerifyBlobKzgProofBatch_not_loaded (H : Host) (E : Engine) (K : Constants)
    (info : List Value) (st : KzgAddonData) (hs : st.is_setup = false) :
    StoppedUnloaded K .verifyBlobKzgProofBatch info
      (VerifyBlobKzgProofBatch H E K info (Env.start st)) := by
  unfold StoppedUnloaded VerifyBlobKzgProofBatch reaches_setup_check
  cases h0 : (at_index info 0).IsArray
  · simp [thrown, engine_calls, allocated, Env.start, not_loaded_msg]
  cases h1 : (at_index info 1).IsArray
  · simp [thrown, engine_calls, allocated, Env.start, not_loaded_msg]
  cases h2 : (at_index info 2).IsArray
  · simp [thrown, engine_calls, allocated, Env.start, not_loaded_msg]
  simp only [Bool.and_self, Bool.not_true, Bool.false_eq_true, if_false]
  rw [get_kzg_settings_not_loaded _ hs]
  simp [thrown, engine_calls, allocated, Env.start]

theorem VerifyCellKzgProofBatch_not_loaded (H : Host) (E : Engine) (K : Constants)
    (info : List Value) (st : KzgAddonData) (hs : st.is_setup = false) :
    StoppedUnloaded K .verifyCellKzgProofBatch info
      (VerifyCellKzgProofBatch H E K info (Env.start st)) := by
  unfold StoppedUnloaded VerifyCellKzgProofBatch reaches_setup_check
  cases h0 : (at_index info 0).IsArray
  · simp [thrown, engine_calls, allocated, Env.start, not_loaded_msg]
  cases h1 : (at_index info 1).IsArray
  · simp [thrown, engine_calls, allocated, Env.start, not_loaded_msg]
  cases h2 : (at_index info 2).IsArray
  · simp [thrown, engine_calls, allocated, Env.start, not_loaded_msg]
  cases h3 : (at_index info 3).IsArray
  · simp [thrown, engine_calls, allocated, Env.start, not_loaded_msg]
  cases h4 : (at_index info 4).IsArray
  · simp [thrown, engine_calls, allocated, Env.start, not_loaded_msg]
  simp only [Bool.and_self, Bool.not_true, Bool.false_eq_true, if_false]
  rw [get_kzg_settings_not_loaded _ hs]
  simp [thrown, engine_calls, allocated, Env.start]

theorem at_index_mem {xs : List Value} {j : Nat} (h : j < xs.length) : at_index xs j ∈ xs := by
  unfold at_index
  rw [List.getD_eq_getElem _ _ h]
  exact List.getElem_mem h

theorem for_loop_inv {σ : Type} (body : Nat → σ → Except σ σ) (Inv : Nat → σ → Prop) :
    ∀ (n i : Nat) (s : σ), Inv i s →
      (∀ j s, i ≤ j → j < i + n → Inv j s →
        ∃ s1, body j s = Except.ok s1 ∧ Inv (j + 1) s1) →
      ∃ s1, for_loop body n i s = Except.ok s1 ∧ Inv (i + n) s1 := by
  intro n
  induction n with
  | zero => intro i s h _; exact ⟨s, rfl, h⟩
  | succ n ih =>
    intro i s h hstep
    obtain ⟨s1, hb, h1⟩ := hstep i s (Nat.le_refl _) (by omega) h
    obtain ⟨s2, hl, h2⟩ := ih (i + 1) s1 h1
      (fun j s hj1 hj2 hinv => hstep j s (by omega) (by omega) hinv)
    refine ⟨s2, ?_, ?_⟩
    · simp only [for_loop, hb]
      exact hl
    · have e : i + (n + 1) = i + 1 + n := by omega
      rw [e]
      exact h2

theorem at_index_eq_getElem? (xs : List Value) (i : Nat) (h : i < xs.length) :
    xs[i]? = some (at_index xs i) := by
  unfold at_index
  rw [List.getD_eq_getElem _ _ h, List.getElem?_eq_getElem h]

theorem eq_map_of_filled {β : Type} (f : Value → β) (xs : List Value) (mem : List β)
    (hlen : mem.length = xs.length)
    (h : ∀ k < xs.length, mem[k]? = some (f (at_index xs k))) : mem = xs.map f := by
  apply List.ext_getElem?
  intro k
  by_cases hk : k < xs.length
  · rw [h k hk, List.getElem?_map, at_index_eq_getElem? xs k hk]
    rfl
  · have h1 : mem.length ≤ k := by omega
    have h2 : (xs.map f).length ≤ k := by simp; omega
    rw [List.getElem?_eq_none h1, List.getElem?_eq_none h2]

theorem set_filled {β : Type} (mem : List β) (j : Nat) (x : β) (g : Nat → β)
    (hj : j < mem.length) (h : ∀ k < j, mem[k]? = some (g k)) (hx : x = g j) :
    ∀ k < j + 1, (mem.set j x)[k]? = some (g k) := by
  intro k hk
  by_cases hkj : k = j
  · subst hkj
    rw [List.getElem?_set_self hj, hx]
  · rw [List.getElem?_set_ne (fun e => hkj e.symm)]
    exact h k (by omega)

theorem data_take_of_hasBytes {v : Value} {n : Nat} (h : HasBytes v n) :
    v.Data.take n = v.Data := by
  obtain ⟨d, rfl, hl⟩ := h
  exact List.take_of_length_le (by simp [Value.Data, hl])

theorem cells_loop_fill (K : Constants) (cells : List Value) (env0 : Env)
    (hv : ∀ j < cells.length, HasBytes (at_index cells j) K.BYTES_PER_CELL)
    (mem0 : List Bytes) (hlen : mem0.length = cells.length) :
    for_loop (cells_loop_body K cells) cells.length 0 (mem0, env0) =
      Except.ok (cells.map Value.Data, env0) := by
  obtain ⟨s1, hl, h1, h2, h3⟩ := for_loop_inv (cells_loop_body K cells)
    (fun j s => s.2 = env0 ∧ s.1.length = cells.length ∧
      ∀ k < j, s.1[k]? = some (at_index cells k).Data)
    cells.length 0 (mem0, env0) ⟨rfl, hlen, fun k hk => by omega⟩
    (by
      intro j s _ hj ⟨he, hl, hf⟩
      have hjv := hv j (by omega)
      refine ⟨(memcpy_at s.1 j (at_index cells j).Data K.BYTES_PER_CELL, s.2), ?_, he, ?_, ?_⟩
      · unfold cells_loop_body get_cell
        rw [get_bytes_of_hasBytes _ _ hjv]
      · simp [memcpy_at, hl]
      · exact set_filled s.1 j _ (fun k => (at_index cells k).Data) (by omega) hf
          (data_take_of_hasBytes hjv))
  rw [hl]
  have e : s1.1 = cells.map Value.Data :=
    eq_map_of_filled Value.Data cells s1.1 h2 (fun k hk => h3 k (by omega))
  rw [← e, ← h1]

theorem blob_batch_loop_fill (K : Constants) (blobs commitments proofs : List Value) (env0 : Env)
    (hc : commitments.length = blobs.length) (hp : proofs.length = blobs.length)
    (hvb : ∀ j < blobs.length, HasBytes (at_index blobs j) K.BYTES_PER_BLOB)
    (hvc : ∀ j < blobs.length, HasBytes (at_index commitments j) K.BYTES_PER_COMMITMENT)
    (hvp : ∀ j < blobs.length, HasBytes (at_index proofs j) K.BYTES_PER_COMMITMENT)
    (hpc : K.BYTES_PER_PROOF = K.BYTES_PER_COMMITMENT)
    (mem0 : BlobBatchBufs) (hl0 : mem0.blobs.length = blobs.length)
    (hl1 : mem0.commitments.length = blobs.length) (hl2 : mem0.proofs.length = blobs.length) :
    for_loop (blob_batch_loop_body K blobs commitments proofs) blobs.length 0 (mem0, env0) =
      Except.ok (⟨blobs.map Value.Data, commitments.map Value.Data, proofs.map Value.Data⟩,
        env0) := by
  obtain ⟨s1, hl, h1, ⟨h2, h3⟩, ⟨h4, h5⟩, h6, h7⟩ :=
    for_loop_inv (blob_batch_loop_body K blobs commitments proofs)
    (fun j s => s.2 = env0 ∧
      (s.1.blobs.length = blobs.length ∧ ∀ k < j, s.1.blobs[k]? = some (at_index blobs k).Data) ∧
      (s.1.commitments.length = blobs.length ∧
        ∀ k < j, s.1.commitments[k]? = some (at_index commitments k).Data) ∧
      (s.1.proofs.length = blobs.length ∧
        ∀ k < j, s.1.proofs[k]? = some (at_index proofs k).Data))
    blobs.length 0 (mem0, env0)
    ⟨rfl, ⟨hl0, fun k hk => by omega⟩, ⟨hl1, fun k hk => by omega⟩, hl2, fun k hk => by omega⟩
    (by
      intro j s _ hj ⟨he, ⟨hb1, hb2⟩, ⟨hc1, hc2⟩, hp1, hp2⟩
      have hjb := hvb j (by omega)
      have hjc := hvc j (by omega)
      have hjp := hvp j (by omega)
      refine ⟨(⟨memcpy_at s.1.blobs j (at_index blobs j).Data K.BYTES_PER_BLOB,
          memcpy_at s.1.commitments j (at_index commitments j).Data K.BYTES_PER_COMMITMENT,
          memcpy_at s.1.proofs j (at_index proofs j).Data K.BYTES_PER_PROOF⟩, s.2),
        ?_, he, ⟨?_, ?_⟩, ⟨?_, ?_⟩, ?_, ?_⟩
      · unfold blob_batch_loop_body get_blob get_bytes48
        rw [get_bytes_of_hasBytes _ _ hjb]
        dsimp only
        rw [get_bytes_of_hasBytes _ _ hjc]
        dsimp only
        rw [get_bytes_of_hasBytes _ _ hjp]
      · simp [memcpy_at, hb1]
      · exact set_filled s.1.blobs j _ (fun k => (at_index blobs k).Data) (by omega) hb2
          (data_take_of_hasBytes hjb)
      · simp [memcpy_at, hc1]
      · exact set_filled s.1.commitments j _ (fun k => (at_index commitments k).Data)
          (by omega) hc2 (data_take_of_hasBytes hjc)
      · simp [memcpy_at, hp1]
      · exact set_filled s.1.proofs j _ (fun k => (at_index proofs k).Data)
          (by omega) hp2 (by rw [hpc]; exact data_take_of_hasBytes hjp))
  rw [hl]
  have e1 : s1.1.blobs = blobs.map Value.Data :=
    eq_map_of_filled Value.Data blobs s1.1.blobs h2 (fun k hk => h3 k (by omega))
  have e2 : s1.1.commitments = commitments.map Value.Data :=
    eq_map_of_filled Value.Data commitments s1.1.commitments (by omega)
      (fun k hk => h5 k (by omega))
  have e3 : s1.1.proofs = proofs.map Value.Data :=
    eq_map_of_filled Value.Data proofs s1.1.proofs (by omega) (fun k hk => h7 k (by omega))
  rw [← e1, ← e2, ← e3, ← h1]

/-! ## `cellsToBlob`: marshaling of the cells -/

theorem CellsToBlob_wrong_count (H : Host) (E : Engine) (K : Constants)
    (cells rest : List Value) (st : KzgAddonData) (h : cells.length ≠ K.CELLS_PER_EXT_BLOB) :
    CellsToBlob H E K (Value.array cells :: rest) (Env.start st) =
      (Value.null,
        ⟨st, [Event.threw .Error "Cells must have CELLS_PER_EXT_BLOB cells"], 0⟩) := by
  unfold CellsToBlob
  have hc : (cells.length != K.CELLS_PER_EXT_BLOB) = true := by simp [h]
  simp only [at_index_zero, Value.IsArray, Value.elems, Bool.not_true, Bool.false_eq_true,
    if_false, hc, if_true]
  rfl

theorem CellsToBlob_marshals (H : Host) (E : Engine) (K : Constants)
    (cells rest : List Value) (st : KzgAddonData) (hlen : cells.length = K.CELLS_PER_EXT_BLOB)
    (hv : ∀ c ∈ cells, HasBytes c K.BYTES_PER_CELL)
    (h0 : H.calloc_ok 0 K.CELLS_PER_EXT_BLOB K.BYTES_PER_CELL = true) :
    CellsToBlob H E K (Value.array cells :: rest) (Env.start st) =
      if ((E.cells_to_blob (cells.map Value.Data)).1 != C_KZG_OK) = true then
        (Value.null,
          ⟨st, [Event.calloc 0 K.CELLS_PER_EXT_BLOB K.BYTES_PER_CELL,
                Event.engine (EngineCall.cells_to_blob (cells.map Value.Data)),
                Event.threw .Error ("Error in cellsToBlob: " ++
                  from_c_kzg_ret (E.cells_to_blob (cells.map Value.Data)).1),
                Event.free 0], 1⟩)
      else
        (Buffer_Copy (E.cells_to_blob (cells.map Value.Data)).2 K.BYTES_PER_BLOB,
          ⟨st, [Event.calloc 0 K.CELLS_PER_EXT_BLOB K.BYTES_PER_CELL,
                Event.engine (EngineCall.cells_to_blob (cells.map Value.Data)),
                Event.free 0], 1⟩) := by
  unfold CellsToBlob
  simp only [at_index_zero, Value.IsArray, Value.elems, Bool.not_true, Bool.false_eq_true,
    if_false, hlen, bne_self_eq_false]
  rw [calloc_ok_eq H _ _ _ h0]
  simp only []
  have hfill := cells_loop_fill K cells
    ⟨(Env.start st).data,
      (Env.start st).log ++
        [Event.calloc (Env.start st).ncalloc K.CELLS_PER_EXT_BLOB K.BYTES_PER_CELL],
      (Env.start st).ncalloc + 1⟩
    (fun j hj => hv _ (at_index_mem hj))
    (zeroed K.CELLS_PER_EXT_BLOB K.BYTES_PER_CELL) (by simp [zeroed, hlen])
  rw [hlen] at hfill
  rw [hfill]
  simp only []
  split <;> rfl

theorem CellsToBlob_no_memory (H : Host) (E : Engine) (K : Constants)
    (cells rest : List Value) (st : KzgAddonData) (hlen : cells.length = K.CELLS_PER_EXT_BLOB)
    (h0 : H.calloc_ok 0 K.CELLS_PER_EXT_BLOB K.BYTES_PER_CELL = false) :
    CellsToBlob H E K (Value.array cells :: rest) (Env.start st) =
      (Value.null,
        ⟨st, [Event.calloc_null K.CELLS_PER_EXT_BLOB K.BYTES_PER_CELL,
              Event.threw .Error "Error while allocating memory for cells"], 1⟩) := by
  unfold CellsToBlob
  simp only [at_index_zero, Value.IsArray, Value.elems, Bool.not_true, Bool.false_eq_true,
    if_false, hlen, bne_self_eq_false]
  have hc : calloc H K.CELLS_PER_EXT_BLOB K.BYTES_PER_CELL (Env.start st) =
      (none, ⟨st, [Event.calloc_null K.CELLS_PER_EXT_BLOB K.BYTES_PER_CELL], 1⟩) := by
    unfold calloc
    simp [Env.start, h0]
  rw [hc]
  rfl

theorem hasBytes_zeros (n : Nat) : HasBytes (zeros n) n :=
  ⟨List.replicate n 0, rfl, List.length_replicate _ _⟩

theorem hasBytes_replicate_zeros (m n : Nat) : ∀ c ∈ List.replicate m (zeros n), HasBytes c n := by
  intro c hc
  rw [List.eq_of_mem_replicate hc]
  exact hasBytes_zeros n

/-- C11, counterexample: `cellsToBlob` with exactly 128 valid cells when the
allocation of the buffer fails: the allocation error is raised and the engine
is not invoked. -/
theorem cells_to_blob_without_memory :
    (CellsToBlob host_no_memory engine_ok eip4844
        (Value.array (List.replicate 128 (zeros 2048)) :: []) (Env.start loaded)).2.log =
      [Event.calloc_null eip4844.CELLS_PER_EXT_BLOB eip4844.BYTES_PER_CELL,
       Event.threw .Error "Error while allocating memory for cells"] := by
  rw [CellsToBlob_no_memory host_no_memory engine_ok eip4844 (List.replicate 128 (zeros 2048)) []
    loaded (List.length_replicate _ _) rfl]

/-- C11, amended: `cellsToBlob` called with an array whose length is not
exactly `CELLS_PER_EXT_BLOB` raises the error "Cells must have
CELLS_PER_EXT_BLOB cells", allocates no buffer and does not invoke the engine
(that exception is the only event of the call); called with exactly
`CELLS_PER_EXT_BLOB` cells that each validate, and the allocation of the
buffer succeeding, it invokes the engine reconstruction exactly once, on the
buffer whose i-th cell is the i-th input cell. -/
theorem cells_to_blob_marshaling (H : Host) (E : Engine) (K : Constants)
    (cells rest : List Value) (st : KzgAddonData) :
    (cells.length ≠ K.CELLS_PER_EXT_BLOB →
      CellsToBlob H E K (Value.array cells :: rest) (Env.start st) =
        (Value.null,
          ⟨st, [Event.threw .Error "Cells must have CELLS_PER_EXT_BLOB cells"], 0⟩)) ∧
    (cells.length = K.CELLS_PER_EXT_BLOB →
      (∀ c ∈ cells, HasBytes c K.BYTES_PER_CELL) →
      H.calloc_ok 0 K.CELLS_PER_EXT_BLOB K.BYTES_PER_CELL = true →
      engine_calls (CellsToBlob H E K (Value.array cells :: rest) (Env.start st)).2.log =
          [EngineCall.cells_to_blob (cells.map Value.Data)] ∧
        (cells.map Value.Data).length = K.CELLS_PER_EXT_BLOB ∧
        ∀ i < cells.length, (cells.map Value.Data)[i]? = some (at_index cells i).Data) := by
  refine ⟨CellsToBlob_wrong_count H E K cells rest st, ?_⟩
  intro hlen hv h0
  refine ⟨?_, by simp [hlen], ?_⟩
  · rw [CellsToBlob_marshals H E K cells rest st hlen hv h0]
    split <;> rfl
  · intro i hi
    rw [List.getElem?_map, at_index_eq_getElem? cells i hi]
    rfl

/-- Witness of C11: 128 cells of 2048 zero bytes, the allocation succeeding. -/
theorem cells_to_blob_marshaling_witness :
    (List.replicate 128 (zeros 2048)).length = eip4844.CELLS_PER_EXT_BLOB ∧
    (∀ c ∈ List.replicate 128 (zeros 2048), HasBytes c eip4844.BYTES_PER_CELL) ∧
    host_ok.calloc_ok 0 eip4844.CELLS_PER_EXT_BLOB eip4844.BYTES_PER_CELL = true ∧
    engine_calls (CellsToBlob host_ok engine_ok eip4844
        (Value.array (List.replicate 128 (zeros 2048)) :: []) (Env.start loaded)).2.log =
      [EngineCall.cells_to_blob ((List.replicate 128 (zeros 2048)).map Value.Data)] :=
  ⟨List.length_replicate _ _, hasBytes_replicate_zeros 128 2048, rfl,
    ((cells_to_blob_marshaling host_ok engine_ok eip4844 (List.replicate 128 (zeros 2048)) []
      loaded).2 (List.length_replicate _ _) (hasBytes_replicate_zeros 128 2048) rfl).1⟩

/-! ## Round trip of `computeCells` and `cellsToBlob` -/

theorem Buffer_Copy_exact (c : Bytes) (n : Nat) (h : c.length = n) :
    Buffer_Copy c n = Value.typedArray .napi_uint8_array c := by
  unfold Buffer_Copy
  rw [List.take_of_length_le (by omega)]
  simp [h]

theorem map_range_getD {β : Type} (f : Bytes → β) (C : List Bytes) :
    (List.range C.length).map (fun i => f (C.getD i [])) = C.map f := by
  apply List.ext_getElem?
  intro k
  by_cases hk : k < C.length
  · rw [List.getElem?_map, List.getElem?_map, List.getElem?_range hk,
      List.getElem?_eq_getElem hk]
    simp [List.getElem?_eq_getElem hk]
  · have h1 : ((List.range C.length).map fun i => f (C.getD i [])).length ≤ k := by
      simp; omega
    have h2 : (C.map f).length ≤ k := by simp; omega
    rw [List.getElem?_eq_none h1, List.getElem?_eq_none h2]

theorem copy_out_exact (C : List Bytes) (n size : Nat) (hn : C.length = n)
    (hc : ∀ c ∈ C, c.length = size) :
    copy_out C n size = Value.array (C.map (Value.typedArray .napi_uint8_array)) := by
  unfold copy_out
  subst hn
  rw [← map_range_getD (Value.typedArray .napi_uint8_array) C]
  congr 1
  apply List.map_congr_left
  intro i hi
  have hi1 : i < C.length := List.mem_range.1 hi
  apply Buffer_Copy_exact
  rw [List.getD_eq_getElem _ _ hi1]
  exact hc _ (List.getElem_mem hi1)

theorem ComputeCells_valid (H : Host) (E : Engine) (K : Constants) (b : Bytes)
    (rest : List Value) (st : KzgAddonData) (hb : b.length = K.BYTES_PER_BLOB)
    (hs : st.is_setup = true)
    (h0 : H.calloc_ok 0 K.CELLS_PER_EXT_BLOB K.BYTES_PER_CELL = true)
    (hret : (E.compute_cells_and_kzg_proofs false b st.settings).1 = C_KZG_OK) :
    ComputeCells H E K (Value.typedArray .napi_uint8_array b :: rest) (Env.start st) =
      (copy_out (E.compute_cells_and_kzg_proofs false b st.settings).2.1
          K.CELLS_PER_EXT_BLOB K.BYTES_PER_CELL,
        ⟨st, [Event.calloc 0 K.CELLS_PER_EXT_BLOB K.BYTES_PER_CELL,
              Event.engine (EngineCall.compute_cells_and_kzg_proofs false b st.settings),
              Event.free 0], 1⟩) := by
  unfold ComputeCells get_blob
  rw [at_index_zero, get_bytes_of_hasBytes _ _ ⟨b, rfl, hb⟩]
  dsimp only
  rw [get_kzg_settings_loaded _ hs]
  dsimp only
  rw [calloc_ok_eq H _ _ _ h0]
  simp only [Value.Data, Env.start, hret, bne_self_eq_false, Bool.false_eq_true, if_false]
  rfl

theorem map_data_typedArray (C : List Bytes) :
    (C.map (Value.typedArray .napi_uint8_array)).map Value.Data = C := by
  induction C with
  | nil => rfl
  | cons c C ih => simp [Value.Data, ih]

/-- C13: for every blob `b` of exactly `BYTES_PER_BLOB` bytes, with the setup
loaded, the allocations succeeding, and an engine that computes for `b` a
buffer of `CELLS_PER_EXT_BLOB` cells of `BYTES_PER_CELL` bytes from which its
`cells_to_blob` returns `b`: `computeCells(b)` succeeds with
`CELLS_PER_EXT_BLOB` cells, `cellsToBlob` of that result throws nothing,
hands the engine exactly the buffer the engine had computed (the copies out
and back reproduce it cell for cell, byte for byte, in order), and returns
`b`. -/
theorem cells_to_blob_of_compute_cells (H : Host) (E : Engine) (K : Constants) (b : Bytes)
    (st : KzgAddonData) (hb : b.length = K.BYTES_PER_BLOB) (hs : st.is_setup = true)
    (h0 : H.calloc_ok 0 K.CELLS_PER_EXT_BLOB K.BYTES_PER_CELL = true)
    (hret : (E.compute_cells_and_kzg_proofs false b st.settings).1 = C_KZG_OK)
    (hn : (E.compute_cells_and_kzg_proofs false b st.settings).2.1.length =
      K.CELLS_PER_EXT_BLOB)
    (hc : ∀ c ∈ (E.compute_cells_and_kzg_proofs false b st.settings).2.1,
      c.length = K.BYTES_PER_CELL)
    (hrt : E.cells_to_blob (E.compute_cells_and_kzg_proofs false b st.settings).2.1 =
      (C_KZG_OK, b)) :
    thrown (ComputeCells H E K [Value.typedArray .napi_uint8_array b] (Env.start st)).2.log
      = [] ∧
    (ComputeCells H E K [Value.typedArray .napi_uint8_array b] (Env.start st)).1.Length =
      K.CELLS_PER_EXT_BLOB ∧
    CellsToBlob H E K
        [(ComputeCells H E K [Value.typedArray .napi_uint8_array b] (Env.start st)).1]
        (Env.start
          (ComputeCells H E K [Value.typedArray .napi_uint8_array b] (Env.start st)).2.data) =
      (Value.typedArray .napi_uint8_array b,
        ⟨st, [Event.calloc 0 K.CELLS_PER_EXT_BLOB K.BYTES_PER_CELL,
              Event.engine (EngineCall.cells_to_blob
                (E.compute_cells_and_kzg_proofs false b st.settings).2.1),
              Event.free 0], 1⟩) := by
  rw [ComputeCells_valid H E K b [] st hb hs h0 hret, copy_out_exact _ _ _ hn hc]
  refine ⟨by simp [thrown], by simp [Value.Length, Value.elems, hn], ?_⟩
  have hv : ∀ c ∈ (E.compute_cells_and_kzg_proofs false b st.settings).2.1.map
      (Value.typedArray .napi_uint8_array), HasBytes c K.BYTES_PER_CELL := by
    intro c hcm
    obtain ⟨d, hd, rfl⟩ := List.mem_map.1 hcm
    exact ⟨d, rfl, hc d hd⟩
  rw [CellsToBlob_marshals H E K _ [] st (by simp [hn]) hv h0, map_data_typedArray, hrt]
  simp only [bne_self_eq_false, Bool.false_eq_true, if_false]
  rw [Buffer_Copy_exact b _ hb]

/-- Witness of C13: the blob of 131072 zero bytes, with an engine writing
zero-filled outputs. -/
theorem cells_to_blob_of_compute_cells_witness :
    (List.replicate 131072 0 : Bytes).length = eip4844.BYTES_PER_BLOB ∧
    loaded.is_setup = true ∧
    (CellsToBlob host_ok (engine_zeros eip4844) eip4844
        [(ComputeCells host_ok (engine_zeros eip4844) eip4844
          [Value.typedArray .napi_uint8_array (List.replicate 131072 0)] (Env.start loaded)).1]
        (Env.start
          (ComputeCells host_ok (engine_zeros eip4844) eip4844
            [Value.typedArray .napi_uint8_array (List.replicate 131072 0)]
            (Env.start loaded)).2.data)).1 =
      Value.typedArray .napi_uint8_array (List.replicate 131072 0) :=
  have hb : (List.replicate 131072 0 : Bytes).length = eip4844.BYTES_PER_BLOB :=
    List.length_replicate _ _
  have hn : ((engine_zeros eip4844).compute_cells_and_kzg_proofs false
      (List.replicate 131072 0) loaded.settings).2.1.length = eip4844.CELLS_PER_EXT_BLOB :=
    List.length_replicate _ _
  have hc : ∀ c ∈ ((engine_zeros eip4844).compute_cells_and_kzg_proofs false
      (List.replicate 131072 0) loaded.settings).2.1, c.length = eip4844.BYTES_PER_CELL := by
    intro c hcm
    rw [List.eq_of_mem_replicate hcm]
    exact List.length_replicate _ _
  ⟨hb, rfl,
    congrArg Prod.fst (cells_to_blob_of_compute_cells host_ok (engine_zeros eip4844) eip4844
      (List.replicate 131072 0) loaded hb rfl rfl rfl hn hc rfl).2.2⟩

/-! ## `verifyBlobKzgProofBatch` against `verifyBlobKzgProof` -/

theorem all_range_congr (n : Nat) (f g : Nat → Bool) (h : ∀ j < n, f j = g j) :
    (List.range n).all f = (List.range n).all g := by
  rw [Bool.eq_iff_iff, List.all_eq_true, List.all_eq_true]
  constructor
  · intro hf j hj
    rw [← h j (List.mem_range.1 hj)]
    exact hf j hj
  · intro hg j hj
    rw [h j (List.mem_range.1 hj)]
    exact hg j hj

theorem hasBytes_single (n : Nat) : ∀ j < [zeros n].length, HasBytes (at_index [zeros n] j) n := by
  intro j hj
  have h0 : j = 0 := by simpa using hj
  subst h0
  exact hasBytes_zeros n

theorem VerifyBlobKzgProof_valid (E : Engine) (K : Constants) (vb vc vp : Value)
    (rest : List Value) (st : KzgAddonData) (hb : HasBytes vb K.BYTES_PER_BLOB)
    (hc : HasBytes vc K.BYTES_PER_COMMITMENT) (hp : HasBytes vp K.BYTES_PER_COMMITMENT)
    (hs : st.is_setup = true) :
    VerifyBlobKzgProof E K (vb :: vc :: vp :: rest) (Env.start st) =
      if ((E.verify_blob_kzg_proof vb.Data vc.Data vp.Data st.settings).1 != C_KZG_OK) = true then
        (Value.undefined,
          ⟨st, [Event.engine (EngineCall.verify_blob_kzg_proof vb.Data vc.Data vp.Data
                  st.settings),
                Event.threw .Error ("Error in verifyBlobKzgProof: " ++
                  from_c_kzg_ret (E.verify_blob_kzg_proof vb.Data vc.Data vp.Data
                    st.settings).1)], 0⟩)
      else
        (Value.boolean (E.verify_blob_kzg_proof vb.Data vc.Data vp.Data st.settings).2,
          ⟨st, [Event.engine (EngineCall.verify_blob_kzg_proof vb.Data vc.Data vp.Data
                  st.settings)], 0⟩) := by
  unfold VerifyBlobKzgProof get_blob get_bytes48
  simp only [at_index_zero, at_index_one, at_index_two]
  rw [get_bytes_of_hasBytes _ _ hb]
  dsimp only
  rw [get_bytes_of_hasBytes _ _ hc]
  dsimp only
  rw [get_bytes_of_hasBytes _ _ hp]
  dsimp only
  rw [get_kzg_settings_loaded _ hs]
  simp only [Env.start]
  split <;> rfl

theorem VerifyBlobKzgProofBatch_valid (H : Host) (E : Engine) (K : Constants)
    (blobs commitments proofs rest : List Value) (st : KzgAddonData)
    (hs : st.is_setup = true)
    (hc : commitments.length = blobs.length) (hp : proofs.length = blobs.length)
    (hvb : ∀ j < blobs.length, HasBytes (at_index blobs j) K.BYTES_PER_BLOB)
    (hvc : ∀ j < blobs.length, HasBytes (at_index commitments j) K.BYTES_PER_COMMITMENT)
    (hvp : ∀ j < blobs.length, HasBytes (at_index proofs j) K.BYTES_PER_COMMITMENT)
    (hpc : K.BYTES_PER_PROOF = K.BYTES_PER_COMMITMENT)
    (h0 : H.calloc_ok 0 blobs.length K.BYTES_PER_BLOB = true)
    (h1 : H.calloc_ok 1 blobs.length 48 = true)
    (h2 : H.calloc_ok 2 blobs.length 48 = true) :
    VerifyBlobKzgProofBatch H E K
        (Value.array blobs :: Value.array commitments :: Value.array proofs :: rest)
        (Env.start st) =
      if ((E.verify_blob_kzg_proof_batch (blobs.map Value.Data) (commitments.map Value.Data)
          (proofs.map Value.Data) blobs.length st.settings).1 != C_KZG_OK) = true then
        (Value.null,
          ⟨st, [Event.calloc 0 blobs.length K.BYTES_PER_BLOB, Event.calloc 1 blobs.length 48,
                Event.calloc 2 blobs.length 48,
                Event.engine (EngineCall.verify_blob_kzg_proof_batch (blobs.map Value.Data)
                  (commitments.map Value.Data) (proofs.map Value.Data) blobs.length
                  st.settings),
                Event.threw .Error ("Error in verifyBlobKzgProofBatch: " ++
                  from_c_kzg_ret (E.verify_blob_kzg_proof_batch (blobs.map Value.Data)
                    (commitments.map Value.Data) (proofs.map Value.Data) blobs.length
                    st.settings).1),
                Event.free 0, Event.free 1, Event.free 2], 3⟩)
      else
        (Value.boolean (E.verify_blob_kzg_proof_batch (blobs.map Value.Data)
            (commitments.map Value.Data) (proofs.map Value.Data) blobs.length st.settings).2,
          ⟨st, [Event.calloc 0 blobs.length K.BYTES_PER_BLOB, Event.calloc 1 blobs.length 48,
                Event.calloc 2 blobs.length 48,
                Event.engine (EngineCall.verify_blob_kzg_proof_batch (blobs.map Value.Data)
                  (commitments.map Value.Data) (proofs.map Value.Data) blobs.length
                  st.settings),
                Event.free 0, Event.free 1, Event.free 2], 3⟩) := by
  unfold VerifyBlobKzgProofBatch
  simp only [at_index_zero, at_index_one, at_index_two, Value.IsArray, Value.elems,
    Bool.and_self, Bool.not_true, Bool.false_eq_true, if_false, hc, hp, bne_self_eq_false,
    Bool.or_self]
  rw [get_kzg_settings_loaded _ hs]
  dsimp only
  rw [calloc_ok_eq H _ _ _ h0]
  dsimp only
  rw [calloc_ok_eq H _ _ _ h1]
  dsimp only
  rw [calloc_ok_eq H _ _ _ h2]
  dsimp only
  rw [blob_batch_loop_fill K blobs commitments proofs _ hc hp hvb hvc hvp hpc _
    (by simp [zeroed]) (by simp [zeroed]) (by simp [zeroed])]
  simp only [Env.start]
  split <;> rfl

theorem VerifyBlobKzgProofBatch_no_memory (H : Host) (E : Engine) (K : Constants)
    (blobs commitments proofs rest : List Value) (st : KzgAddonData)
    (hs : st.is_setup = true)
    (hc : commitments.length = blobs.length) (hp : proofs.length = blobs.length)
    (h0 : H.calloc_ok 0 blobs.length K.BYTES_PER_BLOB = false) :
    VerifyBlobKzgProofBatch H E K
        (Value.array blobs :: Value.array commitments :: Value.array proofs :: rest)
        (Env.start st) =
      (Value.null,
        ⟨st, [Event.calloc_null blobs.length K.BYTES_PER_BLOB,
              Event.threw .Error "Error while allocating memory for blobs"], 1⟩) := by
  unfold VerifyBlobKzgProofBatch
  simp only [at_index_zero, at_index_one, at_index_two, Value.IsArray, Value.elems,
    Bool.and_self, Bool.not_true, Bool.false_eq_true, if_false, hc, hp, bne_self_eq_false,
    Bool.or_self]
  rw [get_kzg_settings_loaded _ hs]
  dsimp only
  have hcal : calloc H blobs.length K.BYTES_PER_BLOB (Env.start st) =
      (none, ⟨st, [Event.calloc_null blobs.length K.BYTES_PER_BLOB], 1⟩) := by
    unfold calloc
    simp [Env.start, h0]
  rw [hcal]
  rfl

/-- C14, counterexample: one triple of valid sizes, the setup loaded, an
engine whose two verifiers always answer `true`, and the allocation of the
blobs buffer failing: `verifyBlobKzgProofBatch` raises the allocation error
and returns `null`, though `verifyBlobKzgProof` of the triple is `true`. -/
theorem blob_batch_without_memory :
    VerifyBlobKzgProofBatch host_no_memory engine_ok eip4844
        (Value.array [zeros 131072] :: Value.array [zeros 48] :: Value.array [zeros 48] :: [])
        (Env.start loaded) =
      (Value.null,
        ⟨loaded, [Event.calloc_null [zeros 131072].length eip4844.BYTES_PER_BLOB,
          Event.threw .Error "Error while allocating memory for blobs"], 1⟩) ∧
    (VerifyBlobKzgProof engine_ok eip4844 (zeros 131072 :: zeros 48 :: zeros 48 :: [])
      (Env.start loaded)).1 = Value.boolean true :=
  ⟨VerifyBlobKzgProofBatch_no_memory host_no_memory engine_ok eip4844 [zeros 131072]
      [zeros 48] [zeros 48] [] loaded rfl rfl rfl rfl,
    (congrArg Prod.fst (VerifyBlobKzgProof_valid engine_ok eip4844 (zeros 131072) (zeros 48)
      (zeros 48) [] loaded (hasBytes_zeros _) (hasBytes_zeros _) (hasBytes_zeros _) rfl)).trans
      rfl⟩

/-- C14, amended: for arrays `blobs`, `commitments`, `proofs` of one length
whose elements have the sizes of a blob, a commitment and a proof, with the
setup loaded, the three allocations succeeding, the engine's single verifier
succeeding on each triple and the engine's batch verifier returning the
conjunction of the single verifier's flags, `verifyBlobKzgProofBatch` returns
the logical AND of `verifyBlobKzgProof` over the triples; the engine is
invoked once, with three buffers whose i-th entries are the i-th blob,
commitment and proof, and with the array length as count. -/
theorem blob_batch_is_conjunction (H : Host) (E : Engine) (K : Constants)
    (blobs commitments proofs : List Value) (st : KzgAddonData)
    (hs : st.is_setup = true)
    (hc : commitments.length = blobs.length) (hp : proofs.length = blobs.length)
    (hvb : ∀ j < blobs.length, HasBytes (at_index blobs j) K.BYTES_PER_BLOB)
    (hvc : ∀ j < blobs.length, HasBytes (at_index commitments j) K.BYTES_PER_COMMITMENT)
    (hvp : ∀ j < blobs.length, HasBytes (at_index proofs j) K.BYTES_PER_PROOF)
    (hpc : K.BYTES_PER_PROOF = K.BYTES_PER_COMMITMENT)
    (h0 : H.calloc_ok 0 blobs.length K.BYTES_PER_BLOB = true)
    (h1 : H.calloc_ok 1 blobs.length 48 = true)
    (h2 : H.calloc_ok 2 blobs.length 48 = true)
    (hsingle : ∀ j < blobs.length,
      (E.verify_blob_kzg_proof (at_index blobs j).Data (at_index commitments j).Data
        (at_index proofs j).Data st.settings).1 = C_KZG_OK)
    (hbatch : E.verify_blob_kzg_proof_batch (blobs.map Value.Data) (commitments.map Value.Data)
        (proofs.map Value.Data) blobs.length st.settings =
      (C_KZG_OK, (List.range blobs.length).all fun j =>
        (E.verify_blob_kzg_proof (at_index blobs j).Data (at_index commitments j).Data
          (at_index proofs j).Data st.settings).2)) :
    (VerifyBlobKzgProofBatch H E K
        [Value.array blobs, Value.array commitments, Value.array proofs] (Env.start st)).1 =
      Value.boolean ((List.range blobs.length).all fun j =>
        (VerifyBlobKzgProof E K [at_index blobs j, at_index commitments j, at_index proofs j]
          (Env.start st)).1.isTrue) ∧
    engine_calls (VerifyBlobKzgProofBatch H E K
        [Value.array blobs, Value.array commitments, Value.array proofs] (Env.start st)).2.log =
      [EngineCall.verify_blob_kzg_proof_batch (blobs.map Value.Data)
        (commitments.map Value.Data) (proofs.map Value.Data) blobs.length st.settings] ∧
    ∀ j < blobs.length,
      (blobs.map Value.Data)[j]? = some (at_index blobs j).Data ∧
      (commitments.map Value.Data)[j]? = some (at_index commitments j).Data ∧
      (proofs.map Value.Data)[j]? = some (at_index proofs j).Data := by
  have hvp1 : ∀ j < blobs.length, HasBytes (at_index proofs j) K.BYTES_PER_COMMITMENT := by
    intro j hj
    rw [← hpc]
    exact hvp j hj
  rw [VerifyBlobKzgProofBatch_valid H E K blobs commitments proofs [] st hs hc hp hvb hvc hvp1
    hpc h0 h1 h2, hbatch]
  simp only [bne_self_eq_false, Bool.false_eq_true, if_false]
  refine ⟨?_, rfl, ?_⟩
  · congr 1
    apply all_range_congr
    intro j hj1
    symm
    rw [VerifyBlobKzgProof_valid E K _ _ _ [] st (hvb j hj1) (hvc j hj1) (hvp1 j hj1) hs,
      hsingle j hj1]
    simp only [bne_self_eq_false, Bool.false_eq_true, if_false]
    cases (E.verify_blob_kzg_proof (at_index blobs j).Data (at_index commitments j).Data
      (at_index proofs j).Data st.settings).2 <;> rfl
  · intro j hj
    refine ⟨?_, ?_, ?_⟩
    · rw [List.getElem?_map, at_index_eq_getElem? blobs j hj]; rfl
    · rw [List.getElem?_map, at_index_eq_getElem? commitments j (by omega)]; rfl
    · rw [List.getElem?_map, at_index_eq_getElem? proofs j (by omega)]; rfl

/-- Witness of C14: one triple of a zero blob, a zero commitment and a zero
proof, with an engine whose verifiers always answer `true`. -/
theorem blob_batch_is_conjunction_witness :
    loaded.is_setup = true ∧
    (∀ j < [zeros 131072].length,
      HasBytes (at_index [zeros 131072] j) eip4844.BYTES_PER_BLOB) ∧
    (VerifyBlobKzgProofBatch host_ok engine_ok eip4844
        [Value.array [zeros 131072], Value.array [zeros 48], Value.array [zeros 48]]
        (Env.start loaded)).1 =
      Value.boolean ((List.range [zeros 131072].length).all fun j =>
        (VerifyBlobKzgProof engine_ok eip4844
          [at_index [zeros 131072] j, at_index [zeros 48] j, at_index [zeros 48] j]
          (Env.start loaded)).1.isTrue) :=
  ⟨rfl, hasBytes_single 131072,
    (blob_batch_is_conjunction host_ok engine_ok eip4844 [zeros 131072] [zeros 48] [zeros 48]
      loaded rfl rfl rfl (hasBytes_single 131072) (hasBytes_single 48) (hasBytes_single 48)
      rfl rfl rfl rfl (fun _ _ => rfl) rfl).1⟩

/-! ## A cell id that is not a number -/

theorem VerifyCellKzgProof_non_numeric_id_result (E : Engine) (K : Constants)
    (c cell p : Bytes) (id : Value) (rest : List Value) (st : KzgAddonData)
    (hc : c.length = K.BYTES_PER_COMMITMENT) (hcell : cell.length = K.BYTES_PER_CELL)
    (hp : p.length = K.BYTES_PER_COMMITMENT) (hid : id.IsNumber = false)
    (hs : st.is_setup = true)
    (hret : (E.verify_cell_kzg_proof c 0 cell p st.settings).1 = C_KZG_OK) :
    VerifyCellKzgProof E K
        (Value.typedArray .napi_uint8_array c :: id :: Value.typedArray .napi_uint8_array cell ::
          Value.typedArray .napi_uint8_array p :: rest) (Env.start st) =
      (Value.boolean (E.verify_cell_kzg_proof c 0 cell p st.settings).2,
        ⟨st, [Event.threw .TypeError "cell id should be a number",
              Event.engine (EngineCall.verify_cell_kzg_proof c 0 cell p st.settings)], 0⟩) := by
  unfold VerifyCellKzgProof get_bytes48 get_cell
  simp only [at_index_zero, at_index_one, at_index_two, at_index_three]
  rw [get_bytes_of_hasBytes _ _ ⟨c, rfl, hc⟩]
  simp only [get_cell_id_call, get_cell_id, hid, Bool.not_false, if_true]
  rw [get_bytes_of_hasBytes _ _ ⟨cell, rfl, hcell⟩]
  simp only []
  rw [get_bytes_of_hasBytes _ _ ⟨p, rfl, hp⟩]
  simp only []
  rw [get_kzg_settings_loaded _ (by simpa [Env.start] using hs)]
  simp only [Value.Data, Env.start, Env.throwJs, Env.emit, hret, bne_self_eq_false,
    Bool.false_eq_true, if_false]
  rfl

/-- C18, the code at a failing input: `verifyCellKzgProof` with a string as
cell id and otherwise valid arguments, the setup loaded and an engine
answering `true`: the validation of the cell id fails (the `TypeError` "cell
id should be a number" is raised) and the call returns the boolean `true`. -/
theorem verify_cell_non_numeric_id_returns_boolean :
    VerifyCellKzgProof engine_ok eip4844
        (Value.typedArray .napi_uint8_array (List.replicate 48 0) :: Value.string "1" ::
          Value.typedArray .napi_uint8_array (List.replicate 2048 0) ::
          Value.typedArray .napi_uint8_array (List.replicate 48 0) :: []) (Env.start loaded) =
      (Value.boolean (engine_ok.verify_cell_kzg_proof (List.replicate 48 0) 0
          (List.replicate 2048 0) (List.replicate 48 0) loaded.settings).2,
        ⟨loaded, [Event.threw .TypeError "cell id should be a number",
              Event.engine (EngineCall.verify_cell_kzg_proof (List.replicate 48 0) 0
                (List.replicate 2048 0) (List.replicate 48 0) loaded.settings)], 0⟩) ∧
    (engine_ok.verify_cell_kzg_proof (List.replicate 48 0) 0 (List.replicate 2048 0)
      (List.replicate 48 0) loaded.settings).2 = true :=
  ⟨VerifyCellKzgProof_non_numeric_id_result engine_ok eip4844 (List.replicate 48 0)
    (List.replicate 2048 0) (List.replicate 48 0) (Value.string "1") [] loaded
    (List.length_replicate _ _) (List.length_replicate _ _) (List.length_replicate _ _) rfl rfl
    rfl, rfl⟩

/-! ## The loaded-check and the first allocation -/

theorem ComputeCells_unloaded_exact (H : Host) (E : Engine) (K : Constants) (info : List Value)
    (st : KzgAddonData) (hs : st.is_setup = false) :
    (ComputeCells H E K info (Env.start st)).2.ncalloc = 0 ∧
    (reaches_setup_check K .computeCells info →
      ComputeCells H E K info (Env.start st) =
        (Value.null, ⟨st, [Event.threw .Error not_loaded_msg], 0⟩)) := by
  unfold ComputeCells get_blob reaches_setup_check
  rcases get_bytes_cases (at_index info 0) K.BYTES_PER_BLOB "blob" (Env.start st) with
    ⟨d, h, hv, hl⟩ | ⟨m, h, hn⟩
  · rw [h]; dsimp only
    rw [get_kzg_settings_not_loaded _ hs]
    exact ⟨rfl, fun _ => rfl⟩
  · rw [h]
    exact ⟨rfl, fun hb => absurd hb hn⟩

theorem ComputeCellsAndKzgProofs_unloaded_exact (H : Host) (E : Engine) (K : Constants)
    (info : List Value) (st : KzgAddonData) (hs : st.is_setup = false) :
    (ComputeCellsAndKzgProofs H E K info (Env.start st)).2.ncalloc = 0 ∧
    (reaches_setup_check K .computeCellsAndKzgProofs info →
      ComputeCellsAndKzgProofs H E K info (Env.start st) =
        (Value.null, ⟨st, [Event.threw .Error not_loaded_msg], 0⟩)) := by
  unfold ComputeCellsAndKzgProofs get_blob reaches_setup_check
  rcases get_bytes_cases (at_index info 0) K.BYTES_PER_BLOB "blob" (Env.start st) with
    ⟨d, h, hv, hl⟩ | ⟨m, h, hn⟩
  · rw [h]; dsimp only
    rw [get_kzg_settings_not_loaded _ hs]
    exact ⟨rfl, fun _ => rfl⟩
  · rw [h]
    exact ⟨rfl, fun hb => absurd hb hn⟩

theorem RecoverAllCells_unloaded_exact (H : Host) (E : Engine) (K : Constants)
    (info : List Value) (st : KzgAddonData) (hs : st.is_setup = false) :
    (RecoverAllCells H E K info (Env.start st)).2.ncalloc = 0 ∧
    (reaches_setup_check K .recoverAllCells info →
      RecoverAllCells H E K info (Env.start st) =
        (Value.null, ⟨st, [Event.threw .Error not_loaded_msg], 0⟩)) := by
  unfold RecoverAllCells reaches_setup_check
  cases h0 : (at_index info 0).IsArray
  · exact ⟨rfl, fun h => by simp at h⟩
  cases h1 : (at_index info 1).IsArray
  · exact ⟨rfl, fun h => by simp at h⟩
  simp only [Bool.not_true, Bool.false_eq_true, if_false]
  rw [get_kzg_settings_not_loaded _ hs]
  exact ⟨rfl, fun _ => rfl⟩

theorem VerifyBlobKzgProofBatch_unloaded_exact (H : Host) (E : Engine) (K : Constants)
    (info : List Value) (st : KzgAddonData) (hs : st.is_setup = false) :
    (VerifyBlobKzgProofBatch H E K info (Env.start st)).2.ncalloc = 0 ∧
    (reaches_setup_check K .verifyBlobKzgProofBatch info →
      VerifyBlobKzgProofBatch H E K info (Env.start st) =
        (Value.null, ⟨st, [Event.threw .Error not_loaded_msg], 0⟩)) := by
  unfold VerifyBlobKzgProofBatch reaches_setup_check
  cases h0 : (at_index info 0).IsArray
  · exact ⟨rfl, fun h => by simp at h⟩
  cases h1 : (at_index info 1).IsArray
  · exact ⟨rfl, fun h => by simp at h⟩
  cases h2 : (at_index info 2).IsArray
  · exact ⟨rfl, fun h => by simp at h⟩
  simp only [Bool.and_self, Bool.not_true, Bool.false_eq_true, if_false]
  rw [get_kzg_settings_not_loaded _ hs]
  exact ⟨rfl, fun _ => rfl⟩

theorem VerifyCellKzgProofBatch_unloaded_exact (H : Host) (E : Engine) (K : Constants)
    (info : List Value) (st : KzgAddonData) (hs : st.is_setup = false) :
    (VerifyCellKzgProofBatch H E K info (Env.start st)).2.ncalloc = 0 ∧
    (reaches_setup_check K .verifyCellKzgProofBatch info →
      VerifyCellKzgProofBatch H E K info (Env.start st) =
        (Value.null, ⟨st, [Event.threw .Error not_loaded_msg], 0⟩)) := by
  unfold VerifyCellKzgProofBatch reaches_setup_check
  cases h0 : (at_index info 0).IsArray
  · exact ⟨rfl, fun h => by simp at h⟩
  cases h1 : (at_index info 1).IsArray
  · exact ⟨rfl, fun h => by simp at h⟩
  cases h2 : (at_index info 2).IsArray
  · exact ⟨rfl, fun h => by simp at h⟩
  cases h3 : (at_index info 3).IsArray
  · exact ⟨rfl, fun h => by simp at h⟩
  cases h4 : (at_index info 4).IsArray
  · exact ⟨rfl, fun h => by simp at h⟩
  simp only [Bool.and_self, Bool.not_true, Bool.false_eq_true, if_false]
  rw [get_kzg_settings_not_loaded _ hs]
  exact ⟨rfl, fun _ => rfl⟩

/-- C15, counterexample: `computeCells(undefined)` on an instance whose setup
is not loaded fails with the wrong-type validation error of the blob, not with
the not-loaded error. -/
theorem compute_cells_unloaded_bad_blob :
    ComputeCells host_ok engine_ok eip4844 [Value.undefined] (Env.start not_loaded) =
      (Value.null,
        ⟨not_loaded, [Event.threw .TypeError "Expected blob to be a Uint8Array"], 0⟩) :=
  rfl

/-- C15, amended: in `computeCells`, `computeCellsAndKzgProofs`,
`recoverAllCells`, `verifyBlobKzgProofBatch` and `verifyCellKzgProofBatch` the
loaded-check precedes the first buffer allocation: when `is_setup` is false
the call, for every argument list and every host, attempts no allocation,
invokes no engine function and raises an error; when the arguments pass the
checks made before the setup is consulted, the not-loaded error is the only
thing the call does, and `null` is returned; otherwise the error of the failed
check is raised and the not-loaded error is not. -/
theorem unloaded_allocates_nothing (H : Host) (E : Engine) (K : Constants)
    (op : Operation) (info : List Value) (st : KzgAddonData)
    (hop : op = .computeCells ∨ op = .computeCellsAndKzgProofs ∨ op = .recoverAllCells ∨
      op = .verifyBlobKzgProofBatch ∨ op = .verifyCellKzgProofBatch)
    (hs : st.is_setup = false) :
    allocated (op.run H E K info (Env.start st)).2.log = [] ∧
    (op.run H E K info (Env.start st)).2.ncalloc = 0 ∧
    engine_calls (op.run H E K info (Env.start st)).2.log = [] ∧
    thrown (op.run H E K info (Env.start st)).2.log ≠ [] ∧
    (reaches_setup_check K op info →
      op.run H E K info (Env.start st) =
        (Value.null,
          ⟨st, [Event.threw .Error
            "Must run loadTrustedSetup before running any other c-kzg functions"], 0⟩)) ∧
    (¬ reaches_setup_check K op info →
      (ErrorKind.Error, "Must run loadTrustedSetup before running any other c-kzg functions") ∉
        thrown (op.run H E K info (Env.start st)).2.log) := by
  rcases hop with rfl | rfl | rfl | rfl | rfl
  · have h := ComputeCells_not_loaded H E K info st hs
    have h1 := ComputeCells_unloaded_exact H E K info st hs
    exact ⟨h.2.2.1, h1.1, h.2.1, h.2.2.2.1, h1.2, fun hn hm => hn (h.2.2.2.2.1 hm)⟩
  · have h := ComputeCellsAndKzgProofs_not_loaded H E K info st hs
    have h1 := ComputeCellsAndKzgProofs_unloaded_exact H E K info st hs
    exact ⟨h.2.2.1, h1.1, h.2.1, h.2.2.2.1, h1.2, fun hn hm => hn (h.2.2.2.2.1 hm)⟩
  · have h := RecoverAllCells_not_loaded H E K info st hs
    have h1 := RecoverAllCells_unloaded_exact H E K info st hs
    exact ⟨h.2.2.1, h1.1, h.2.1, h.2.2.2.1, h1.2, fun hn hm => hn (h.2.2.2.2.1 hm)⟩
  · have h := VerifyBlobKzgProofBatch_not_loaded H E K info st hs
    have h1 := VerifyBlobKzgProofBatch_unloaded_exact H E K info st hs
    exact ⟨h.2.2.1, h1.1, h.2.1, h.2.2.2.1, h1.2, fun hn hm => hn (h.2.2.2.2.1 hm)⟩
  · have h := VerifyCellKzgProofBatch_not_loaded H E K info st hs
    have h1 := VerifyCellKzgProofBatch_unloaded_exact H E K info st hs
    exact ⟨h.2.2.1, h1.1, h.2.1, h.2.2.2.1, h1.2, fun hn hm => hn (h.2.2.2.2.1 hm)⟩

/-- Witness of C15: `recoverAllCells([], [])` on an instance whose setup is not
loaded, on a host where every allocation would succeed. -/
theorem unloaded_allocates_nothing_witness :
    not_loaded.is_setup = false ∧
    allocated (Operation.recoverAllCells.run host_ok engine_ok eip4844
      [Value.array [], Value.array []] (Env.start not_loaded)).2.log = [] ∧
    (Operation.recoverAllCells.run host_ok engine_ok eip4844
      [Value.array [], Value.array []] (Env.start not_loaded)).2.ncalloc = 0 :=
  ⟨rfl,
    (unloaded_allocates_nothing host_ok engine_ok eip4844 Operation.recoverAllCells
      [Value.array [], Value.array []] not_loaded (Or.inr (Or.inr (Or.inl rfl))) rfl).1,
    (unloaded_allocates_nothing host_ok engine_ok eip4844 Operation.recoverAllCells
      [Value.array [], Value.array []] not_loaded (Or.inr (Or.inr (Or.inl rfl))) rfl).2.1⟩

/-! ## Order of validation -/

theorem get_bytes_invalid (v : Value) (n : Nat) (name : String) (env : Env)
    (h : ¬ HasBytes v n) :
    ∃ m, (m = wrong_type_msg name ∨ m = wrong_length_msg name n) ∧
      get_bytes v n name env = (none, env.throwJs .TypeError m) := by
  rcases get_bytes_spec v n name env with ⟨d, h1, h2, -⟩ | ⟨-, h3⟩ | ⟨d, -, -, h3⟩
  · exact absurd ⟨d, h1, h2⟩ h
  · exact ⟨_, Or.inl rfl, h3⟩
  · exact ⟨_, Or.inr rfl, h3⟩

theorem ComputeBlobKzgProof_first_invalid (E : Engine) (K : Constants) (info : List Value)
    (st : KzgAddonData) (k size : Nat) (name : String)
    (hk : (byte_args K .computeBlobKzgProof)[k]? = some (size, name))
    (hvalid : ∀ j s n, j < k → (byte_args K .computeBlobKzgProof)[j]? = some (s, n) →
      HasBytes (at_index info j) s)
    (hbad : ¬ HasBytes (at_index info k) size) :
    ∃ m, (m = wrong_type_msg name ∨ m = wrong_length_msg name size) ∧
      ComputeBlobKzgProof E K info (Env.start st) =
        (Value.null, ⟨st, [Event.threw .TypeError m], 0⟩) := by
  unfold ComputeBlobKzgProof get_blob get_bytes48
  rcases k with _ | _ | k
  · simp only [byte_args, List.getElem?_cons_zero, Option.some.injEq, Prod.mk.injEq] at hk
    obtain ⟨rfl, rfl⟩ := hk
    obtain ⟨m, hm, hg⟩ := get_bytes_invalid _ _ "blob" (Env.start st) hbad
    rw [hg]
    exact ⟨m, hm, rfl⟩
  · simp only [byte_args, List.getElem?_cons_succ, List.getElem?_cons_zero, Option.some.injEq,
      Prod.mk.injEq, zero_add] at hk
    obtain ⟨rfl, rfl⟩ := hk
    rw [get_bytes_of_hasBytes _ _ (hvalid 0 _ _ (by omega) rfl)]
    dsimp only
    obtain ⟨m, hm, hg⟩ := get_bytes_invalid _ _ "commitmentBytes" (Env.start st) hbad
    rw [hg]
    exact ⟨m, hm, rfl⟩
  · simp [byte_args] at hk

theorem VerifyKzgProof_first_invalid (E : Engine) (K : Constants) (info : List Value)
    (st : KzgAddonData) (k size : Nat) (name : String)
    (hk : (byte_args K .verifyKzgProof)[k]? = some (size, name))
    (hvalid : ∀ j s n, j < k → (byte_args K .verifyKzgProof)[j]? = some (s, n) →
      HasBytes (at_index info j) s)
    (hbad : ¬ HasBytes (at_index info k) size) :
    ∃ m, (m = wrong_type_msg name ∨ m = wrong_length_msg name size) ∧
      VerifyKzgProof E K info (Env.start st) =
        (Value.null, ⟨st, [Event.threw .TypeError m], 0⟩) := by
  unfold VerifyKzgProof get_bytes32 get_bytes48
  rcases k with _ | _ | _ | _ | k
  · simp only [byte_args, List.getElem?_cons_zero, Option.some.injEq, Prod.mk.injEq] at hk
    obtain ⟨rfl, rfl⟩ := hk
    obtain ⟨m, hm, hg⟩ := get_bytes_invalid _ _ "commitmentBytes" (Env.start st) hbad
    rw [hg]
    exact ⟨m, hm, rfl⟩
  · simp only [byte_args, List.getElem?_cons_succ, List.getElem?_cons_zero, Option.some.injEq,
      Prod.mk.injEq, zero_add] at hk
    obtain ⟨rfl, rfl⟩ := hk
    rw [get_bytes_of_hasBytes _ _ (hvalid 0 _ _ (by omega) rfl)]
    dsimp only
    obtain ⟨m, hm, hg⟩ := get_bytes_invalid _ _ "zBytes" (Env.start st) hbad
    rw [hg]
    exact ⟨m, hm, rfl⟩
  · simp only [byte_args, List.getElem?_cons_succ, List.getElem?_cons_zero, Option.some.injEq,
      Prod.mk.injEq, zero_add] at hk
    obtain ⟨rfl, rfl⟩ := hk
    rw [get_bytes_of_hasBytes _ _ (hvalid 0 _ _ (by omega) rfl)]
    dsimp only
    rw [get_bytes_of_hasBytes _ _ (hvalid 1 _ _ (by omega) rfl)]
    dsimp only
    obtain ⟨m, hm, hg⟩ := get_bytes_invalid _ _ "yBytes" (Env.start st) hbad
    rw [hg]
    exact ⟨m, hm, rfl⟩
  · simp only [byte_args, List.getElem?_cons_succ, List.getElem?_cons_zero, Option.some.injEq,
      Prod.mk.injEq, zero_add] at hk
    obtain ⟨rfl, rfl⟩ := hk
    rw [get_bytes_of_hasBytes _ _ (hvalid 0 _ _ (by omega) rfl)]
    dsimp only
    rw [get_bytes_of_hasBytes _ _ (hvalid 1 _ _ (by omega) rfl)]
    dsimp only
    rw [get_bytes_of_hasBytes _ _ (hvalid 2 _ _ (by omega) rfl)]
    dsimp only
    obtain ⟨m, hm, hg⟩ := get_bytes_invalid _ _ "proofBytes" (Env.start st) hbad
    rw [hg]
    exact ⟨m, hm, rfl⟩
  · simp [byte_args] at hk

theorem VerifyBlobKzgProof_first_invalid (E : Engine) (K : Constants) (info : List Value)
    (st : KzgAddonData) (k size : Nat) (name : String)
    (hk : (byte_args K .verifyBlobKzgProof)[k]? = some (size, name))
    (hvalid : ∀ j s n, j < k → (byte_args K .verifyBlobKzgProof)[j]? = some (s, n) →
      HasBytes (at_index info j) s)
    (hbad : ¬ HasBytes (at_index info k) size) :
    ∃ m, (m = wrong_type_msg name ∨ m = wrong_length_msg name size) ∧
      VerifyBlobKzgProof E K info (Env.start st) =
        (Value.null, ⟨st, [Event.threw .TypeError m], 0⟩) := by
  unfold VerifyBlobKzgProof get_blob get_bytes48
  rcases k with _ | _ | _ | k
  · simp only [byte_args, List.getElem?_cons_zero, Option.some.injEq, Prod.mk.injEq] at hk
    obtain ⟨rfl, rfl⟩ := hk
    obtain ⟨m, hm, hg⟩ := get_bytes_invalid _ _ "blob" (Env.start st) hbad
    rw [hg]
    exact ⟨m, hm, rfl⟩
  · simp only [byte_args, List.getElem?_cons_succ, List.getElem?_cons_zero, Option.some.injEq,
      Prod.mk.injEq, zero_add] at hk
    obtain ⟨rfl, rfl⟩ := hk
    rw [get_bytes_of_hasBytes _ _ (hvalid 0 _ _ (by omega) rfl)]
    dsimp only
    obtain ⟨m, hm, hg⟩ := get_bytes_invalid _ _ "commitmentBytes" (Env.start st) hbad
    rw [hg]
    exact ⟨m, hm, rfl⟩
  · simp only [byte_args, List.getElem?_cons_succ, List.getElem?_cons_zero, Option.some.injEq,
      Prod.mk.injEq, zero_add] at hk
    obtain ⟨rfl, rfl⟩ := hk
    rw [get_bytes_of_hasBytes _ _ (hvalid 0 _ _ (by omega) rfl)]
    dsimp only
    rw [get_bytes_of_hasBytes _ _ (hvalid 1 _ _ (by omega) rfl)]
    dsimp only
    obtain ⟨m, hm, hg⟩ := get_bytes_invalid _ _ "proofBytes" (Env.start st) hbad
    rw [hg]
    exact ⟨m, hm, rfl⟩
  · simp [byte_args] at hk

/-- C16: in `computeBlobKzgProof`, `verifyKzgProof` and `verifyBlobKzgProof`
the byte arguments are validated in declared order (`byte_args`). When
argument `k` is the first that is not a `Uint8Array` of its size (all earlier
ones are valid; later ones may be anything), the call returns `null` and the
only thing it does is raise one `TypeError` naming argument `k`: no engine
call, and no not-loaded error whatever the state of the instance. -/
theorem first_invalid_argument_wins (H : Host) (E : Engine) (K : Constants) (op : Operation)
    (info : List Value) (st : KzgAddonData) (k size : Nat) (name : String)
    (hop : op = .computeBlobKzgProof ∨ op = .verifyKzgProof ∨ op = .verifyBlobKzgProof)
    (hk : (byte_args K op)[k]? = some (size, name))
    (hvalid : ∀ j s n, j < k → (byte_args K op)[j]? = some (s, n) →
      HasBytes (at_index info j) s)
    (hbad : ¬ HasBytes (at_index info k) size) :
    ∃ m, (m = "Expected " ++ name ++ " to be a Uint8Array" ∨
        m = "Expected " ++ name ++ " to be " ++ toString size ++ " bytes") ∧
      op.run H E K info (Env.start st) =
        (Value.null, ⟨st, [Event.threw .TypeError m], 0⟩) := by
  rcases hop with rfl | rfl | rfl
  · exact ComputeBlobKzgProof_first_invalid E K info st k size name hk hvalid hbad
  · exact VerifyKzgProof_first_invalid E K info st k size name hk hvalid hbad
  · exact VerifyBlobKzgProof_first_invalid E K info st k size name hk hvalid hbad

/-- Witness of C16: `verifyKzgProof(commitment, 5, "y", undefined)` on an
instance whose setup is not loaded: `zBytes` is the first invalid argument. -/
theorem first_invalid_argument_wins_witness :
    (byte_args eip4844 .verifyKzgProof)[1]? = some (32, "zBytes") ∧
    ¬ HasBytes (at_index [zeros 48, Value.number (Double.ofNat 5 (by decide)),
      Value.string "y", Value.undefined] 1) 32 ∧
    ∃ m, (m = "Expected " ++ "zBytes" ++ " to be a Uint8Array" ∨
        m = "Expected " ++ "zBytes" ++ " to be " ++ toString 32 ++ " bytes") ∧
      Operation.verifyKzgProof.run host_ok engine_ok eip4844
          [zeros 48, Value.number (Double.ofNat 5 (by decide)), Value.string "y",
            Value.undefined]
          (Env.start not_loaded) =
        (Value.null, ⟨not_loaded, [Event.threw .TypeError m], 0⟩) :=
  have hbad : ¬ HasBytes
      (at_index [zeros 48, Value.number (Double.ofNat 5 (by decide)), Value.string "y",
        Value.undefined] 1) 32 := by
    rintro ⟨d, hd, -⟩
    cases hd
  ⟨rfl, hbad,
    first_invalid_argument_wins host_ok engine_ok eip4844 .verifyKzgProof
      [zeros 48, Value.number (Double.ofNat 5 (by decide)), Value.string "y", Value.undefined]
      not_loaded 1 32 "zBytes"
      (Or.inr (Or.inl rfl)) rfl
      (by
        intro j s n hj hjs
        have h0 : j = 0 := by omega
        subst h0
        simp only [byte_args, List.getElem?_cons_zero, Option.some.injEq, Prod.mk.injEq] at hjs
        rw [← hjs.1]
        exact hasBytes_zeros 48)
      hbad⟩

/-! ## The instance data across a call -/

theorem get_bytes_data {v : Value} {n : Nat} {name : String} {env env1 : Env}
    {o : Option Bytes} (h : get_bytes v n name env = (o, env1)) : env1.data = env.data := by
  have ht := (get_bytes_throwsOnly v n name env).1
  rw [h] at ht
  exact ht

theorem get_kzg_settings_data {env env1 : Env} {o : Option KZGSettings}
    (h : get_kzg_settings env = (o, env1)) : env1.data = env.data := by
  rcases get_kzg_settings_cases env with ⟨-, h1⟩ | ⟨-, h1⟩
  · rw [h1] at h
    injection h with _ h2
    rw [← h2]
  · rw [h1] at h
    injection h with _ h2
    rw [← h2]
    rfl

theorem calloc_data {H : Host} {count size : Nat} {env env1 : Env} {o : Option Nat}
    (h : calloc H count size env = (o, env1)) : env1.data = env.data := by
  rcases calloc_cases H count size env with ⟨-, h1⟩ | ⟨-, h1⟩
  · rw [h1] at h
    injection h with _ h2
    rw [← h2]
  · rw [h1] at h
    injection h with _ h2
    rw [← h2]

theorem get_cell_id_call_data {v : Value} {env env1 : Env} {id : Nat}
    (h : get_cell_id_call v env = (id, env1)) : env1.data = env.data := by
  have ht := (get_cell_id_call_throwsOnly v env).1
  rw [h] at ht
  exact ht

theorem BlobToKzgCommitment_data (E : Engine) (K : Constants) (info : List Value) (env : Env) :
    (BlobToKzgCommitment E K info env).2.data = env.data := by
  unfold BlobToKzgCommitment get_blob
  split
  · next e1 h1 => exact get_bytes_data h1
  next b e1 h1 =>
  have d1 := get_bytes_data h1
  split
  · next e2 h2 => exact (get_kzg_settings_data h2).trans d1
  next s e2 h2 =>
  have d2 := (get_kzg_settings_data h2).trans d1
  dsimp only
  split <;> exact d2

theorem prepare_compute_kzg_proof_data (K : Constants) (info : List Value) (env : Env) :
    (prepare_compute_kzg_proof K info env).2.data = env.data := by
  unfold prepare_compute_kzg_proof get_blob get_bytes32
  split
  · next e1 h1 => exact get_bytes_data h1
  next b e1 h1 =>
  have d1 := get_bytes_data h1
  split
  · next e2 h2 => exact (get_bytes_data h2).trans d1
  next z e2 h2 =>
  have d2 := (get_bytes_data h2).trans d1
  split
  · next e3 h3 => exact (get_kzg_settings_data h3).trans d2
  · next s e3 h3 => exact (get_kzg_settings_data h3).trans d2

theorem ComputeKzgProof_data (E : Engine) (K : Constants) (info : List Value) (env : Env) :
    (ComputeKzgProof E K info env).2.data = env.data := by
  have hp := prepare_compute_kzg_proof_data K info env
  unfold ComputeKzgProof
  rcases hr : prepare_compute_kzg_proof K info env with ⟨args, e1⟩
  rw [hr] at hp
  dsimp only
  split <;> exact hp

theorem ComputeBlobKzgProof_data (E : Engine) (K : Constants) (info : List Value) (env : Env) :
    (ComputeBlobKzgProof E K info env).2.data = env.data := by
  unfold ComputeBlobKzgProof get_blob get_bytes48
  split
  · next e1 h1 => exact get_bytes_data h1
  next b e1 h1 =>
  have d1 := get_bytes_data h1
  split
  · next e2 h2 => exact (get_bytes_data h2).trans d1
  next c e2 h2 =>
  have d2 := (get_bytes_data h2).trans d1
  split
  · next e3 h3 => exact (get_kzg_settings_data h3).trans d2
  next s e3 h3 =>
  have d3 := (get_kzg_settings_data h3).trans d2
  dsimp only
  split <;> exact d3

theorem VerifyKzgProof_data (E : Engine) (K : Constants) (info : List Value) (env : Env) :
    (VerifyKzgProof E K info env).2.data = env.data := by
  unfold VerifyKzgProof get_bytes32 get_bytes48
  split
  · next e1 h1 => exact get_bytes_data h1
  next c e1 h1 =>
  have d1 := get_bytes_data h1
  split
  · next e2 h2 => exact (get_bytes_data h2).trans d1
  next z e2 h2 =>
  have d2 := (get_bytes_data h2).trans d1
  split
  · next e3 h3 => exact (get_bytes_data h3).trans d2
  next y e3 h3 =>
  have d3 := (get_bytes_data h3).trans d2
  split
  · next e4 h4 => exact (get_bytes_data h4).trans d3
  next p e4 h4 =>
  have d4 := (get_bytes_data h4).trans d3
  split
  · next e5 h5 => exact (get_kzg_settings_data h5).trans d4
  next s e5 h5 =>
  have d5 := (get_kzg_settings_data h5).trans d4
  dsimp only
  split <;> exact d5

theorem VerifyBlobKzgProof_data (E : Engine) (K : Constants) (info : List Value) (env : Env) :
    (VerifyBlobKzgProof E K info env).2.data = env.data := by
  unfold VerifyBlobKzgProof get_blob get_bytes48
  split
  · next e1 h1 => exact get_bytes_data h1
  next b e1 h1 =>
  have d1 := get_bytes_data h1
  split
  · next e2 h2 => exact (get_bytes_data h2).trans d1
  next c e2 h2 =>
  have d2 := (get_bytes_data h2).trans d1
  split
  · next e3 h3 => exact (get_bytes_data h3).trans d2
  next p e3 h3 =>
  have d3 := (get_bytes_data h3).trans d2
  split
  · next e4 h4 => exact (get_kzg_settings_data h4).trans d3
  next s e4 h4 =>
  have d4 := (get_kzg_settings_data h4).trans d3
  dsimp only
  split <;> exact d4

theorem VerifyCellKzgProof_data (E : Engine) (K : Constants) (info : List Value) (env : Env) :
    (VerifyCellKzgProof E K info env).2.data = env.data := by
  unfold VerifyCellKzgProof get_cell get_bytes48
  split
  · next e1 h1 => exact get_bytes_data h1
  next c e1 h1 =>
  have d1 := get_bytes_data h1
  split
  next id e2 h2 =>
  have d2 := (get_cell_id_call_data h2).trans d1
  split
  · next e3 h3 => exact (get_bytes_data h3).trans d2
  next cell e3 h3 =>
  have d3 := (get_bytes_data h3).trans d2
  split
  · next e4 h4 => exact (get_bytes_data h4).trans d3
  next p e4 h4 =>
  have d4 := (get_bytes_data h4).trans d3
  split
  · next e5 h5 => exact (get_kzg_settings_data h5).trans d4
  next s e5 h5 =>
  have d5 := (get_kzg_settings_data h5).trans d4
  dsimp only
  split <;> exact d5

theorem ComputeCells_data (H : Host) (E : Engine) (K : Constants) (info : List Value)
    (env : Env) : (ComputeCells H E K info env).2.data = env.data := by
  unfold ComputeCells get_blob
  split
  · next e1 h1 => exact get_bytes_data h1
  next b e1 h1 =>
  have d1 := get_bytes_data h1
  split
  · next e2 h2 => exact (get_kzg_settings_data h2).trans d1
  next s e2 h2 =>
  have d2 := (get_kzg_settings_data h2).trans d1
  dsimp only
  split
  · next e3 h3 => exact (calloc_data h3).trans d2
  next p e3 h3 =>
  have d3 := (calloc_data h3).trans d2
  split <;> exact d3

theorem ComputeCellsAndKzgProofs_data (H : Host) (E : Engine) (K : Constants)
    (info : List Value) (env : Env) :
    (ComputeCellsAndKzgProofs H E K info env).2.data = env.data := by
  unfold ComputeCellsAndKzgProofs get_blob
  split
  · next e1 h1 => exact get_bytes_data h1
  next b e1 h1 =>
  have d1 := get_bytes_data h1
  split
  · next e2 h2 => exact (get_kzg_settings_data h2).trans d1
  next s e2 h2 =>
  have d2 := (get_kzg_settings_data h2).trans d1
  dsimp only
  split
  · next e3 h3 => exact (calloc_data h3).trans d2
  next p e3 h3 =>
  have d3 := (calloc_data h3).trans d2
  split
  · next e4 h4 => exact (calloc_data h4).trans d3
  next q e4 h4 =>
  have d4 := (calloc_data h4).trans d3
  split <;> exact d4

theorem CellsToBlob_data (H : Host) (E : Engine) (K : Constants) (info : List Value)
    (env : Env) : (CellsToBlob H E K info env).2.data = env.data := by
  unfold CellsToBlob
  split
  · rfl
  dsimp only
  split
  · rfl
  split
  · next e1 h1 =>
    have d1 : e1.data = env.data := calloc_data h1
    exact d1
  next p e1 h1 =>
  have d1 := calloc_data h1
  split
  · next x e2 h2 =>
    exact ((for_loop_throwsOnly (fun s : List Bytes × Env => s.2) _
      (cells_loop_body_throwsOnly K _) _ _ _ _ (Or.inr h2)).1).trans d1
  · next mem e2 h2 =>
    have d2 := ((for_loop_throwsOnly (fun s : List Bytes × Env => s.2) _
      (cells_loop_body_throwsOnly K _) _ _ _ _ (Or.inl h2)).1).trans d1
    split <;> exact d2

theorem RecoverAllCells_data (H : Host) (E : Engine) (K : Constants) (info : List Value)
    (env : Env) : (RecoverAllCells H E K info env).2.data = env.data := by
  unfold RecoverAllCells
  split
  · rfl
  split
  · rfl
  split
  · next e0 h0 => exact get_kzg_settings_data h0
  next s e0 h0 =>
  have d0 := get_kzg_settings_data h0
  dsimp only
  split
  · exact d0
  split
  · next e1 h1 => exact (calloc_data h1).trans d0
  next p1 e1 h1 =>
  have d1 := (calloc_data h1).trans d0
  split
  · next e2 h2 => exact (calloc_data h2).trans d1
  next p2 e2 h2 =>
  have d2 := (calloc_data h2).trans d1
  split
  · next e3 h3 => exact (calloc_data h3).trans d2
  next p3 e3 h3 =>
  have d3 := (calloc_data h3).trans d2
  split
  · next x e4 h4 =>
    have d4 := (throwsOrUnwinds_data (recover_loop_error K _ _ _ _ _ _ h4)).1.trans d3
    split <;> exact d4
  · next mem e4 h4 =>
    have d4 := ((recover_loop_ok K _ _ _ _ _ _ h4).1).trans d3
    split <;> exact d4

theorem VerifyBlobKzgProofBatch_data (H : Host) (E : Engine) (K : Constants)
    (info : List Value) (env : Env) :
    (VerifyBlobKzgProofBatch H E K info env).2.data = env.data := by
  unfold VerifyBlobKzgProofBatch
  split
  · rfl
  dsimp only
  split
  · next e0 h0 => exact get_kzg_settings_data h0
  next s e0 h0 =>
  have d0 := get_kzg_settings_data h0
  split
  · exact d0
  split
  · next e1 h1 => exact (calloc_data h1).trans d0
  next p1 e1 h1 =>
  have d1 := (calloc_data h1).trans d0
  split
  · next e2 h2 => exact (calloc_data h2).trans d1
  next p2 e2 h2 =>
  have d2 := (calloc_data h2).trans d1
  split
  · next e3 h3 => exact (calloc_data h3).trans d2
  next p3 e3 h3 =>
  have d3 := (calloc_data h3).trans d2
  split
  · next x e4 h4 =>
    exact ((for_loop_throwsOnly (fun s : BlobBatchBufs × Env => s.2) _
      (blob_batch_loop_body_throwsOnly K _ _ _) _ _ _ _ (Or.inr h4)).1).trans d3
  · next mem e4 h4 =>
    have d4 := ((for_loop_throwsOnly (fun s : BlobBatchBufs × Env => s.2) _
      (blob_batch_loop_body_throwsOnly K _ _ _) _ _ _ _ (Or.inl h4)).1).trans d3
    split <;> exact d4

theorem cell_batch_out_data (p : CellBatchPtrs) (result : Value) (env : Env) :
    (cell_batch_out p result env).2.data = env.data := by
  unfold cell_batch_out
  rcases p with ⟨_ | a, _ | b, _ | c, _ | d, _ | e⟩ <;> rfl

theorem VerifyCellKzgProofBatch_data (H : Host) (E : Engine) (K : Constants)
    (info : List Value) (env : Env) :
    (VerifyCellKzgProofBatch H E K info env).2.data = env.data := by
  unfold VerifyCellKzgProofBatch
  split
  · rfl
  dsimp only
  split
  · next e0 h0 => exact get_kzg_settings_data h0
  next s e0 h0 =>
  have d0 := get_kzg_settings_data h0
  split
  · exact (cell_batch_out_data _ _ _).trans d0
  split
  · next e1 h1 => exact (cell_batch_out_data _ _ _).trans ((calloc_data h1).trans d0)
  next p1 e1 h1 =>
  have d1 := (calloc_data h1).trans d0
  split
  · next e2 h2 => exact (cell_batch_out_data _ _ _).trans ((calloc_data h2).trans d1)
  next p2 e2 h2 =>
  have d2 := (calloc_data h2).trans d1
  split
  · next e3 h3 => exact (cell_batch_out_data _ _ _).trans ((calloc_data h3).trans d2)
  next p3 e3 h3 =>
  have d3 := (calloc_data h3).trans d2
  split
  · next e4 h4 => exact (cell_batch_out_data _ _ _).trans ((calloc_data h4).trans d3)
  next p4 e4 h4 =>
  have d4 := (calloc_data h4).trans d3
  split
  · next e5 h5 => exact (cell_batch_out_data _ _ _).trans ((calloc_data h5).trans d4)
  next p5 e5 h5 =>
  have d5 := (calloc_data h5).trans d4
  split
  · next x e6 h6 =>
    exact (cell_batch_out_data _ _ _).trans
      (((for_loop_throwsOnly (fun s : CellBatchBufs × Env => s.2) _
        (commitments_loop_body_throwsOnly K _) _ _ _ _ (Or.inr h6)).1).trans d5)
  next s1 h6 =>
  have d6 := ((for_loop_throwsOnly (fun s : CellBatchBufs × Env => s.2) _
    (commitments_loop_body_throwsOnly K _) _ _ _ _ (Or.inl h6)).1).trans d5
  split
  · next x e7 h7 =>
    have d7 := (throwsOrUnwinds_data (cell_batch_loop_error K _ _ _ _ _ _ _ _ h7)).1.trans d6
    split
    · exact d7
    · exact (cell_batch_out_data _ _ _).trans d7
  · next mem e7 h7 =>
    have d7 := ((cell_batch_loop_ok K _ _ _ _ _ _ _ _ h7).1).trans d6
    split
    · exact (cell_batch_out_data _ _ _).trans d7
    · exact (cell_batch_out_data _ _ _).trans d7

theorem Operation.run_data (H : Host) (E : Engine) (K : Constants) (op : Operation)
    (info : List Value) (env : Env) : (op.run H E K info env).2.data = env.data := by
  cases op
  · exact BlobToKzgCommitment_data E K info env
  · exact ComputeKzgProof_data E K info env
  · exact ComputeBlobKzgProof_data E K info env
  · exact VerifyKzgProof_data E K info env
  · exact VerifyBlobKzgProof_data E K info env
  · exact VerifyBlobKzgProofBatch_data H E K info env
  · exact ComputeCells_data H E K info env
  · exact ComputeCellsAndKzgProofs_data H E K info env
  · exact CellsToBlob_data H E K info env
  · exact RecoverAllCells_data H E K info env
  · exact VerifyCellKzgProof_data E K info env
  · exact VerifyCellKzgProofBatch_data H E K info env

/-! ## The instance state over a sequence of calls -/

theorem LoadTrustedSetup_loaded_data (H : Host) (E : Engine) (precompute : Int)
    (file_path : String) (st : KzgAddonData) (h : st.is_setup = true) :
    (LoadTrustedSetup H E precompute file_path (Env.start st)).2.data = st := by
  unfold LoadTrustedSetup
  simp [Env.start, h, Env.throwJs, Env.emit]

theorem LoadTrustedSetup_is_setup (H : Host) (E : Engine) (precompute : Int)
    (file_path : String) (st : KzgAddonData) :
    (LoadTrustedSetup H E precompute file_path (Env.start st)).2.data.is_setup =
      (st.is_setup ||
        (thrown (LoadTrustedSetup H E precompute file_path (Env.start st)).2.log).isEmpty) := by
  unfold LoadTrustedSetup
  generalize (precompute % (2 ^ 64 : Int)).toNat = p
  cases h : st.is_setup
  · cases hf : H.fopen file_path with
    | none => simp [Env.start, h, hf, thrown, Env.emit, Env.throwJs]
    | some fh =>
      by_cases hr : (E.load_trusted_setup_file st.settings fh p).1 = C_KZG_OK
      · simp [Env.start, h, hf, hr, thrown, Env.emit, Env.throwJs]
      · simp [Env.start, h, hf, hr, thrown, Env.emit, Env.throwJs]
  · simp [Env.start, h, thrown, Env.emit, Env.throwJs]

theorem Call.run_loaded (H : Host) (E : Engine) (K : Constants) (c : Call)
    (st : KzgAddonData) (h : st.is_setup = true) : (c.run H E K st).2.data = st := by
  cases c with
  | load precompute file_path => exact LoadTrustedSetup_loaded_data H E precompute file_path st h
  | op o info => exact Operation.run_data H E K o info (Env.start st)

theorem run_calls_loaded (H : Host) (E : Engine) (K : Constants) (calls : List Call) :
    ∀ st : KzgAddonData, st.is_setup = true → run_calls H E K calls st = st := by
  induction calls with
  | nil => intro st _; rfl
  | cons c cs ih =>
    intro st h
    show run_calls H E K cs (c.run H E K st).2.data = st
    rw [Call.run_loaded H E K c st h]
    exact ih st h

theorem run_calls_append (H : Host) (E : Engine) (K : Constants) (calls1 calls2 : List Call) :
    ∀ st : KzgAddonData, run_calls H E K (calls1 ++ calls2) st =
      run_calls H E K calls2 (run_calls H E K calls1 st) := by
  induction calls1 with
  | nil => intro st; rfl
  | cons c cs ih =>
    intro st
    exact ih (c.run H E K st).2.data

theorem run_calls_all_loads_fail (H : Host) (E : Engine) (K : Constants) (calls : List Call) :
    ∀ st : KzgAddonData, st.is_setup = false → all_loads_fail H E K calls st = true →
      (run_calls H E K calls st).is_setup = false := by
  induction calls with
  | nil => intro st h _; exact h
  | cons c cs ih =>
    intro st h hall
    simp only [all_loads_fail, Bool.and_eq_true, Bool.or_eq_true, Bool.not_eq_true'] at hall
    apply ih _ _ hall.2
    cases c with
    | load precompute file_path =>
      have hthrown : (thrown (LoadTrustedSetup H E precompute file_path
          (Env.start st)).2.log).isEmpty = false := by
        rcases hall.1 with hl | ht
        · cases hl
        · exact ht
      show (LoadTrustedSetup H E precompute file_path (Env.start st)).2.data.is_setup = false
      rw [LoadTrustedSetup_is_setup, h, hthrown]
      rfl
    | op o info =>
      show (o.run H E K info (Env.start st)).2.data.is_setup = false
      rw [Operation.run_data]
      exact h

/-- C19: the teardown `delete_kzg_addon_data` of an instance whose `is_setup`
is true consists of exactly one engine call, `free_trusted_setup` on the
settings of the instance; on an instance whose `is_setup` is false it does
nothing. After any sequence of calls on a freshly initialised instance in
which every `loadTrustedSetup` failed (a sequence without loads included), the
teardown performs no engine call. -/
theorem teardown_frees_setup_once (H : Host) (E : Engine) (K : Constants)
    (data : KzgAddonData) (s : KZGSettings) (calls : List Call) :
    (data.is_setup = true →
      delete_kzg_addon_data data =
        [Event.engine (EngineCall.free_trusted_setup data.settings)]) ∧
    (data.is_setup = false → delete_kzg_addon_data data = []) ∧
    (all_loads_fail H E K calls (Init s) = true →
      delete_kzg_addon_data (run_calls H E K calls (Init s)) = []) := by
  refine ⟨?_, ?_, ?_⟩
  · intro h
    simp [delete_kzg_addon_data, h]
  · intro h
    simp [delete_kzg_addon_data, h]
  · intro hall
    have h := run_calls_all_loads_fail H E K calls (Init s) rfl hall
    simp [delete_kzg_addon_data, h]

/-- Witness of C19: teardown of a loaded instance, and of an instance on which
a load from a missing file and a `computeCells` were attempted. -/
theorem teardown_frees_setup_once_witness :
    loaded.is_setup = true ∧
    delete_kzg_addon_data loaded =
      [Event.engine (EngineCall.free_trusted_setup loaded.settings)] ∧
    all_loads_fail host_ok engine_ok eip4844
      [Call.load 0 "missing.txt", Call.op .computeCells [Value.undefined]] (Init 0) = true ∧
    delete_kzg_addon_data (run_calls host_ok engine_ok eip4844
      [Call.load 0 "missing.txt", Call.op .computeCells [Value.undefined]] (Init 0)) = [] :=
  ⟨rfl,
    (teardown_frees_setup_once host_ok engine_ok eip4844 loaded 0
      [Call.load 0 "missing.txt", Call.op .computeCells [Value.undefined]]).1 rfl,
    by decide,
    (teardown_frees_setup_once host_ok engine_ok eip4844 loaded 0
      [Call.load 0 "missing.txt", Call.op .computeCells [Value.undefined]]).2.2 (by decide)⟩

/-- C20: `Init` creates the instance state with `is_setup` false. Every
operation other than `loadTrustedSetup`, on every argument list and from every
state, leaves the instance data (`is_setup` and `settings`) unchanged.
A `loadTrustedSetup` leaves `is_setup` true if it was true (the whole data is
then unchanged) and, if it was false, sets it to true exactly when the load
succeeds, that is, raises nothing. Over every sequence of calls, once
`is_setup` is true the instance data never changes again: `is_setup` never
goes back to false. -/
theorem is_setup_changes_once (H : Host) (E : Engine) (K : Constants) (s : KZGSettings)
    (op : Operation) (info : List Value) (env : Env) (precompute : Int) (file_path : String)
    (st : KzgAddonData) (calls1 calls2 : List Call) :
    (Init s).is_setup = false ∧
    (op.run H E K info env).2.data = env.data ∧
    (LoadTrustedSetup H E precompute file_path (Env.start st)).2.data.is_setup =
      (st.is_setup ||
        (thrown (LoadTrustedSetup H E precompute file_path (Env.start st)).2.log).isEmpty) ∧
    (st.is_setup = true →
      (LoadTrustedSetup H E precompute file_path (Env.start st)).2.data = st) ∧
    (st.is_setup = true → run_calls H E K calls1 st = st) ∧
    ((run_calls H E K calls1 st).is_setup = true →
      run_calls H E K (calls1 ++ calls2) st = run_calls H E K calls1 st) := by
  refine ⟨rfl, Operation.run_data H E K op info env,
    LoadTrustedSetup_is_setup H E precompute file_path st,
    LoadTrustedSetup_loaded_data H E precompute file_path st,
    run_calls_loaded H E K calls1 st, ?_⟩
  intro h
  rw [run_calls_append]
  exact run_calls_loaded H E K calls2 _ h

/-- Witness of C20: a successful load followed by a second load and a
`computeCells` leaves the instance as the first load left it. -/
theorem is_setup_changes_once_witness :
    (run_calls host_ok engine_ok eip4844 [Call.load 0 "trusted_setup.txt"]
      not_loaded).is_setup = true ∧
    run_calls host_ok engine_ok eip4844
        ([Call.load 0 "trusted_setup.txt"] ++
          [Call.load 1 "missing.txt", Call.op .computeCells [Value.undefined]]) not_loaded =
      run_calls host_ok engine_ok eip4844 [Call.load 0 "trusted_setup.txt"] not_loaded :=
  ⟨by decide,
    (is_setup_changes_once host_ok engine_ok eip4844 0 .computeCells [] (Env.start not_loaded)
      0 "trusted_setup.txt" not_loaded [Call.load 0 "trusted_setup.txt"]
      [Call.load 1 "missing.txt", Call.op .computeCells [Value.undefined]]).2.2.2.2.2
      (by decide)⟩

/-! ## The status-returning validators -/

theorem get_bytes_new_wrong_length (d : Bytes) (n : Nat) (name : String) (env : Env)
    (h : d.length ≠ n) :
    new_h.get_bytes_new (Value.typedArray .napi_uint8_array d) n name env =
      ((C_KZG_TS_RET.OK, none),
        env.throwJs .TypeError ("Expected " ++ name ++ " to be " ++ toString n ++ " bytes")) := by
  unfold new_h.get_bytes_new
  simp [Value.IsTypedArray, Value.TypedArrayType, Value.ByteLength, Value.Data, h]

theorem get_bytes_new_right_length (d : Bytes) (n : Nat) (name : String) (env : Env)
    (h : d.length = n) :
    new_h.get_bytes_new (Value.typedArray .napi_uint8_array d) n name env =
      ((C_KZG_TS_RET.OK, some d), env) := by
  unfold new_h.get_bytes_new
  simp [Value.IsTypedArray, Value.TypedArrayType, Value.ByteLength, Value.Data, h]

/-- C23, the code at a failing input: `get_bytes_new` called with a
`Uint8Array` of 47 bytes where 48 are expected throws the wrong-length
`TypeError`, leaves the output pointer null and returns the status `OK`. -/
theorem get_bytes_new_wrong_length_returns_ok :
    new_h.get_bytes_new (Value.typedArray .napi_uint8_array (List.replicate 47 0)) 48
        "commitmentBytes" (Env.start loaded) =
      ((C_KZG_TS_RET.OK, none),
        (Env.start loaded).throwJs .TypeError
          ("Expected " ++ "commitmentBytes" ++ " to be " ++ toString 48 ++ " bytes")) :=
  get_bytes_new_wrong_length (List.replicate 47 0) 48 "commitmentBytes" (Env.start loaded)
    (by decide)

/-- C24, the code at a failing input: `get_bytes48` of `src/new.h` validates
against `BYTES_PER_FIELD_ELEMENT` (32): it accepts a `Uint8Array` of 32 bytes
(status `OK`, non-null pointer, nothing thrown) and rejects one of
`BYTES_PER_COMMITMENT` = 48 bytes with the `TypeError` "Expected proofBytes to
be 32 bytes"; `get_bytes48` of `refactor/kzg.cxx` accepts the 48 bytes and
rejects the 32. -/
theorem new_get_bytes48_accepts_field_element_size :
    new_h.get_bytes48 eip4844 (Value.typedArray .napi_uint8_array (List.replicate 32 0))
        "proofBytes" (Env.start loaded) =
      ((C_KZG_TS_RET.OK, some (List.replicate 32 0)), Env.start loaded) ∧
    new_h.get_bytes48 eip4844 (Value.typedArray .napi_uint8_array (List.replicate 48 0))
        "proofBytes" (Env.start loaded) =
      ((C_KZG_TS_RET.OK, none),
        (Env.start loaded).throwJs .TypeError
          ("Expected " ++ "proofBytes" ++ " to be " ++ toString 32 ++ " bytes")) ∧
    get_bytes48 eip4844 (Value.typedArray .napi_uint8_array (List.replicate 48 0))
        "proofBytes" (Env.start loaded) = (some (List.replicate 48 0), Env.start loaded) ∧
    get_bytes48 eip4844 (Value.typedArray .napi_uint8_array (List.replicate 32 0))
        "proofBytes" (Env.start loaded) =
      (none, (Env.start loaded).throwJs .TypeError
        ("Expected " ++ "proofBytes" ++ " to be " ++ toString 48 ++ " bytes")) ∧
    eip4844.BYTES_PER_FIELD_ELEMENT = 32 ∧ eip4844.BYTES_PER_COMMITMENT = 48 ∧
    eip4844.BYTES_PER_PROOF = 48 :=
  ⟨get_bytes_new_right_length (List.replicate 32 0) 32 "proofBytes" (Env.start loaded)
      (by decide),
    get_bytes_new_wrong_length (List.replicate 48 0) 32 "proofBytes" (Env.start loaded)
      (by decide),
    (get_bytes_of_hasBytes "proofBytes" (Env.start loaded)
      (⟨List.replicate 48 0, rfl, by decide⟩ :
        HasBytes (Value.typedArray .napi_uint8_array (List.replicate 48 0)) 48)),
    get_bytes_short "proofBytes" (Env.start loaded) (by decide),
    rfl, rfl, rfl⟩

theorem get_cell_id_non_number (id : Nat) (val : Value) (env : Env)
    (h : val.IsNumber = false) :
    get_cell_id id val env =
      ((C_KSG_TS_RET.C_KZG_TS_OK, id), env.throwJs .TypeError "cell id should be a number") := by
  unfold get_cell_id
  simp [h, C_KSG_TS_RET.ofCode]

/-- C25, the code at a failing input: `get_cell_id` of `refactor/kzg.cxx`
called with a string throws "cell id should be a number" and returns 0, which
is the success code `C_KZG_TS_OK`: the status of the rejection equals the
status of a success (for the number 7); `get_cell_id` of `src/new.h` returns
`JS_ERROR_THROWN` for the string. -/
theorem get_cell_id_rejection_returns_ok :
    get_cell_id 0 (Value.string "x") (Env.start loaded) =
      ((C_KSG_TS_RET.C_KZG_TS_OK, 0),
        (Env.start loaded).throwJs .TypeError "cell id should be a number") ∧
    (get_cell_id 0 (Value.number (Double.ofNat 7 (by decide))) (Env.start loaded)).1.1 =
      C_KSG_TS_RET.C_KZG_TS_OK ∧
    C_KSG_TS_RET.C_KZG_TS_OK.code = 0 ∧
    (new_h.get_cell_id 0 (Value.string "x") (Env.start loaded)).1.1 =
      C_KZG_TS_RET.JS_ERROR_THROWN :=
  ⟨get_cell_id_non_number 0 (Value.string "x") (Env.start loaded) rfl, rfl, rfl, rfl⟩

/-! ## Names of the engine's result codes -/

theorem throwsOnly_ne {env env1 : Env} (h : throwsOnly env env1)
    (ne : engine_calls env.log = []) : engine_calls env1.log = [] := by
  obtain ⟨-, -, ms, hl⟩ := h
  rw [hl, engine_calls_append, ne, engine_calls_throws]
  rfl

theorem throwsOrUnwinds_ne {env env1 : Env} (h : throwsOrUnwinds env env1)
    (hn : engine_calls env.log = []) : engine_calls env1.log = [] := by
  rcases h with h | ⟨e, h, rfl⟩
  · exact throwsOnly_ne h hn
  · show engine_calls (e.log ++ [Event.unwound]) = []
    rw [engine_calls_append, throwsOnly_ne h hn]
    rfl

theorem throwJs_ne (env : Env) (k : ErrorKind) (m : String)
    (ne : engine_calls env.log = []) : engine_calls (env.throwJs k m).log = [] := by
  show engine_calls (env.log ++ [Event.threw k m]) = []
  rw [engine_calls_append, ne]
  rfl

theorem free_ne (p : Option Nat) (env : Env)
    (ne : engine_calls env.log = []) : engine_calls (free p env).log = [] := by
  cases p with
  | none => exact ne
  | some b =>
    show engine_calls (env.log ++ [Event.free b]) = []
    rw [engine_calls_append, ne]
    rfl

theorem get_kzg_settings_ne {env env1 : Env} {o : Option KZGSettings}
    (h : get_kzg_settings env = (o, env1))
    (ne : engine_calls env.log = []) : engine_calls env1.log = [] := by
  rcases get_kzg_settings_cases env with ⟨-, h1⟩ | ⟨-, h1⟩
  · rw [h1] at h
    injection h with _ h2
    rw [← h2]
    exact ne
  · rw [h1] at h
    injection h with _ h2
    rw [← h2]
    exact throwJs_ne env _ _ ne

theorem calloc_ne {H : Host} {count size : Nat} {env env1 : Env} {o : Option Nat}
    (h : calloc H count size env = (o, env1))
    (ne : engine_calls env.log = []) : engine_calls env1.log = [] := by
  rcases calloc_cases H count size env with ⟨-, h1⟩ | ⟨-, h1⟩
  · rw [h1] at h
    injection h with _ h2
    rw [← h2]
    show engine_calls (env.log ++ [Event.calloc env.ncalloc count size]) = []
    rw [engine_calls_append, ne]
    rfl
  · rw [h1] at h
    injection h with _ h2
    rw [← h2]
    show engine_calls (env.log ++ [Event.calloc_null count size]) = []
    rw [engine_calls_append, ne]
    rfl

theorem get_cell_id_call_number (v : Value) (env : Env) (h : v.IsNumber = true) :
    get_cell_id_call v env = (v.DoubleValue_u64, env) := by
  unfold get_cell_id_call get_cell_id
  simp [h]

theorem element_after_number (v : Value) (xs : List Value) (i : Nat)
    (h : v.IsNumber = true) : element_after_get_cell_id v xs i = some (at_index xs i) := by
  unfold element_after_get_cell_id
  simp [h]

theorem recover_loop_fill (K : Constants) (ids cells : List Value) (env0 : Env)
    (hlen : ids.length = cells.length)
    (hnum : ∀ j < cells.length, (at_index ids j).IsNumber = true)
    (hv : ∀ j < cells.length, HasBytes (at_index cells j) K.BYTES_PER_CELL)
    (mem0 : RecoverBufs) (hl0 : mem0.cell_ids.length = cells.length)
    (hl1 : mem0.cells.length = cells.length) :
    for_loop (recover_loop_body K ids cells) cells.length 0 (mem0, env0) =
      Except.ok (⟨ids.map Value.DoubleValue_u64, cells.map Value.Data⟩, env0) := by
  obtain ⟨s1, hl, h1, ⟨h2, h3⟩, h4, h5⟩ :=
    for_loop_inv (recover_loop_body K ids cells)
    (fun j s => s.2 = env0 ∧
      (s.1.cell_ids.length = cells.length ∧
        ∀ k < j, s.1.cell_ids[k]? = some (at_index ids k).DoubleValue_u64) ∧
      (s.1.cells.length = cells.length ∧ ∀ k < j, s.1.cells[k]? = some (at_index cells k).Data))
    cells.length 0 (mem0, env0)
    ⟨rfl, ⟨hl0, fun k hk => by omega⟩, hl1, fun k hk => by omega⟩
    (by
      intro j s _ hj ⟨he, ⟨ha1, ha2⟩, hb1, hb2⟩
      have hjv := hv j (by omega)
      have hjn := hnum j (by omega)
      refine ⟨(⟨s.1.cell_ids.set j (at_index ids j).DoubleValue_u64,
          memcpy_at s.1.cells j (at_index cells j).Data K.BYTES_PER_CELL⟩, s.2),
        ?_, he, ⟨?_, ?_⟩, ?_, ?_⟩
      · unfold recover_loop_body get_cell
        rw [get_cell_id_call_number _ _ hjn, element_after_number _ _ _ hjn]
        dsimp only
        rw [get_bytes_of_hasBytes _ _ hjv]
      · simp [ha1]
      · exact set_filled s.1.cell_ids j _ (fun k => (at_index ids k).DoubleValue_u64)
          (by omega) ha2 rfl
      · simp [memcpy_at, hb1]
      · exact set_filled s.1.cells j _ (fun k => (at_index cells k).Data) (by omega) hb2
          (data_take_of_hasBytes hjv))
  rw [hl]
  have e1 : s1.1.cell_ids = ids.map Value.DoubleValue_u64 :=
    eq_map_of_filled Value.DoubleValue_u64 ids s1.1.cell_ids (by omega)
      (fun k hk => h3 k (by omega))
  have e2 : s1.1.cells = cells.map Value.Data :=
    eq_map_of_filled Value.Data cells s1.1.cells h4 (fun k hk => h5 k (by omega))
  rw [← e1, ← e2, ← h1]

/-- The whole of a call of `RecoverAllCells` on arrays of equal lengths whose
ids are numbers and whose cells have `BYTES_PER_CELL` bytes, the setup loaded
and the three allocations succeeding. -/
theorem RecoverAllCells_valid (H : Host) (E : Engine) (K : Constants)
    (ids cells rest : List Value) (st : KzgAddonData) (hs : st.is_setup = true)
    (hlen : ids.length = cells.length)
    (hnum : ∀ j < cells.length, (at_index ids j).IsNumber = true)
    (hv : ∀ j < cells.length, HasBytes (at_index cells j) K.BYTES_PER_CELL)
    (h0 : H.calloc_ok 0 cells.length 8 = true)
    (h1 : H.calloc_ok 1 cells.length K.BYTES_PER_CELL = true)
    (h2 : H.calloc_ok 2 K.CELLS_PER_EXT_BLOB K.BYTES_PER_CELL = true) :
    RecoverAllCells H E K (Value.array ids :: Value.array cells :: rest) (Env.start st) =
      if (E.recover_all_cells (ids.map Value.DoubleValue_u64) (cells.map Value.Data)
          cells.length st.settings).1 != C_KZG_OK then
        (Value.null,
          ⟨st, [Event.calloc 0 cells.length 8, Event.calloc 1 cells.length K.BYTES_PER_CELL,
            Event.calloc 2 K.CELLS_PER_EXT_BLOB K.BYTES_PER_CELL,
            Event.engine (EngineCall.recover_all_cells (ids.map Value.DoubleValue_u64)
              (cells.map Value.Data) cells.length st.settings),
            Event.threw .Error ("Error in recoverAllCells: " ++ from_c_kzg_ret
              (E.recover_all_cells (ids.map Value.DoubleValue_u64) (cells.map Value.Data)
                cells.length st.settings).1),
            Event.free 1], 3⟩)
      else
        (copy_out (E.recover_all_cells (ids.map Value.DoubleValue_u64) (cells.map Value.Data)
            cells.length st.settings).2 K.CELLS_PER_EXT_BLOB K.BYTES_PER_CELL,
          ⟨st, [Event.calloc 0 cells.length 8, Event.calloc 1 cells.length K.BYTES_PER_CELL,
            Event.calloc 2 K.CELLS_PER_EXT_BLOB K.BYTES_PER_CELL,
            Event.engine (EngineCall.recover_all_cells (ids.map Value.DoubleValue_u64)
              (cells.map Value.Data) cells.length st.settings),
            Event.free 1], 3⟩) := by
  unfold RecoverAllCells
  simp only [at_index_zero, at_index_one, Value.IsArray, Value.elems, Bool.not_true,
    Bool.false_eq_true, if_false]
  rw [get_kzg_settings_loaded _ hs]
  simp only [hlen, bne_self_eq_false, Bool.false_eq_true, if_false]
  rw [calloc_ok_eq H _ _ _ h0]
  simp only []
  rw [calloc_ok_eq H _ _ _ h1]
  simp only []
  rw [calloc_ok_eq H _ _ _ h2]
  simp only []
  rw [recover_loop_fill K ids cells _ hlen hnum hv _ (by simp) (by simp [zeroed])]
  simp only [Env.start]
  split <;> rfl

theorem for_loop_ok_all {σ : Type} (body : Nat → σ → Except σ σ) (P : Nat → Prop)
    (hbody : ∀ i s r, body i s = Except.ok r → P i) :
    ∀ (n i : Nat) (s r : σ), for_loop body n i s = Except.ok r →
      ∀ j, i ≤ j → j < i + n → P j := by
  intro n
  induction n with
  | zero => intro i s r _ j h1 h2; omega
  | succ n ih =>
    intro i s r h j h1 h2
    simp only [for_loop] at h
    cases hb : body i s with
    | error s1 => rw [hb] at h; cases h
    | ok s1 =>
      rw [hb] at h
      rcases Nat.eq_or_lt_of_le h1 with rfl | hlt
      · exact hbody _ _ _ hb
      · exact ih (i + 1) s1 r h j hlt (by omega)

theorem recover_loop_body_ok_inv (K : Constants) (ids cells : List Value) (i : Nat)
    (s r : RecoverBufs × Env) (h : recover_loop_body K ids cells i s = Except.ok r) :
    (at_index ids i).IsNumber = true ∧ HasBytes (at_index cells i) K.BYTES_PER_CELL := by
  unfold recover_loop_body get_cell at h
  rcases element_after_get_cell_id_cases (at_index ids i) cells i with ⟨hn, he⟩ | ⟨hn, he⟩
  · rw [he] at h
    dsimp only at h
    rcases get_bytes_cases (at_index cells i) K.BYTES_PER_CELL "cell"
      (get_cell_id_call (at_index ids i) s.2).2 with ⟨d, -, h1, h2⟩ | ⟨m, h1, -⟩
    · exact ⟨hn, d, h1, h2⟩
    · rw [h1] at h
      cases h
  · rw [he] at h
    cases h

theorem mem_of_at_index {xs : List Value} {P : Value → Prop}
    (h : ∀ j < xs.length, P (at_index xs j)) : ∀ v ∈ xs, P v := by
  intro v hv
  obtain ⟨j, hj, rfl⟩ := List.getElem_of_mem hv
  have := h j hj
  unfold at_index at this
  rwa [List.getD_eq_getElem _ _ hj] at this

/-- `RecoverAllCells` invokes the engine only on arrays of equal lengths whose
ids are numbers and whose cells have `BYTES_PER_CELL` bytes. -/
theorem RecoverAllCells_engine_inv (H : Host) (E : Engine) (K : Constants)
    (ids cells rest : List Value) (st : KzgAddonData)
    (h : engine_calls (RecoverAllCells H E K (Value.array ids :: Value.array cells :: rest)
      (Env.start st)).2.log ≠ []) :
    ids.length = cells.length ∧ (∀ v ∈ ids, v.IsNumber = true) ∧
      ∀ c ∈ cells, HasBytes c K.BYTES_PER_CELL := by
  have n0 : engine_calls (Env.start st).log = [] := rfl
  revert h
  unfold RecoverAllCells
  simp only [at_index_zero, at_index_one, Value.IsArray, Value.elems, Bool.not_true,
    Bool.false_eq_true, if_false]
  split
  · next e0 h0 => intro h; exact absurd (get_kzg_settings_ne h0 n0) h
  next s e0 h0 =>
  have m0 := get_kzg_settings_ne h0 n0
  split
  · intro h; exact absurd (free_ne _ _ (throwJs_ne _ _ _ m0)) h
  next hlen =>
  have hlen1 : ids.length = cells.length := by simpa using hlen
  split
  · next e1 h1 =>
    intro h; exact absurd (free_ne _ _ (throwJs_ne _ _ _ (calloc_ne h1 m0))) h
  next p1 e1 h1 =>
  have n1 := calloc_ne h1 m0
  split
  · next e2 h2 =>
    intro h; exact absurd (free_ne _ _ (throwJs_ne _ _ _ (calloc_ne h2 n1))) h
  next p2 e2 h2 =>
  have n2 := calloc_ne h2 n1
  split
  · next e3 h3 =>
    intro h; exact absurd (free_ne _ _ (throwJs_ne _ _ _ (calloc_ne h3 n2))) h
  next p3 e3 h3 =>
  have n3 := calloc_ne h3 n2
  split
  · next x e4 h4 =>
    have n4 := throwsOrUnwinds_ne (recover_loop_error K _ _ _ _ _ _ h4) n3
    split
    · intro h; exact absurd n4 h
    · intro h; exact absurd (free_ne _ _ n4) h
  · next mem e4 h4 =>
    intro _
    have hall := for_loop_ok_all (recover_loop_body K ids cells)
      (fun j => (at_index ids j).IsNumber = true ∧ HasBytes (at_index cells j) K.BYTES_PER_CELL)
      (recover_loop_body_ok_inv K ids cells) _ _ _ _ h4
    refine ⟨hlen1, mem_of_at_index (fun j hj => (hall j (Nat.zero_le _) (by omega)).1),
      mem_of_at_index (fun j hj => (hall j (Nat.zero_le _) (by omega)).2)⟩

theorem Buffer_Copy_hasBytes (p : Bytes) (n : Nat) : HasBytes (Buffer_Copy p n) n := by
  refine ⟨_, rfl, ?_⟩
  simp only [List.length_append, List.length_take, List.length_replicate]
  omega

theorem copy_out_cells (buf : List Bytes) (n size : Nat) :
    (copy_out buf n size).Length = n ∧ ∀ v ∈ (copy_out buf n size).elems, HasBytes v size := by
  constructor
  · simp [copy_out, Value.Length, Value.elems]
  · intro v hv
    simp only [copy_out, Value.elems, List.mem_map] at hv
    obtain ⟨i, -, rfl⟩ := hv
    exact Buffer_Copy_hasBytes _ _

/-- C12: with the setup loaded and the three allocations succeeding,
`recoverAllCells(cellIds, cells)` invokes the engine's recovery function
exactly when the arrays have equal lengths, every cell id is a number and
every cell is a `Uint8Array` of `BYTES_PER_CELL` bytes: the number of cells
plays no part, none being compared with `CELLS_PER_EXT_BLOB`.  The function is
then invoked once, on the cells in order.  When it returns a code other than
`C_KZG_OK`, the call throws "Error in recoverAllCells: " with the name of the
code, and returns `null`; when it returns `C_KZG_OK`, the call throws nothing
and returns an array of exactly `CELLS_PER_EXT_BLOB` buffers of
`BYTES_PER_CELL` bytes, the copies of the recovered cells. -/
theorem recover_all_cells_marshaling (H : Host) (E : Engine) (K : Constants)
    (ids cells rest : List Value) (st : KzgAddonData) (hs : st.is_setup = true)
    (h0 : H.calloc_ok 0 cells.length 8 = true)
    (h1 : H.calloc_ok 1 cells.length K.BYTES_PER_CELL = true)
    (h2 : H.calloc_ok 2 K.CELLS_PER_EXT_BLOB K.BYTES_PER_CELL = true) :
    (engine_calls (RecoverAllCells H E K (Value.array ids :: Value.array cells :: rest)
        (Env.start st)).2.log ≠ [] ↔
      ids.length = cells.length ∧ (∀ v ∈ ids, v.IsNumber = true) ∧
        ∀ c ∈ cells, HasBytes c K.BYTES_PER_CELL) ∧
    (ids.length = cells.length → (∀ v ∈ ids, v.IsNumber = true) →
      (∀ c ∈ cells, HasBytes c K.BYTES_PER_CELL) →
      ∃ cell_ids : List Nat, cell_ids.length = cells.length ∧
        engine_calls (RecoverAllCells H E K (Value.array ids :: Value.array cells :: rest)
            (Env.start st)).2.log =
          [EngineCall.recover_all_cells cell_ids (cells.map Value.Data) cells.length
            st.settings] ∧
        ((E.recover_all_cells cell_ids (cells.map Value.Data) cells.length st.settings).1 ≠
            C_KZG_OK →
          (RecoverAllCells H E K (Value.array ids :: Value.array cells :: rest)
            (Env.start st)).1 = Value.null ∧
          thrown (RecoverAllCells H E K (Value.array ids :: Value.array cells :: rest)
            (Env.start st)).2.log =
            [(ErrorKind.Error, "Error in recoverAllCells: " ++ from_c_kzg_ret
              (E.recover_all_cells cell_ids (cells.map Value.Data) cells.length
                st.settings).1)]) ∧
        ((E.recover_all_cells cell_ids (cells.map Value.Data) cells.length st.settings).1 =
            C_KZG_OK →
          (RecoverAllCells H E K (Value.array ids :: Value.array cells :: rest)
            (Env.start st)).1 =
            copy_out (E.recover_all_cells cell_ids (cells.map Value.Data) cells.length
              st.settings).2 K.CELLS_PER_EXT_BLOB K.BYTES_PER_CELL ∧
          (RecoverAllCells H E K (Value.array ids :: Value.array cells :: rest)
            (Env.start st)).1.Length = K.CELLS_PER_EXT_BLOB ∧
          (∀ v ∈ (RecoverAllCells H E K (Value.array ids :: Value.array cells :: rest)
            (Env.start st)).1.elems, HasBytes v K.BYTES_PER_CELL) ∧
          thrown (RecoverAllCells H E K (Value.array ids :: Value.array cells :: rest)
            (Env.start st)).2.log = [])) := by
  have hvalid : ids.length = cells.length → (∀ v ∈ ids, v.IsNumber = true) →
      (∀ c ∈ cells, HasBytes c K.BYTES_PER_CELL) →
      RecoverAllCells H E K (Value.array ids :: Value.array cells :: rest) (Env.start st) = _ :=
    fun hlen hnum hv => RecoverAllCells_valid H E K ids cells rest st hs hlen
      (fun j hj => hnum _ (at_index_mem (by omega))) (fun j hj => hv _ (at_index_mem hj))
      h0 h1 h2
  refine ⟨⟨RecoverAllCells_engine_inv H E K ids cells rest st, ?_⟩, ?_⟩
  · rintro ⟨hlen, hnum, hv⟩
    rw [hvalid hlen hnum hv]
    split <;> simp [engine_calls]
  · intro hlen hnum hv
    refine ⟨ids.map Value.DoubleValue_u64, by simp [hlen], ?_, ?_, ?_⟩
    · rw [hvalid hlen hnum hv]
      split <;> rfl
    · intro hne
      have hc : ((E.recover_all_cells (ids.map Value.DoubleValue_u64) (cells.map Value.Data)
          cells.length st.settings).1 != C_KZG_OK) = true := by simpa using hne
      rw [hvalid hlen hnum hv, if_pos hc]
      exact ⟨rfl, rfl⟩
    · intro hok
      have hc : ¬ ((E.recover_all_cells (ids.map Value.DoubleValue_u64) (cells.map Value.Data)
          cells.length st.settings).1 != C_KZG_OK) = true := by simp [hok]
      rw [hvalid hlen hnum hv, if_neg hc]
      exact ⟨rfl, (copy_out_cells _ _ _).1, (copy_out_cells _ _ _).2, rfl⟩

/-- Witness of C12: one cell of 2048 zero bytes with the id 0, fewer than half
of `CELLS_PER_EXT_BLOB`: the engine is invoked. -/
theorem recover_all_cells_marshaling_witness :
    loaded.is_setup = true ∧ [zeros 2048].length < eip4844.CELLS_PER_EXT_BLOB / 2 ∧
    engine_calls (RecoverAllCells host_ok engine_ok eip4844
      (Value.array [Value.number (Double.ofNat 0 (by decide))] :: Value.array [zeros 2048] ::
        []) (Env.start loaded)).2.log ≠ [] :=
  ⟨rfl, by decide,
    (recover_all_cells_marshaling host_ok engine_ok eip4844
      [Value.number (Double.ofNat 0 (by decide))] [zeros 2048] [] loaded rfl rfl rfl rfl).1.2
      ⟨rfl, by simp [Value.IsNumber], by
        intro c hc
        rw [List.mem_singleton.1 hc]
        exact hasBytes_zeros 2048⟩⟩

/-! ## `recoverAllCells`: the buffers still held on return -/

/-- C6, the code at a failing input: recovering from one valid cell with id 0,
setup loaded and every allocation succeeding, allocates the buffers 0
(`cell_ids`), 1 (`cells`) and 2 (`recovered`) and releases buffer 1 only:
`cell_ids` and `recovered` are still held when the call returns. -/
theorem recover_all_cells_leaks :
    allocated (RecoverAllCells host_ok engine_ok eip4844
      [Value.array [Value.number (Double.ofNat 0 (by decide))], Value.array [zeros 2048]]
      (Env.start loaded)).2.log
        = [0, 1, 2] ∧
    released (RecoverAllCells host_ok engine_ok eip4844
      [Value.array [Value.number (Double.ofNat 0 (by decide))], Value.array [zeros 2048]]
      (Env.start loaded)).2.log
        = [1] ∧
    leaked (RecoverAllCells host_ok engine_ok eip4844
      [Value.array [Value.number (Double.ofNat 0 (by decide))], Value.array [zeros 2048]]
      (Env.start loaded)).2.log
        = [0, 2] := by
  have h := RecoverAllCells_valid host_ok engine_ok eip4844
    [Value.number (Double.ofNat 0 (by decide))] [zeros 2048] [] loaded rfl rfl
    (fun j hj => by
      have h0 : j = 0 := by simpa using hj
      subst h0
      rfl)
    (hasBytes_single 2048) rfl rfl rfl
  rw [h]
  split
  · exact ⟨rfl, rfl, by decide⟩
  · exact ⟨rfl, rfl, by decide⟩

end CKzg
